import Mathlib

/-!
# Seat reservation core of the movie-booking backend

A shallow embedding of the request handlers of `backend/routes/seats.js`,
`backend/routes/bookings.js` and `backend/routes/payments.js`, together with the helpers
they call (`backend/utils/redis.js`, `backend/utils/kafka.js`).

Conventions of the embedding

* Mongo object ids are compared in the source through `toString()`; they are strings here.
* A JavaScript `Date` is its number of milliseconds since the epoch, an `Int`.
  One request reads the clock once (`Env.now`).
* The database, the Redis lock store, the Kafka producer and the socket.io rooms are
  fields of `World`; a handler is a function from a world and a request to a response
  and a new world.  Every database access is also written to `World.trace`.
* A rejected promise of a persistence call is an input of the request (`Env`): the
  handler then leaves through its `catch` block with status 500.  The Redis client is
  connected and its calls resolve.
* Razorpay and the signature check of a payment are inputs of the payment handlers.
* Amounts are doubles in the source.  Integer amounts are natural numbers here and every
  operation on them rounds as the double operation does (`round53`).
-/

namespace SeatBooking

abbrev Id := String

abbrev Time := Int

/-! ## Data model -/

/-- Status of a record of `showtime.bookedSeats`. -/
inductive SeatStatus where
  | held
  | booked
  | blocked
deriving DecidableEq, Repr

/-- One element of `showtime.bookedSeats`.  `holdExpiry` is `none` when the field is
undefined; every comparison `undefined > date` is false in the source language. -/
structure BookedSeat where
  seatId : Id
  userId : Id
  status : SeatStatus
  holdExpiry : Option Time
deriving DecidableEq, Repr

/-- Seat type tag, the keys of the pricing table written by `seeder.js`. -/
inductive SeatType where
  | classic
  | premium
  | recliner
deriving DecidableEq, Repr

/-- The table `showtime.pricing`. -/
structure Pricing where
  classic : Nat
  premium : Nat
  recliner : Nat
deriving DecidableEq, Repr

/-- The lookup `showtime.pricing[seat.type]`. -/
def Pricing.get (p : Pricing) : SeatType → Nat
  | .classic => p.classic
  | .premium => p.premium
  | .recliner => p.recliner

/-- One element of `screen.seatLayout`. -/
structure Seat where
  _id : Id
  row : String
  number : Nat
  type : SeatType
deriving DecidableEq, Repr

/-- A showtime document.  `layout` is the seat layout of
`showtime.theater.screens.id(showtime.screen)` after population (`none` when the theater
has no such screen); `showDateTime` is the instant
`new Date(date.toDateString() + " " + time)`. -/
structure Showtime where
  _id : Id
  layout : Option (List Seat)
  showDateTime : Time
  pricing : Pricing
  totalSeats : Int
  availableSeats : Int
  bookedSeats : List BookedSeat
deriving DecidableEq, Repr

/-- Lifecycle status of a booking. -/
inductive BookingStatus where
  | pending
  | confirmed
  | cancelled
deriving DecidableEq, Repr

/-- One element of `booking.seats`. -/
structure SeatDetail where
  seatId : Id
  row : String
  number : Nat
  type : SeatType
  price : Nat
deriving DecidableEq, Repr

/-- The sub-document `booking.paymentDetails`. -/
structure PaymentDetails where
  paymentId : Option String
  paymentMethod : Option String
  paymentStatus : Option String
  transactionId : Option String
  paidAt : Option Time
deriving DecidableEq, Repr

/-- The sub-document `booking.cancellationDetails`. -/
structure CancellationDetails where
  cancelledAt : Time
  reason : String
  refundAmount : Nat
  refundStatus : String
deriving DecidableEq, Repr

/-- A booking document. -/
structure Booking where
  _id : Id
  user : Id
  showtime : Id
  seats : List SeatDetail
  totalAmount : Nat
  convenienceFee : Nat
  taxes : Nat
  finalAmount : Nat
  status : BookingStatus
  paymentDetails : PaymentDetails
  cancellationDetails : Option CancellationDetails
deriving DecidableEq, Repr

/-- A user document, reduced to the field the handlers write. -/
structure User where
  _id : Id
  bookingHistory : List Id
deriving DecidableEq, Repr

/-- An entry of the Redis store: key, value and the instant at which its TTL ends,
`none` for an entry written without a TTL. -/
structure LockEntry where
  key : String
  value : String
  expiresAt : Option Time
deriving DecidableEq, Repr

/-- A record handed to `producer.send`: the topic and the fields of the message. -/
structure KafkaRecord where
  topic : String
  showtimeId : Option Id
  seatId : Option Id
  seats : List Id
  bookingId : Option Id
  status : String
  userId : Id
  timestamp : Time
deriving DecidableEq, Repr

/-- A `seat-status-update` event emitted to a socket.io room. -/
structure SocketEvent where
  room : String
  seatId : Id
  status : String
  row : Option String
deriving DecidableEq, Repr

/-- Database and lock-store accesses, in the order the handlers make them. -/
inductive Op where
  | redisSet (key value : String) (px : Int)
  | redisDel (key : String)
  | showtimeFind (id : Id)
  | showtimeSave (id : Id)
  | bookingFind (id : Id)
  | bookingCreate (id : Id)
  | bookingSave (id : Id)
  | userUpdate (id : Id)
deriving DecidableEq, Repr

/-- Everything the handlers read and write. -/
structure World where
  showtimes : List Showtime
  bookings : List Booking
  users : List User
  locks : List LockEntry
  producer : Bool
  kafka : List KafkaRecord
  emitted : List SocketEvent
  trace : List Op
deriving DecidableEq, Repr

/-- Inputs of one request that do not come from the client: the clock, the id Mongo
gives to a created booking, and which asynchronous calls reject. -/
structure Env where
  now : Time
  newId : Id
  showtimeFindThrows : Bool
  showtimeSaveThrows : Bool
  bookingFindThrows : Bool
  bookingCreateThrows : Bool
  bookingSaveThrows : Bool
  userUpdateThrows : Bool
  sendThrows : Bool
  emitThrows : Bool
deriving DecidableEq, Repr

/-- A request on which no call rejects. -/
def Env.calm (now : Time) (newId : Id) : Env :=
  ⟨now, newId, false, false, false, false, false, false, false, false⟩

/-- What a handler answers: the HTTP status, the message and, for a hold, the expiry. -/
structure Response where
  status : Nat
  message : String
  holdExpiry : Option Time
  booking : Option Booking
deriving DecidableEq, Repr

/-- An answer that carries only a status and a message. -/
def reply (status : Nat) (message : String) : Response :=
  ⟨status, message, none, none⟩

/-- The answer of every outer `catch` block. -/
def serverError : Response := reply 500 "Server error"

/-! ## Redis (`utils/redis.js` and the calls of `routes/seats.js`) -/

/-- Whether an entry is live: it has no TTL, or its TTL has not ended. -/
def LockEntry.live (e : LockEntry) (now : Time) : Bool :=
  match e.expiresAt with
  | none => true
  | some t => decide (now < t)

/-- Whether the store has a live entry for `key`. -/
def redisExists (locks : List LockEntry) (key : String) (now : Time) : Bool :=
  locks.any (fun e => e.key == key && e.live now)

/-- The value stored under `key`, if a live entry exists. -/
def redisGet (locks : List LockEntry) (key : String) (now : Time) : Option String :=
  (locks.find? (fun e => e.key == key && e.live now)).map (fun e => e.value)

/-- The call `redisClient.set(key, value, "PX", 30000, "NX")` of the hold handler.  The
client of `utils/redis.js` is the promise client (`createClient`, `await connect()`,
`setEx`), whose `set` takes the key, the value and one options object.  The strings and the
number passed in its place name no option, so the command sent is `SET key value`: the
reply is `OK` whether or not an entry exists, the entry replaces any earlier one, and it
has no TTL.  The result is the reply (`none` for a null reply, which this call never
gives) and the store. -/
def redisSet (locks : List LockEntry) (key value : String) :
    Option String × List LockEntry :=
  (some "OK", ⟨key, value, none⟩ :: locks.filter (fun e => e.key != key))

/-- The call `redisClient.del(key)`. -/
def redisDel (locks : List LockEntry) (key : String) : List LockEntry :=
  locks.filter (fun e => e.key != key)

/-! ## Kafka (`utils/kafka.js`) and socket.io -/

/-- The function `publishToKafka`: the record reaches the log when the producer is
initialised and `producer.send` resolves; every error is caught and logged. -/
def publishToKafka (w : World) (env : Env) (r : KafkaRecord) : World :=
  if w.producer && !env.sendThrows then { w with kafka := w.kafka ++ [r] } else w

/-- The call `io.to(room).emit("seat-status-update", ...)`. -/
def emit (w : World) (e : SocketEvent) : World :=
  { w with emitted := w.emitted ++ [e] }

/-! ## Persistence -/

/-- Appends an access to the trace. -/
def World.log (w : World) (op : Op) : World :=
  { w with trace := w.trace ++ [op] }

/-- Replaces the content of the lock store. -/
def World.setLocks (w : World) (locks : List LockEntry) : World :=
  { w with locks := locks }

/-- The query `Showtime.findById(id)`. -/
def findShowtime (w : World) (id : Id) : Option Showtime :=
  w.showtimes.find? (fun s => s._id == id)

/-- The call `showtime.save()`. -/
def saveShowtime (w : World) (s : Showtime) : World :=
  { w with showtimes := w.showtimes.map (fun t => if t._id == s._id then s else t) }

/-! ## Seat state -/

/-- The test `holdExpiry > now` of the source, false for an undefined expiry. -/
def expiryAfter (holdExpiry : Option Time) (now : Time) : Bool :=
  match holdExpiry with
  | some e => decide (now < e)
  | none => false

/-- Modelled from the spec: the records that make a seat unavailable for
`isSeatAvailable` (of `models/Showtime.js`, not among the sources).  A record occupies
its seat when it is booked, blocked, or held with `holdExpiry > now`. -/
def BookedSeat.active (r : BookedSeat) (now : Time) : Bool :=
  match r.status with
  | .booked => true
  | .blocked => true
  | .held => expiryAfter r.holdExpiry now

/-- Modelled from the spec: the method `showtime.isSeatAvailable(seatId)` of
`models/Showtime.js`, which is not among the sources.  A seat is available when it has no
record or only records that have expired: a held record whose `holdExpiry` is not after
the current time is equivalent to an absent one. -/
def isSeatAvailable (showtime : Showtime) (seatId : Id) (now : Time) : Bool :=
  showtime.bookedSeats.all (fun r => r.seatId != seatId || !r.active now)

/-! ## `POST /api/seats/hold` -/

/-- The key `seat_lock:${showtimeId}:${seatId}`. -/
def lockKey (showtimeId seatId : Id) : String :=
  "seat_lock:" ++ showtimeId ++ ":" ++ seatId

/-- The `try` block of the hold handler, entered with the lock held.  The result is
`none` when a call rejected. -/
def holdCritical (w : World) (env : Env) (userId showtimeId seatId : Id)
    (row : Option String) : Option Response × World :=
  let w := w.log (.showtimeFind showtimeId)
  if env.showtimeFindThrows then (none, w) else
  match findShowtime w showtimeId with
  | none => (some (reply 404 "Showtime not found"), w)
  | some showtime =>
    if !isSeatAvailable showtime seatId env.now then
      (some (reply 409 "Seat is not available"), w)
    else
      let kept := showtime.bookedSeats.filter (fun seat => seat.seatId != seatId)
      let holdExpiry : Time := env.now + 10 * 60 * 1000
      let showtime := { showtime with
        bookedSeats := kept ++ [⟨seatId, userId, .held, some holdExpiry⟩] }
      let w := w.log (.showtimeSave showtime._id)
      if env.showtimeSaveThrows then (none, w) else
      let w := saveShowtime w showtime
      let w := publishToKafka w env
        ⟨"seat-updates", some showtimeId, some seatId, [], none, "blocked", userId, env.now⟩
      if env.emitThrows then (none, w) else
      let w := emit w ⟨"showtime-" ++ showtimeId, seatId, "blocked", row⟩
      (some ⟨200, "Seat held successfully", some holdExpiry, none⟩, w)

/-- The handler of `POST /api/seats/hold`. -/
def hold (w : World) (env : Env) (userId showtimeId seatId : Id) (row : Option String) :
    Response × World :=
  let key := lockKey showtimeId seatId
  let w := w.log (.redisSet key userId 30000)
  let lockAcquired := redisSet w.locks key userId
  let w := w.setLocks lockAcquired.2
  match lockAcquired.1 with
  | none => (reply 409 "Seat is being processed by another user", w)
  | some _ =>
    let r := holdCritical w env userId showtimeId seatId row
    let w := r.2.log (.redisDel key)
    let w := w.setLocks (redisDel w.locks key)
    match r.1 with
    | some resp => (resp, w)
    | none => (serverError, w)

/-! ## `POST /api/seats/release` -/

/-- The handler of `POST /api/seats/release`. -/
def release (w : World) (env : Env) (userId showtimeId seatId : Id) (row : Option String) :
    Response × World :=
  let w := w.log (.showtimeFind showtimeId)
  if env.showtimeFindThrows then (serverError, w) else
  match findShowtime w showtimeId with
  | none => (reply 404 "Showtime not found", w)
  | some showtime =>
    let initialLength := showtime.bookedSeats.length
    let showtime := { showtime with
      bookedSeats := showtime.bookedSeats.filter (fun seat =>
        !(seat.seatId == seatId && seat.userId == userId && seat.status == .held)) }
    if showtime.bookedSeats.length < initialLength then
      let w := w.log (.showtimeSave showtime._id)
      if env.showtimeSaveThrows then (serverError, w) else
      let w := saveShowtime w showtime
      let w := publishToKafka w env
        ⟨"seat-updates", some showtimeId, some seatId, [], none, "available", userId, env.now⟩
      if env.emitThrows then (serverError, w) else
      let w := emit w ⟨"showtime-" ++ showtimeId, seatId, "available", row⟩
      (reply 200 "Seat released successfully", w)
    else
      (reply 404 "Held seat not found", w)

/-! ## `GET /api/seats/:showtimeId` -/

/-- Status of a seat in the layout answer. -/
inductive ViewStatus where
  | available
  | blocked
  | occupied
deriving DecidableEq, Repr

/-- One entry of an array of the layout answer. -/
structure SeatView where
  _id : Id
  row : String
  number : Nat
  type : SeatType
  price : Nat
  status : ViewStatus
deriving DecidableEq, Repr

/-- The status computed for a seat from the first record `bookedSeats.find` returns. -/
def viewStatus (bookedSeats : List BookedSeat) (seatId : Id) (now : Time) : ViewStatus :=
  match bookedSeats.find? (fun bs => bs.seatId == seatId) with
  | none => .available
  | some bookedSeat =>
    if bookedSeat.status == .booked then .occupied
    else if bookedSeat.status == .held && expiryAfter bookedSeat.holdExpiry now then .blocked
    else if bookedSeat.status == .blocked then .blocked
    else .available

/-- The entry pushed for a seat of the screen layout. -/
def seatView (showtime : Showtime) (now : Time) (seat : Seat) : SeatView :=
  ⟨seat._id, seat.row, seat.number, seat.type, showtime.pricing.get seat.type,
    viewStatus showtime.bookedSeats seat._id now⟩

/-- The property names that the object `{}` inherits from `Object.prototype`.  For such
a name `seatLayout[name]` is a function (or, for `__proto__`, the prototype object) before
any assignment: a value that is truthy and has no `push`. -/
def objectPrototypeKeys : List String :=
  ["constructor", "__defineGetter__", "__defineSetter__", "hasOwnProperty",
   "__lookupGetter__", "__lookupSetter__", "isPrototypeOf", "propertyIsEnumerable",
   "toString", "valueOf", "__proto__", "toLocaleString"]

/-- One step of the `forEach` on the own properties of the object `seatLayout`, an
association list from row names to arrays: the array of the row is created when the row
has none, and the entry is pushed. -/
def pushSeat (seatLayout : List (String × List SeatView)) (v : SeatView) :
    List (String × List SeatView) :=
  if seatLayout.any (fun p => p.1 == v.row) then
    seatLayout.map (fun p => if p.1 == v.row then (p.1, p.2 ++ [v]) else p)
  else
    seatLayout ++ [(v.row, [v])]

/-- One step of the `forEach`.  For a row named as an inherited property the test
`!seatLayout[seat.row]` is false, no array is created, and `seatLayout[seat.row].push`
is not a function: the step throws (`none`). -/
def pushSeatOrThrow (seatLayout : List (String × List SeatView)) (v : SeatView) :
    Option (List (String × List SeatView)) :=
  if objectPrototypeKeys.contains v.row then none else some (pushSeat seatLayout v)

/-- The loop that builds `seatLayout`; `none` when a step throws. -/
def buildSeatLayout (showtime : Showtime) (layout : List Seat) (now : Time) :
    Option (List (String × List SeatView)) :=
  layout.foldl
    (fun acc seat => acc.bind (fun l => pushSeatOrThrow l (seatView showtime now seat)))
    (some [])

/-- The handler of `GET /api/seats/:showtimeId`: the status and, on success, the seat
layout of the answer. -/
def getSeatLayout (w : World) (env : Env) (showtimeId : Id) :
    Nat × Option (List (String × List SeatView)) :=
  if env.showtimeFindThrows then (500, none) else
  match findShowtime w showtimeId with
  | none => (404, none)
  | some showtime =>
    match showtime.layout with
    | none => (404, none)
    | some layout =>
      match buildSeatLayout showtime layout env.now with
      | none => (500, none)
      | some seatLayout => (200, some seatLayout)

/-! ## Number arithmetic of the booking totals

Amounts are IEEE 754 doubles in the source.  A non-negative double is written here as a
natural numerator over `2 ^ 55`; integers are their own values. -/

/-- How many low bits of `n` are dropped to leave at most 53 significant bits: the number
of halvings that bring `n` below `2 ^ 53`.  The first argument bounds the recursion and
is never exhausted when it is `n` itself. -/
def dropBits : Nat → Nat → Nat
  | 0, _ => 0
  | fuel + 1, n => if n < 2 ^ 53 then 0 else dropBits fuel (n / 2) + 1

/-- Rounds a natural number to 53 significant bits, ties to the even significand. -/
def round53 (n : Nat) : Nat :=
  let e := dropBits n n
  let q := n / 2 ^ e
  let r := n % 2 ^ e
  if 2 * r < 2 ^ e then q * 2 ^ e
  else if 2 ^ e < 2 * r then (q + 1) * 2 ^ e
  else if q % 2 = 0 then q * 2 ^ e
  else (q + 1) * 2 ^ e

/-- The double written `0.15`, as a numerator over `2 ^ 55`. -/
def c015 : Nat := 5404319552844595

/-- The double written `0.18`, as a numerator over `2 ^ 55`. -/
def c018 : Nat := 6485183463413514

/-- The sum `a + b` of two integer-valued doubles. -/
def jsAdd (a b : Nat) : Nat := round53 (a + b)

/-- The expression `Math.round(a * c)` for an integer-valued double `a` and a constant
`c / 2 ^ 55`: the exact product is rounded to a double, and `Math.round` takes that
double to the nearest integer, ties upwards. -/
def mathRoundMul (a c : Nat) : Nat :=
  (round53 (a * c) + 2 ^ 54) / 2 ^ 55

/-- The rounding of the specification: the integer nearest to the exact quotient
`num / den`, a half going upwards. -/
def roundHalfUp (num den : Nat) : Nat :=
  (2 * num + den) / (2 * den)

/-! ## `POST /api/bookings` -/

/-- The body of a booking request.  `fieldsValid` is the verdict of express-validator
on `showtimeId`, `contactDetails.email` and `contactDetails.phone`. -/
structure BookingRequest where
  showtimeId : Id
  seats : List Id
  fieldsValid : Bool
deriving DecidableEq, Repr

/-- The records counted by the check of the handler: those of the user, held, with
`holdExpiry > now`. -/
def userHeldSeats (showtime : Showtime) (userId : Id) (now : Time) : List BookedSeat :=
  showtime.bookedSeats.filter (fun seat =>
    seat.userId == userId && seat.status == .held && expiryAfter seat.holdExpiry now)

/-- The loop over the requested seats: the running total and the seat snapshots. -/
def priceSeats (showtime : Showtime) (layout : List Seat) (seats : List Id) :
    Nat × List SeatDetail :=
  seats.foldl (fun acc seatId =>
    match layout.find? (fun s => s._id == seatId) with
    | some seat =>
      let price := showtime.pricing.get seat.type
      (jsAdd acc.1 price, acc.2 ++ [⟨seat._id, seat.row, seat.number, seat.type, price⟩])
    | none => acc) (0, [])

/-- The `map` that converts held seats to booked. -/
def markBooked (bookedSeats : List BookedSeat) (userId : Id) (seats : List Id) :
    List BookedSeat :=
  bookedSeats.map (fun seat =>
    if seat.userId == userId && seat.status == .held && seats.contains seat.seatId then
      { seat with status := .booked }
    else seat)

/-- The call `User.findByIdAndUpdate(userId, { $push: { bookingHistory: id } })`. -/
def pushHistory (w : World) (userId bookingId : Id) : World :=
  { w with users := w.users.map (fun u =>
      if u._id == userId then { u with bookingHistory := u.bookingHistory ++ [bookingId] }
      else u) }

/-- The totals of the handler and the document it passes to `Booking.create`. -/
def bookingDocument (env : Env) (userId : Id) (req : BookingRequest) (totalAmount : Nat)
    (seatDetails : List SeatDetail) : Booking :=
  let convenienceFee := mathRoundMul totalAmount c015
  let taxes := mathRoundMul (jsAdd totalAmount convenienceFee) c018
  let finalAmount := jsAdd (jsAdd totalAmount convenienceFee) taxes
  { _id := env.newId, user := userId, showtime := req.showtimeId, seats := seatDetails,
    totalAmount := totalAmount, convenienceFee := convenienceFee, taxes := taxes,
    finalAmount := finalAmount, status := .pending,
    paymentDetails := ⟨none, none, none, none, none⟩, cancellationDetails := none }

/-- The handler of `POST /api/bookings`. -/
def createBooking (w : World) (env : Env) (userId : Id) (req : BookingRequest) :
    Response × World :=
  if !req.fieldsValid || req.seats.isEmpty then (reply 400 "Validation failed", w) else
  let w := w.log (.showtimeFind req.showtimeId)
  if env.showtimeFindThrows then (serverError, w) else
  match findShowtime w req.showtimeId with
  | none => (reply 404 "Showtime not found", w)
  | some showtime =>
    if (userHeldSeats showtime userId env.now).length != req.seats.length then
      (reply 400 "Some seats are not properly held", w)
    else
    match showtime.layout with
    | none => (serverError, w)
    | some layout =>
      let priced := priceSeats showtime layout req.seats
      let booking := bookingDocument env userId req priced.1 priced.2
      let w := w.log (.bookingCreate env.newId)
      if env.bookingCreateThrows then (serverError, w) else
      let w := { w with bookings := w.bookings ++ [booking] }
      let showtime := { showtime with
        bookedSeats := markBooked showtime.bookedSeats userId req.seats,
        availableSeats := showtime.availableSeats - req.seats.length }
      let w := w.log (.showtimeSave showtime._id)
      if env.showtimeSaveThrows then (serverError, w) else
      let w := saveShowtime w showtime
      let w := w.log (.userUpdate userId)
      if env.userUpdateThrows then (serverError, w) else
      let w := pushHistory w userId booking._id
      let w := publishToKafka w env
        ⟨"booking-updates", some req.showtimeId, none, req.seats, some booking._id, "created",
          userId, env.now⟩
      (⟨201, "", none, some booking⟩, w)

/-! ## `PUT /api/bookings/:id/cancel` -/

/-- The query `Booking.findOne({ _id: id, user: userId })`. -/
def findBooking (w : World) (id userId : Id) : Option Booking :=
  w.bookings.find? (fun b => b._id == id && b.user == userId)

/-- The call `booking.save()`. -/
def saveBooking (w : World) (b : Booking) : World :=
  { w with bookings := w.bookings.map (fun c => if c._id == b._id then b else c) }

/-- The `filter` that releases the seats of a cancelled booking, as the handler writes
it: a record is kept when some seat of the booking has a different seat id. -/
def releaseBooked (bookedSeats : List BookedSeat) (seats : List SeatDetail) :
    List BookedSeat :=
  bookedSeats.filter (fun seat => seats.any (fun bookingSeat => bookingSeat.seatId != seat.seatId))

/-- The handler of `PUT /api/bookings/:id/cancel`.  `reason` is `none` when the body
has no (or an empty) reason. -/
def cancelBooking (w : World) (env : Env) (userId id : Id) (reason : Option String) :
    Response × World :=
  let w := w.log (.bookingFind id)
  if env.bookingFindThrows then (serverError, w) else
  match findBooking w id userId with
  | none => (reply 404 "Booking not found", w)
  | some booking =>
    if booking.status != .confirmed then
      (reply 400 "Only confirmed bookings can be cancelled", w)
    else
    match findShowtime w booking.showtime with
    | none => (serverError, w)
    | some populated =>
      let cancellationDeadline : Time := populated.showDateTime - 20 * 60 * 1000
      if cancellationDeadline < env.now then
        (reply 400 "Cancellation not allowed. Too close to show time.", w)
      else
        let booking := { booking with
          status := .cancelled,
          cancellationDetails := some ⟨env.now, reason.getD "User cancellation",
            booking.finalAmount, "pending"⟩ }
        let w := w.log (.bookingSave booking._id)
        if env.bookingSaveThrows then (serverError, w) else
        let w := saveBooking w booking
        let w := w.log (.showtimeFind populated._id)
        if env.showtimeFindThrows then (serverError, w) else
        let showtime := { populated with
          bookedSeats := releaseBooked populated.bookedSeats booking.seats,
          availableSeats := populated.availableSeats + booking.seats.length }
        let w := w.log (.showtimeSave showtime._id)
        if env.showtimeSaveThrows then (serverError, w) else
        let w := saveShowtime w showtime
        let w := publishToKafka w env
          ⟨"booking-updates", some populated._id, none, [], some booking._id, "cancelled",
            userId, env.now⟩
        (⟨200, "Booking cancelled successfully", none, some booking⟩, w)

/-! ## `routes/payments.js` -/

/-- The argument of `razorpay.orders.create`: the amount in paise and the notes. -/
structure OrderOptions where
  amount : Nat
  currency : String
  bookingId : Id
  userId : Id
deriving DecidableEq, Repr

/-- The handler of `POST /api/payments/create-order`.  `fieldsValid` is the verdict of
express-validator on `bookingId`; `order` is the id of the order Razorpay creates, `none`
when `razorpay.orders.create` rejects.  The second component of the result is the
argument handed to Razorpay, when the call is made. -/
def createOrder (w : World) (env : Env) (userId bookingId : Id) (fieldsValid : Bool)
    (order : Option String) : Response × Option OrderOptions × World :=
  if !fieldsValid then (reply 400 "Validation failed", none, w) else
  let w := w.log (.bookingFind bookingId)
  if env.bookingFindThrows then (serverError, none, w) else
  match findBooking w bookingId userId with
  | none => (reply 404 "Booking not found", none, w)
  | some booking =>
    if booking.status != .pending then
      (reply 400 "Booking is not in pending state", none, w)
    else
      let options : OrderOptions :=
        ⟨round53 (booking.finalAmount * 100), "INR", booking._id, userId⟩
      match order with
      | none => (serverError, some options, w)
      | some orderId =>
        let booking := { booking with
          paymentDetails := { booking.paymentDetails with paymentId := some orderId } }
        let w := w.log (.bookingSave booking._id)
        if env.bookingSaveThrows then (serverError, some options, w) else
        let w := saveBooking w booking
        (⟨200, "", none, some booking⟩, some options, w)

/-- The body of a verification request.  `fieldsValid` is the verdict of
express-validator on the four fields; `signatureValid` tells whether the HMAC of
`razorpay_order_id|razorpay_payment_id` equals `razorpay_signature`. -/
structure VerifyRequest where
  razorpay_order_id : String
  razorpay_payment_id : String
  bookingId : Id
  fieldsValid : Bool
  signatureValid : Bool
deriving DecidableEq, Repr

/-- The handler of `POST /api/payments/verify`.  Of the `payment-updates` message the
booking id, the user, the status and the timestamp are recorded. -/
def verifyPayment (w : World) (env : Env) (userId : Id) (req : VerifyRequest) :
    Response × World :=
  if !req.fieldsValid then (reply 400 "Validation failed", w) else
  if !req.signatureValid then (reply 400 "Invalid payment signature", w) else
  let w := w.log (.bookingFind req.bookingId)
  if env.bookingFindThrows then (serverError, w) else
  match findBooking w req.bookingId userId with
  | none => (reply 404 "Booking not found", w)
  | some booking =>
    let booking := { booking with
      paymentDetails := { booking.paymentDetails with
        paymentId := some req.razorpay_payment_id,
        paymentMethod := some "razorpay",
        paymentStatus := some "completed",
        transactionId := some req.razorpay_order_id,
        paidAt := some env.now },
      status := .confirmed }
    let w := w.log (.bookingSave booking._id)
    if env.bookingSaveThrows then (serverError, w) else
    let w := saveBooking w booking
    let w := publishToKafka w env
      ⟨"payment-updates", none, none, [], some booking._id, "completed", userId, env.now⟩
    (⟨200, "Payment verified successfully", none, some booking⟩, w)

/-- The handler of `POST /api/payments/failure`. -/
def paymentFailure (w : World) (env : Env) (userId bookingId : Id) (fieldsValid : Bool) :
    Response × World :=
  if !fieldsValid then (reply 400 "Validation failed", w) else
  let w := w.log (.bookingFind bookingId)
  if env.bookingFindThrows then (serverError, w) else
  match findBooking w bookingId userId with
  | none => (reply 404 "Booking not found", w)
  | some booking =>
    let booking := { booking with
      paymentDetails := { booking.paymentDetails with paymentStatus := some "failed" },
      status := .cancelled }
    let w := w.log (.bookingSave booking._id)
    if env.bookingSaveThrows then (serverError, w) else
    let w := saveBooking w booking
    let w := publishToKafka w env
      ⟨"payment-updates", none, none, [], some booking._id, "failed", userId, env.now⟩
    (reply 200 "Payment failure recorded", w)

/-- The operations that can follow the creation of a booking. -/
inductive LaterRequest where
  | createOrder (userId bookingId : Id) (fieldsValid : Bool) (order : Option String)
  | verify (userId : Id) (req : VerifyRequest)
  | failure (userId bookingId : Id) (fieldsValid : Bool)
  | cancel (userId id : Id) (reason : Option String)
deriving DecidableEq, Repr

/-- The world after one later operation. -/
def laterStep (w : World) (env : Env) : LaterRequest → World
  | .createOrder userId bookingId fieldsValid order =>
    (createOrder w env userId bookingId fieldsValid order).2.2
  | .verify userId req => (verifyPayment w env userId req).2
  | .failure userId bookingId fieldsValid => (paymentFailure w env userId bookingId fieldsValid).2
  | .cancel userId id reason => (cancelBooking w env userId id reason).2

/-- The world after a sequence of later operations, each with its own clock reading and
rejections. -/
def runLater (w : World) (ops : List (Env × LaterRequest)) : World :=
  ops.foldl (fun acc op => laterStep acc op.1 op.2) w

/-- What a booking fixes at creation: its id, the four amounts and the seat snapshots. -/
def Booking.priced (b : Booking) : Id × Nat × Nat × Nat × Nat × List SeatDetail :=
  (b._id, b.totalAmount, b.convenienceFee, b.taxes, b.finalAmount, b.seats)

/-- The snapshot pushed for a seat of the layout. -/
def snapshot (showtime : Showtime) (seat : Seat) : SeatDetail :=
  ⟨seat._id, seat.row, seat.number, seat.type, showtime.pricing.get seat.type⟩

/-- The requested seat ids that `screen.seatLayout.id` finds, as layout seats in request
order. -/
def layoutSeats (layout : List Seat) (seats : List Id) : List Seat :=
  seats.filterMap (fun seatId => layout.find? (fun s => s._id == seatId))

/-! ## The seat state machine as one transition function -/

/-- The four requests that write the seat records of a showtime. -/
inductive Request where
  | hold (userId showtimeId seatId : Id) (row : Option String)
  | release (userId showtimeId seatId : Id) (row : Option String)
  | createBooking (userId : Id) (req : BookingRequest)
  | cancelBooking (userId id : Id) (reason : Option String)
deriving DecidableEq, Repr

/-- Runs the handler of a request. -/
def step (w : World) (env : Env) : Request → Response × World
  | .hold userId showtimeId seatId row => hold w env userId showtimeId seatId row
  | .release userId showtimeId seatId row => release w env userId showtimeId seatId row
  | .createBooking userId req => createBooking w env userId req
  | .cancelBooking userId id reason => cancelBooking w env userId id reason

/-- At most one record per seat id. -/
def uniqueSeats (bookedSeats : List BookedSeat) : Prop :=
  (bookedSeats.map (fun r => r.seatId)).Nodup

instance (bookedSeats : List BookedSeat) : Decidable (uniqueSeats bookedSeats) := by
  unfold uniqueSeats; infer_instance

/-- The seat records of the showtime `showtimeId`, empty when there is no such showtime. -/
def recordsOf (w : World) (showtimeId : Id) : List BookedSeat :=
  match findShowtime w showtimeId with
  | some showtime => showtime.bookedSeats
  | none => []

/-- No call of the request rejects. -/
def Env.quiet (env : Env) : Prop :=
  env.showtimeFindThrows = false ∧ env.showtimeSaveThrows = false ∧
  env.bookingFindThrows = false ∧ env.bookingCreateThrows = false ∧
  env.bookingSaveThrows = false ∧ env.userUpdateThrows = false ∧ env.emitThrows = false

/-- The test of the release filter: the record is a hold of the user on the seat. -/
def ownHold (userId seatId : Id) (r : BookedSeat) : Bool :=
  r.seatId == seatId && r.userId == userId && r.status == .held

/-- The rows of a layout answer built from the entries `done`: every row name is a key
once, and the array under a row is the non-empty list of the entries of that row, in
their order. -/
def RowsOf (seatLayout : List (String × List SeatView)) (done : List SeatView) : Prop :=
  (seatLayout.map Prod.fst).Nodup ∧
  ∀ (row : String) (l : List SeatView),
    (row, l) ∈ seatLayout ↔ (l = done.filter (fun v => v.row == row) ∧ l ≠ [])

/-! ## Example data -/

/-- A screen with one row of three classic seats. -/
def demoLayout : List Seat :=
  [⟨"A1", "A", 1, .classic⟩, ⟨"A2", "A", 2, .classic⟩, ⟨"A3", "A", 3, .classic⟩]

/-- A showtime at instant 100000000 in which alice holds A1 and A2 until instant 1000. -/
def demoShowtime : Showtime :=
  { _id := "S1", layout := some demoLayout, showDateTime := 100000000,
    pricing := ⟨280, 450, 650⟩, totalSeats := 200, availableSeats := 200,
    bookedSeats := [⟨"A1", "alice", .held, some 1000⟩, ⟨"A2", "alice", .held, some 1000⟩] }

/-- A world with that showtime, two users, no booking and no lock. -/
def demoWorld : World :=
  { showtimes := [demoShowtime], bookings := [], users := [⟨"alice", []⟩, ⟨"bob", []⟩],
    locks := [], producer := true, kafka := [], emitted := [], trace := [] }

/-- The example showtime with classic seats priced 500. -/
def demoShowtime500 : Showtime :=
  { demoShowtime with pricing := ⟨500, 450, 650⟩ }

/-- The example world with classic seats priced 500. -/
def demoWorld500 : World :=
  { demoWorld with showtimes := [demoShowtime500] }

/-- The example world with an entry under the lock key of seat A3, written for alice. -/
def demoLockedWorld : World :=
  demoWorld.setLocks [⟨lockKey "S1" "A3", "alice", none⟩]

/-- A showtime whose screen has a row named `constructor`, after row A. -/
def demoConstructorShowtime : Showtime :=
  { demoShowtime with
    layout := some [⟨"A1", "A", 1, .classic⟩, ⟨"K1", "constructor", 1, .classic⟩] }

/-- A world with that showtime. -/
def demoConstructorWorld : World := { demoWorld with showtimes := [demoConstructorShowtime] }

/-- The example world after alice has booked the two seats she holds (booking `b1`). -/
def demoBookedWorld : World :=
  (createBooking demoWorld (Env.calm 500 "b1") "alice" ⟨"S1", ["A1", "A2"], true⟩).2

/-- The verification request of alice for booking `b1`, with a valid signature. -/
def demoProof : VerifyRequest :=
  ⟨"order_1", "pay_1", "b1", true, true⟩

/-- The example world after the payment of booking `b1` has been verified. -/
def demoConfirmedWorld : World :=
  (verifyPayment demoBookedWorld (Env.calm 600 "x") "alice" demoProof).2

/-- The example world after a payment failure has been recorded for booking `b1`. -/
def demoFailedWorld : World :=
  (paymentFailure demoBookedWorld (Env.calm 600 "x") "alice" "b1" true).2

/-- A showtime in which bob holds A3 and a seat id `ZZ` that the screen layout does not
have (the hold handler never looks at the layout). -/
def demoOddShowtime : Showtime :=
  { demoShowtime with
    bookedSeats := [⟨"A3", "bob", .held, some 1000⟩, ⟨"ZZ", "bob", .held, some 1000⟩] }

/-- The example world with that showtime. -/
def demoOddWorld : World :=
  { demoWorld with showtimes := [demoOddShowtime] }

/-- The booking `b1` as created. -/
def demoBooking : Booking :=
  bookingDocument (Env.calm 500 "b1") "alice" ⟨"S1", ["A1", "A2"], true⟩ 560
    [⟨"A1", "A", 1, .classic, 280⟩, ⟨"A2", "A", 2, .classic, 280⟩]

/-- The booking `b1` after the verification of its payment at instant 600. -/
def demoConfirmedBooking : Booking :=
  { demoBooking with
    status := .confirmed,
    paymentDetails :=
      ⟨some "pay_1", some "razorpay", some "completed", some "order_1", some 600⟩ }

/-- The example showtime after alice has booked A1 and A2. -/
def demoBookedShowtime : Showtime :=
  { demoShowtime with
    availableSeats := 198,
    bookedSeats := [⟨"A1", "alice", .booked, some 1000⟩, ⟨"A2", "alice", .booked, some 1000⟩] }

/-- The example showtime when alice holds all three seats, the hold on A1 having ended
at instant 400. -/
def demoStaleShowtime : Showtime :=
  { demoShowtime with
    bookedSeats := [⟨"A1", "alice", .held, some 400⟩, ⟨"A2", "alice", .held, some 1000⟩,
      ⟨"A3", "alice", .held, some 1000⟩] }

/-- The example world with that showtime. -/
def demoStaleWorld : World :=
  { demoWorld with showtimes := [demoStaleShowtime] }

/-- The number of records with status booked. -/
def bookedCount (bookedSeats : List BookedSeat) : Nat :=
  (bookedSeats.filter (fun r => r.status == .booked)).length

/-- The counter agrees with the seat map: the available seats and the booked records
add up to the total. -/
def counterConsistent (showtime : Showtime) : Prop :=
  showtime.availableSeats + bookedCount showtime.bookedSeats = showtime.totalSeats

instance (showtime : Showtime) : Decidable (counterConsistent showtime) := by
  unfold counterConsistent; infer_instance

/-- The world with the Kafka producer initialised or not. -/
def World.withProducer (w : World) (p : Bool) : World :=
  { w with producer := p }

/-- The request inputs with `producer.send` rejecting or not. -/
def Env.withSend (env : Env) (b : Bool) : Env :=
  { env with sendThrows := b }

/-! ## Concurrent hold requests

The handler of `POST /api/seats/hold` gives the control back at each `await`: the Redis
`SET`, `findById`, `save`, `producer.send` and the Redis `del`.  A request is modelled as a
process that performs one of these calls, and the code that follows it up to the next
call, in one step; the steps of several requests are interleaved by a schedule, and each
step has its own clock reading and its own rejecting calls. -/

/-- Where a hold request stands between two of its calls: before the `SET`, with the
lock before `findById`, with the modified document before `save`, after `save` with the
timestamp of the event, with its answer before the `del` of the `finally` block, and
finished. -/
inductive HoldPhase where
  | start
  | locked
  | loaded (showtime : Showtime) (holdExpiry : Time)
  | saved (holdExpiry : Time) (timestamp : Time)
  | unlocking (resp : Response)
  | done (resp : Response)
deriving DecidableEq, Repr

/-- A hold request in progress: the user, the `row` of the body and the phase. -/
structure HoldProc where
  userId : Id
  row : Option String
  phase : HoldPhase
deriving DecidableEq, Repr

/-- One step of a hold request for the seat `seatId` of `showtimeId`: the pending call and
the code of the handler up to the next call. -/
def holdStep (showtimeId seatId : Id) (env : Env) (w : World) (p : HoldProc) :
    World × HoldProc :=
  match p.phase with
  | .start =>
    let w := w.log (.redisSet (lockKey showtimeId seatId) p.userId 30000)
    let lockAcquired := redisSet w.locks (lockKey showtimeId seatId) p.userId
    let w := w.setLocks lockAcquired.2
    match lockAcquired.1 with
    | none =>
      (w, { p with phase := .done (reply 409 "Seat is being processed by another user") })
    | some _ => (w, { p with phase := .locked })
  | .locked =>
    let w := w.log (.showtimeFind showtimeId)
    if env.showtimeFindThrows then (w, { p with phase := .unlocking serverError }) else
    match findShowtime w showtimeId with
    | none => (w, { p with phase := .unlocking (reply 404 "Showtime not found") })
    | some showtime =>
      if !isSeatAvailable showtime seatId env.now then
        (w, { p with phase := .unlocking (reply 409 "Seat is not available") })
      else
        let kept := showtime.bookedSeats.filter (fun seat => seat.seatId != seatId)
        let holdExpiry : Time := env.now + 10 * 60 * 1000
        let showtime := { showtime with
          bookedSeats := kept ++ [⟨seatId, p.userId, .held, some holdExpiry⟩] }
        (w, { p with phase := .loaded showtime holdExpiry })
  | .loaded showtime holdExpiry =>
    let w := w.log (.showtimeSave showtime._id)
    if env.showtimeSaveThrows then (w, { p with phase := .unlocking serverError }) else
    (saveShowtime w showtime, { p with phase := .saved holdExpiry env.now })
  | .saved holdExpiry timestamp =>
    let w := publishToKafka w env
      ⟨"seat-updates", some showtimeId, some seatId, [], none, "blocked", p.userId, timestamp⟩
    if env.emitThrows then (w, { p with phase := .unlocking serverError }) else
    (emit w ⟨"showtime-" ++ showtimeId, seatId, "blocked", p.row⟩,
      { p with phase := .unlocking ⟨200, "Seat held successfully", some holdExpiry, none⟩ })
  | .unlocking resp =>
    let w := w.log (.redisDel (lockKey showtimeId seatId))
    (w.setLocks (redisDel w.locks (lockKey showtimeId seatId)), { p with phase := .done resp })
  | .done _ => (w, p)

/-- The server with hold requests in progress: the shared stores and the requests. -/
structure HoldSystem where
  world : World
  procs : List HoldProc
deriving DecidableEq, Repr

/-- The request number `i` makes its next step; nothing happens when there is no such
request. -/
def HoldSystem.step (showtimeId seatId : Id) (s : HoldSystem) (i : Nat) (env : Env) :
    HoldSystem :=
  match s.procs[i]? with
  | none => s
  | some p =>
    ⟨(holdStep showtimeId seatId env s.world p).1,
      s.procs.set i (holdStep showtimeId seatId env s.world p).2⟩

/-- Runs a schedule: each entry names the request that makes the next step and gives the
clock reading and the rejecting calls of that step. -/
def runHolds (showtimeId seatId : Id) (s : HoldSystem) : List (Nat × Env) → HoldSystem
  | [] => s
  | e :: rest => runHolds showtimeId seatId (s.step showtimeId seatId e.1 e.2) rest

/-- The answer of a finished request. -/
def HoldPhase.answer : HoldPhase → Option Response
  | .done resp => some resp
  | _ => none

/-- The number of finished requests answered with `status`. -/
def answered (status : Nat) (procs : List HoldProc) : Nat :=
  procs.countP (fun p => p.phase.answer.map (fun r => r.status) == some status)

/-- Two hold requests of bob and carol for seat A3, not started. -/
def demoRequests : List HoldProc :=
  [⟨"bob", some "A", .start⟩, ⟨"carol", some "A", .start⟩]

/-- A schedule in which bob and carol make their steps in turn, one step every ten
milliseconds from instant 500. -/
def demoSchedule : List (Nat × Env) :=
  [(0, Env.calm 500 "x"), (1, Env.calm 510 "x"), (0, Env.calm 520 "x"),
   (1, Env.calm 530 "x"), (0, Env.calm 540 "x"), (1, Env.calm 550 "x"),
   (0, Env.calm 560 "x"), (1, Env.calm 570 "x"), (0, Env.calm 580 "x"),
   (1, Env.calm 590 "x")]

/-- A schedule in which bob finishes before carol starts. -/
def demoLateSchedule : List (Nat × Env) :=
  [(0, Env.calm 500 "x"), (0, Env.calm 510 "x"), (0, Env.calm 520 "x"),
   (0, Env.calm 530 "x"), (0, Env.calm 540 "x"), (1, Env.calm 550 "x"),
   (1, Env.calm 560 "x"), (1, Env.calm 570 "x"), (1, Env.calm 580 "x"),
   (1, Env.calm 590 "x")]

/-! ## Basic facts about the world -/

@[simp] theorem log_showtimes (w : World) (op : Op) : (w.log op).showtimes = w.showtimes := rfl

@[simp] theorem log_bookings (w : World) (op : Op) : (w.log op).bookings = w.bookings := rfl

@[simp] theorem log_locks (w : World) (op : Op) : (w.log op).locks = w.locks := rfl

@[simp] theorem log_kafka (w : World) (op : Op) : (w.log op).kafka = w.kafka := rfl

@[simp] theorem log_emitted (w : World) (op : Op) : (w.log op).emitted = w.emitted := rfl

@[simp] theorem log_users (w : World) (op : Op) : (w.log op).users = w.users := rfl

@[simp] theorem setLocks_showtimes (w : World) (l : List LockEntry) :
    (w.setLocks l).showtimes = w.showtimes := rfl

@[simp] theorem setLocks_bookings (w : World) (l : List LockEntry) :
    (w.setLocks l).bookings = w.bookings := rfl

@[simp] theorem setLocks_locks (w : World) (l : List LockEntry) : (w.setLocks l).locks = l := rfl

@[simp] theorem setLocks_kafka (w : World) (l : List LockEntry) :
    (w.setLocks l).kafka = w.kafka := rfl

@[simp] theorem setLocks_emitted (w : World) (l : List LockEntry) :
    (w.setLocks l).emitted = w.emitted := rfl

@[simp] theorem setLocks_users (w : World) (l : List LockEntry) :
    (w.setLocks l).users = w.users := rfl

@[simp] theorem findShowtime_setLocks (w : World) (l : List LockEntry) (id : Id) :
    findShowtime (w.setLocks l) id = findShowtime w id := rfl

@[simp] theorem findShowtime_log (w : World) (op : Op) (id : Id) :
    findShowtime (w.log op) id = findShowtime w id := rfl

@[simp] theorem publishToKafka_showtimes (w : World) (env : Env) (r : KafkaRecord) :
    (publishToKafka w env r).showtimes = w.showtimes := by
  unfold publishToKafka; split <;> rfl

@[simp] theorem publishToKafka_locks (w : World) (env : Env) (r : KafkaRecord) :
    (publishToKafka w env r).locks = w.locks := by
  unfold publishToKafka; split <;> rfl

@[simp] theorem publishToKafka_bookings (w : World) (env : Env) (r : KafkaRecord) :
    (publishToKafka w env r).bookings = w.bookings := by
  unfold publishToKafka; split <;> rfl

@[simp] theorem emit_showtimes (w : World) (e : SocketEvent) :
    (emit w e).showtimes = w.showtimes := rfl

@[simp] theorem emit_locks (w : World) (e : SocketEvent) : (emit w e).locks = w.locks := rfl

@[simp] theorem saveShowtime_locks (w : World) (s : Showtime) :
    (saveShowtime w s).locks = w.locks := rfl

@[simp] theorem pushHistory_showtimes (w : World) (u b : Id) :
    (pushHistory w u b).showtimes = w.showtimes := rfl

@[simp] theorem saveBooking_showtimes (w : World) (b : Booking) :
    (saveBooking w b).showtimes = w.showtimes := rfl

/-- A showtime found by id has that id. -/
theorem findShowtime_id {w : World} {id : Id} {st : Showtime}
    (h : findShowtime w id = some st) : st._id = id := by
  unfold findShowtime at h
  have := List.find?_some h
  simpa using this

/-- What `findById` returns depends on the list of showtimes only. -/
theorem findShowtime_congr {w w' : World} (h : w'.showtimes = w.showtimes) (id : Id) :
    findShowtime w' id = findShowtime w id := by
  unfold findShowtime; rw [h]

/-- After `save`, a query by id returns the saved document in place of the documents of
the same id and every other document as before. -/
theorem findShowtime_saveShowtime (w : World) (s : Showtime) (id : Id) :
    findShowtime (saveShowtime w s) id =
      (findShowtime w id).map (fun t => if t._id == s._id then s else t) := by
  unfold findShowtime saveShowtime
  simp only [List.find?_map]
  have hp : ((fun t : Showtime => t._id == id) ∘ fun t => if t._id == s._id then s else t) =
      fun t : Showtime => t._id == id := by
    funext t
    by_cases hts : t._id = s._id
    · simp [hts]
    · simp [hts]
  rw [hp]

/-- Saving the document found under `id`, modified but with its id kept. -/
theorem findShowtime_saveShowtime_same {w : World} {id : Id} {st s : Showtime}
    (h : findShowtime w id = some st) (hs : s._id = st._id) (x : Id) :
    findShowtime (saveShowtime w s) x = if x = id then some s else findShowtime w x := by
  rw [findShowtime_saveShowtime]
  have hid := findShowtime_id h
  by_cases hx : x = id
  · subst hx; simp [h, hs]
  · simp only [hx, if_false]
    cases hf : findShowtime w x with
    | none => rfl
    | some t =>
      have := findShowtime_id hf
      have hne : ¬ t._id = s._id := by rw [this, hs, hid]; exact hx
      simp [hne]

/-! ## Facts about the hold handler -/

/-- The handler writes the lock entry of the user, whatever the store holds, runs its
critical section and deletes the entry afterwards. -/
theorem hold_eq (w : World) (env : Env) (userId showtimeId seatId : Id)
    (row : Option String) :
    hold w env userId showtimeId seatId row =
      let key := lockKey showtimeId seatId
      let r := holdCritical
        ((w.log (.redisSet key userId 30000)).setLocks
          (⟨key, userId, none⟩ :: w.locks.filter (fun e => e.key != key)))
        env userId showtimeId seatId row
      (r.1.getD serverError, (r.2.log (.redisDel key)).setLocks (redisDel r.2.locks key)) := by
  unfold hold redisSet
  simp only [log_locks]
  cases hr : (holdCritical _ env userId showtimeId seatId row).1 <;> simp [hr]

/-- The critical section changes the showtimes in one way only: it saves the showtime it
found with the records of the seat replaced by one fresh hold. -/
theorem holdCritical_cases (w : World) (env : Env) (userId showtimeId seatId : Id)
    (row : Option String) :
    let r := holdCritical w env userId showtimeId seatId row
    (r.2.showtimes = w.showtimes ∧ r.1 ≠ some ⟨200, "Seat held successfully",
        some (env.now + 600000), none⟩ ∧ r.2.kafka = w.kafka ∧ r.2.emitted = w.emitted) ∨
    (∃ st, findShowtime w showtimeId = some st ∧ isSeatAvailable st seatId env.now = true ∧
      env.showtimeFindThrows = false ∧ env.showtimeSaveThrows = false ∧
      r.2.showtimes = (saveShowtime w { st with
        bookedSeats := st.bookedSeats.filter (fun seat => seat.seatId != seatId) ++
          [⟨seatId, userId, .held, some (env.now + 600000)⟩] }).showtimes ∧
      (r.1 = some ⟨200, "Seat held successfully", some (env.now + 600000), none⟩ ∨
        r.1 = none)) := by
  unfold holdCritical
  simp only [findShowtime_log]
  split
  · left; simp
  · split
    · left; simp [reply]
    · rename_i st hst
      split
      · left; simp [reply]
      · rename_i hav
        split
        · left; simp
        · split
          · right
            refine ⟨st, hst, by simpa using hav, by simp_all, by simp_all, ?_, Or.inr rfl⟩
            simp [saveShowtime]
          · right
            refine ⟨st, hst, by simpa using hav, by simp_all, by simp_all, ?_, Or.inl ?_⟩
            · simp [saveShowtime]
            · norm_num

/-- The outcomes of a hold, seen from the showtimes: nothing is written and the answer
is not a success, or the found showtime is saved with the records of the seat replaced
by one fresh hold. -/
theorem hold_cases (w : World) (env : Env) (userId showtimeId seatId : Id)
    (row : Option String) :
    let r := hold w env userId showtimeId seatId row
    (r.2.showtimes = w.showtimes ∧ r.1.status ≠ 200 ∧ r.2.kafka = w.kafka ∧
      r.2.emitted = w.emitted) ∨
    (∃ st, findShowtime w showtimeId = some st ∧ isSeatAvailable st seatId env.now = true ∧
      env.showtimeFindThrows = false ∧ env.showtimeSaveThrows = false ∧
      r.2.showtimes = (saveShowtime w { st with
        bookedSeats := st.bookedSeats.filter (fun seat => seat.seatId != seatId) ++
          [⟨seatId, userId, .held, some (env.now + 600000)⟩] }).showtimes ∧
      (r.1 = ⟨200, "Seat held successfully", some (env.now + 600000), none⟩ ∨
        r.1 = serverError)) := by
  intro r
  have h := hold_eq w env userId showtimeId seatId row
  simp only at h
  rcases holdCritical_cases
    ((w.log (.redisSet (lockKey showtimeId seatId) userId 30000)).setLocks
      (⟨lockKey showtimeId seatId, userId, none⟩ ::
        w.locks.filter (fun e => e.key != lockKey showtimeId seatId)))
    env userId showtimeId seatId row with hc | ⟨st, hst, hav, hf, hs, hsh, hres⟩
  · left
    obtain ⟨h1, h2, h3, h4⟩ := hc
    simp only [r, h]
    refine ⟨h1, ?_, h3, h4⟩
    intro h200
    cases hr : (holdCritical _ env userId showtimeId seatId row).1 with
    | none => rw [hr] at h200; simp [serverError, reply] at h200
    | some resp =>
      rw [hr] at h200 h2
      simp only [Option.getD_some] at h200
      revert h200
      unfold holdCritical at hr
      simp only [findShowtime_log] at hr
      split at hr
      · simp at hr
      · split at hr
        · simp at hr; subst hr; simp [reply]
        · split at hr
          · simp at hr; subst hr; simp [reply]
          · exfalso
            split at hr
            · simp at hr
            · split at hr
              · simp at hr
              · apply h2; rw [← hr]; norm_num
  · right
    refine ⟨st, hst, hav, hf, hs, ?_, ?_⟩
    · simp only [r, h]; exact hsh
    · simp only [r, h]
      rcases hres with h1 | h1 <;> simp [h1]

/-- A hold on a seat that is not available: 409, and only the trace grows. -/
theorem hold_of_unavailable (w : World) (env : Env) (userId showtimeId seatId : Id)
    (row : Option String) {st : Showtime}
    (hf : env.showtimeFindThrows = false) (hst : findShowtime w showtimeId = some st)
    (hav : isSeatAvailable st seatId env.now = false) :
    (hold w env userId showtimeId seatId row).1 = reply 409 "Seat is not available" ∧
    (hold w env userId showtimeId seatId row).2.showtimes = w.showtimes ∧
    (hold w env userId showtimeId seatId row).2.kafka = w.kafka ∧
    (hold w env userId showtimeId seatId row).2.emitted = w.emitted := by
  rw [hold_eq w env userId showtimeId seatId row]
  unfold holdCritical
  simp [hf, hst, hav]

/-- A hold on an available seat when no call rejects: 200 with the expiry, and the
showtime is saved with the records of the seat replaced by the fresh hold. -/
theorem hold_of_available (w : World) (env : Env) (userId showtimeId seatId : Id)
    (row : Option String) {st : Showtime}
    (hf : env.showtimeFindThrows = false) (hs : env.showtimeSaveThrows = false)
    (he : env.emitThrows = false) (hst : findShowtime w showtimeId = some st)
    (hav : isSeatAvailable st seatId env.now = true) :
    (hold w env userId showtimeId seatId row).1 =
      ⟨200, "Seat held successfully", some (env.now + 600000), none⟩ ∧
    findShowtime (hold w env userId showtimeId seatId row).2 showtimeId =
      some { st with
        bookedSeats := st.bookedSeats.filter (fun seat => seat.seatId != seatId) ++
          [⟨seatId, userId, .held, some (env.now + 600000)⟩] } := by
  rcases hold_cases w env userId showtimeId seatId row with h | ⟨st', hst', _, _, _, hsh, hres⟩
  · exfalso
    apply h.2.1
    rw [hold_eq w env userId showtimeId seatId row]
    unfold holdCritical
    simp [hf, hs, he, hst, hav]
  · rw [hst] at hst'
    cases hst'
    constructor
    · rw [hold_eq w env userId showtimeId seatId row]
      unfold holdCritical
      simp [hf, hs, he, hst, hav]
    · rw [findShowtime_congr hsh, findShowtime_saveShowtime_same (s := { st with
        bookedSeats := st.bookedSeats.filter (fun seat => seat.seatId != seatId) ++
          [⟨seatId, userId, .held, some (env.now + 600000)⟩] }) hst rfl]
      simp

/-- After a hold the store has no entry under the lock key. -/
theorem hold_locks_of_free (w : World) (env : Env) (userId showtimeId seatId : Id)
    (row : Option String) :
    ∀ e ∈ (hold w env userId showtimeId seatId row).2.locks,
      e.key ≠ lockKey showtimeId seatId := by
  rw [hold_eq w env userId showtimeId seatId row]
  intro e he
  simp only [setLocks_locks, redisDel, List.mem_filter] at he
  simpa using he.2

/-! ## Facts about the release handler -/

/-- The filter shortens the list exactly when some record is a hold of the user on the
seat. -/
theorem filter_ownHold_lt (l : List BookedSeat) (userId seatId : Id) :
    (l.filter (fun r => !ownHold userId seatId r)).length < l.length ↔
      ∃ r ∈ l, ownHold userId seatId r = true := by
  rw [List.length_filter_lt_length_iff_exists]
  simp

/-- The outcomes of a release. -/
theorem release_cases (w : World) (env : Env) (userId showtimeId seatId : Id)
    (row : Option String) :
    let r := release w env userId showtimeId seatId row
    (r.2.showtimes = w.showtimes ∧ r.2.kafka = w.kafka ∧ r.2.emitted = w.emitted ∧
      ((env.showtimeFindThrows = true ∧ r.1 = serverError) ∨
       (env.showtimeFindThrows = false ∧ findShowtime w showtimeId = none ∧
          r.1 = reply 404 "Showtime not found") ∨
       (env.showtimeFindThrows = false ∧ r.1 = reply 404 "Held seat not found" ∧
          ∃ st, findShowtime w showtimeId = some st ∧
            ∀ x ∈ st.bookedSeats, ownHold userId seatId x = false) ∨
       (env.showtimeFindThrows = false ∧ env.showtimeSaveThrows = true ∧ r.1 = serverError ∧
          ∃ st, findShowtime w showtimeId = some st ∧
            ∃ x ∈ st.bookedSeats, ownHold userId seatId x = true))) ∨
    (∃ st, findShowtime w showtimeId = some st ∧
      (∃ x ∈ st.bookedSeats, ownHold userId seatId x = true) ∧
      env.showtimeFindThrows = false ∧ env.showtimeSaveThrows = false ∧
      r.2.showtimes = (saveShowtime w { st with
        bookedSeats := st.bookedSeats.filter (fun x => !ownHold userId seatId x) }).showtimes ∧
      ((env.emitThrows = false ∧ r.1 = reply 200 "Seat released successfully") ∨
        (env.emitThrows = true ∧ r.1 = serverError))) := by
  unfold release
  simp only [findShowtime_log]
  split
  · left; simp_all
  · split
    · left; simp_all
    · rename_i st hst
      have hlt := filter_ownHold_lt st.bookedSeats userId seatId
      unfold ownHold at hlt
      split
      · rename_i hlen
        have hex := hlt.mp hlen
        split
        · left
          refine ⟨rfl, rfl, rfl, Or.inr (Or.inr (Or.inr ⟨by simp_all, by simp_all, rfl, st, hst, ?_⟩))⟩
          simpa [ownHold] using hex
        · right
          refine ⟨st, hst, by simpa [ownHold] using hex, by simp_all, by simp_all, ?_, ?_⟩
          · unfold ownHold; split <;> simp [saveShowtime]
          · split
            · right; simp_all
            · left; simp_all
      · rename_i hlen
        left
        refine ⟨rfl, rfl, rfl, Or.inr (Or.inr (Or.inl ⟨by simp_all, rfl, st, hst, ?_⟩))⟩
        intro x hx
        by_contra hc
        have hc2 : ownHold userId seatId x = true := by simpa using hc
        unfold ownHold at hc2
        exact hlen (hlt.mpr ⟨x, hx, hc2⟩)

/-! ## Facts about the booking handlers -/

/-- The only write of `createBooking` to the showtimes: the showtime it found, saved with
the `map` applied and the counter decreased. -/
theorem createBooking_showtimes (w : World) (env : Env) (userId : Id) (req : BookingRequest) :
    let r := createBooking w env userId req
    r.2.showtimes = w.showtimes ∨
    ∃ st, findShowtime w req.showtimeId = some st ∧
      r.2.showtimes = (saveShowtime w { st with
        bookedSeats := markBooked st.bookedSeats userId req.seats,
        availableSeats := st.availableSeats - req.seats.length }).showtimes := by
  unfold createBooking
  simp only [findShowtime_log]
  split
  · left; rfl
  · split
    · left; rfl
    · split
      · left; rfl
      · rename_i st hst
        split
        · left; rfl
        · split
          · left; rfl
          · split
            · left; rfl
            · split
              · left; rfl
              · right
                refine ⟨st, hst, ?_⟩
                split <;> simp [saveShowtime]

/-- The only write of `cancelBooking` to the showtimes: the showtime of the booking,
saved with the `filter` applied and the counter increased. -/
theorem cancelBooking_showtimes (w : World) (env : Env) (userId id : Id)
    (reason : Option String) :
    let r := cancelBooking w env userId id reason
    r.2.showtimes = w.showtimes ∨
    ∃ b st, findBooking w id userId = some b ∧ findShowtime w b.showtime = some st ∧
      r.2.showtimes = (saveShowtime w { st with
        bookedSeats := releaseBooked st.bookedSeats b.seats,
        availableSeats := st.availableSeats + b.seats.length }).showtimes := by
  unfold cancelBooking
  simp only [findShowtime_log]
  split
  · left; rfl
  · split
    · left; rfl
    · rename_i b hb
      split
      · left; rfl
      · split
        · left; rfl
        · rename_i st hst
          split
          · left; rfl
          · split
            · left; rfl
            · split
              · left; rfl
              · split
                · left; rfl
                · right
                  exact ⟨b, st, hb, hst, by simp [saveShowtime, saveBooking]⟩

/-! ## Uniqueness of seat records -/

theorem uniqueSeats_filter {l : List BookedSeat} (p : BookedSeat → Bool)
    (h : uniqueSeats l) : uniqueSeats (l.filter p) := by
  unfold uniqueSeats at *
  exact h.sublist ((List.filter_sublist l).map _)

theorem markBooked_seatIds (l : List BookedSeat) (userId : Id) (seats : List Id) :
    (markBooked l userId seats).map (fun r => r.seatId) = l.map (fun r => r.seatId) := by
  unfold markBooked
  rw [List.map_map]
  apply List.map_congr_left
  intro r _
  simp only [Function.comp]
  split <;> rfl

theorem uniqueSeats_markBooked {l : List BookedSeat} (userId : Id) (seats : List Id)
    (h : uniqueSeats l) : uniqueSeats (markBooked l userId seats) := by
  unfold uniqueSeats at *
  rw [markBooked_seatIds]; exact h

theorem uniqueSeats_hold {l : List BookedSeat} (seatId userId : Id) (exp : Option Time)
    (h : uniqueSeats l) :
    uniqueSeats (l.filter (fun seat => seat.seatId != seatId) ++ [⟨seatId, userId, .held, exp⟩]) := by
  unfold uniqueSeats at *
  rw [List.map_append, List.nodup_append]
  refine ⟨h.sublist ((List.filter_sublist l).map _), by simp, ?_⟩
  intro a ha hb
  simp only [List.map_cons, List.map_nil, List.mem_singleton] at hb
  simp only [List.mem_map, List.mem_filter] at ha
  obtain ⟨r, ⟨_, hr⟩, rfl⟩ := ha
  simp at hr
  exact hr hb

/-- After the hold write the seat has exactly one record. -/
theorem hold_records_count (l : List BookedSeat) (seatId userId : Id) (exp : Option Time) :
    (l.filter (fun seat => seat.seatId != seatId) ++
        [(⟨seatId, userId, .held, exp⟩ : BookedSeat)]).filter
      (fun r : BookedSeat => r.seatId == seatId) =
      [(⟨seatId, userId, .held, exp⟩ : BookedSeat)] := by
  rw [List.filter_append, List.filter_filter]
  have : (l.filter fun a => (a.seatId == seatId) && (a.seatId != seatId)) = [] := by
    rw [List.filter_eq_nil_iff]
    intro a _
    by_cases h : a.seatId = seatId <;> simp [h]
  rw [this]
  simp

/-! ## C1: the all-or-nothing guard of `createBooking` -/

/-- C1, evaluated on the code: alice holds A1 and A2 and asks for A1 and A3.  A3 has no
record held by alice, yet the count check passes (two held records, two requested
seats): the answer is 201, a booking is persisted and the record of A1 becomes booked. -/
theorem createBooking_accepts_unheld_seat :
    (¬ ∃ x ∈ demoShowtime.bookedSeats, x.seatId = "A3" ∧ x.userId = "alice" ∧
        x.status = .held ∧ expiryAfter x.holdExpiry 500 = true) ∧
    (createBooking demoWorld (Env.calm 500 "b1") "alice" ⟨"S1", ["A1", "A3"], true⟩).1.status
      = 201 ∧
    (createBooking demoWorld (Env.calm 500 "b1") "alice"
      ⟨"S1", ["A1", "A3"], true⟩).2.bookings.length = 1 ∧
    (⟨"A1", "alice", .booked, some 1000⟩ : BookedSeat) ∈
      recordsOf (createBooking demoWorld (Env.calm 500 "b1") "alice"
        ⟨"S1", ["A1", "A3"], true⟩).2 "S1" := by
  decide

/-! ## C2: at most one record per seat -/

/-- Every write of a handler keeps the seat ids of a showtime without repetition. -/
theorem step_unique_aux (w : World) (env : Env) (req : Request) :
    (step w env req).2.showtimes = w.showtimes ∨
    ∃ sid st s, findShowtime w sid = some st ∧ s._id = st._id ∧
      (uniqueSeats st.bookedSeats → uniqueSeats s.bookedSeats) ∧
      (step w env req).2.showtimes = (saveShowtime w s).showtimes := by
  cases req with
  | hold userId showtimeId seatId row =>
    rcases hold_cases w env userId showtimeId seatId row with h | ⟨st, hst, _, _, _, hsh, _⟩
    · exact Or.inl h.1
    · exact Or.inr ⟨showtimeId, st, { st with
        bookedSeats := st.bookedSeats.filter (fun seat => seat.seatId != seatId) ++
          [⟨seatId, userId, .held, some (env.now + 600000)⟩] },
        hst, rfl, fun hu => uniqueSeats_hold _ _ _ hu, hsh⟩
  | release userId showtimeId seatId row =>
    rcases release_cases w env userId showtimeId seatId row with h | ⟨st, hst, _, _, _, hsh, _⟩
    · exact Or.inl h.1
    · exact Or.inr ⟨showtimeId, st, { st with
        bookedSeats := st.bookedSeats.filter (fun x => !ownHold userId seatId x) },
        hst, rfl, fun hu => uniqueSeats_filter _ hu, hsh⟩
  | createBooking userId r =>
    rcases createBooking_showtimes w env userId r with h | ⟨st, hst, hsh⟩
    · exact Or.inl h
    · exact Or.inr ⟨_, st, { st with
        bookedSeats := markBooked st.bookedSeats userId r.seats,
        availableSeats := st.availableSeats - r.seats.length },
        hst, rfl, fun hu => uniqueSeats_markBooked _ _ hu, hsh⟩
  | cancelBooking userId id reason =>
    rcases cancelBooking_showtimes w env userId id reason with h | ⟨b, st, _, hst, hsh⟩
    · exact Or.inl h
    · exact Or.inr ⟨_, st, { st with
        bookedSeats := releaseBooked st.bookedSeats b.seats,
        availableSeats := st.availableSeats + b.seats.length },
        hst, rfl, fun hu => uniqueSeats_filter _ hu, hsh⟩

/-- C2: per-seat uniqueness is an invariant of the seat state machine.  If a showtime has
at most one record per seat id, it still exists and still has at most one record per
seat id after any hold, release, createBooking or cancelBooking request, whatever the
answer and whichever call rejects; and after a hold answered with success the showtime
has exactly one record for the held seat. -/
theorem seat_uniqueness_invariant (w : World) (env : Env) :
    (∀ (req : Request) (x : Id) (st : Showtime), findShowtime w x = some st →
      uniqueSeats st.bookedSeats →
      ∃ st', findShowtime (step w env req).2 x = some st' ∧ uniqueSeats st'.bookedSeats) ∧
    (∀ (userId showtimeId seatId : Id) (row : Option String),
      (hold w env userId showtimeId seatId row).1.status = 200 →
      ((recordsOf (hold w env userId showtimeId seatId row).2 showtimeId).filter
        (fun r => r.seatId == seatId)).length = 1) := by
  constructor
  · intro req x st hfind huniq
    rcases step_unique_aux w env req with h | ⟨sid, st0, s, hst0, hid, hu, hsh⟩
    · exact ⟨st, by rw [findShowtime_congr h]; exact hfind, huniq⟩
    · rw [findShowtime_congr hsh, findShowtime_saveShowtime_same hst0 hid]
      by_cases hx : x = sid
      · subst hx
        rw [hfind] at hst0
        cases hst0
        exact ⟨s, by simp, hu huniq⟩
      · exact ⟨st, by simp [hx, hfind], huniq⟩
  · intro userId showtimeId seatId row h200
    rcases hold_cases w env userId showtimeId seatId row with h | ⟨st, hst, _, _, _, hsh, _⟩
    · exact absurd h200 h.2.1
    · unfold recordsOf
      rw [findShowtime_congr hsh, findShowtime_saveShowtime_same (s := { st with
        bookedSeats := st.bookedSeats.filter (fun seat => seat.seatId != seatId) ++
          [⟨seatId, userId, .held, some (env.now + 600000)⟩] }) hst rfl]
      simp only [if_true]
      rw [hold_records_count]
      rfl

/-- C2 at a concrete request: bob holds the free seat A3 of the example showtime. -/
theorem seat_uniqueness_invariant_witness :
    (∃ st', findShowtime (step demoWorld (Env.calm 500 "b1")
        (.hold "bob" "S1" "A3" none)).2 "S1" = some st' ∧ uniqueSeats st'.bookedSeats) ∧
    ((recordsOf (hold demoWorld (Env.calm 500 "b1") "bob" "S1" "A3" none).2 "S1").filter
        (fun r => r.seatId == "A3")).length = 1 :=
  ⟨(seat_uniqueness_invariant demoWorld (Env.calm 500 "b1")).1 (.hold "bob" "S1" "A3" none)
      "S1" demoShowtime (by decide) (by decide),
    (seat_uniqueness_invariant demoWorld (Env.calm 500 "b1")).2 "bob" "S1" "A3" none
      (by decide)⟩

/-! ## C3: hold is legal exactly from the available state -/

theorem isSeatAvailable_eq_false_iff (st : Showtime) (seatId : Id) (now : Time) :
    isSeatAvailable st seatId now = false ↔
      ∃ r ∈ st.bookedSeats, r.seatId = seatId ∧ r.active now = true := by
  unfold isSeatAvailable
  rw [← Bool.not_eq_true, List.all_eq_true]
  simp

theorem isSeatAvailable_eq_true_iff (st : Showtime) (seatId : Id) (now : Time) :
    isSeatAvailable st seatId now = true ↔
      ∀ r ∈ st.bookedSeats, r.seatId = seatId → r.active now = false := by
  unfold isSeatAvailable
  rw [List.all_eq_true]
  simp only [Bool.or_eq_true, bne_iff_ne, ne_eq, Bool.not_eq_true']
  constructor
  · intro h r hr hs
    rcases h r hr with h1 | h1
    · exact absurd hs h1
    · exact h1
  · intro h r hr
    by_cases hs : r.seatId = seatId
    · exact Or.inr (h r hr hs)
    · exact Or.inl hs

/-- C3: with the showtime found and no call rejecting, a hold on a seat
that has a booked record, or a held record whose `holdExpiry` is after the current time
(of any user), is answered 409 and writes no showtime; a hold on a seat that has no
record, or only held records whose `holdExpiry` is not after the current time, is
answered 200 and the showtime is saved with those records replaced by the new hold. -/
theorem hold_legal_exactly_from_available (w : World) (env : Env)
    (userId showtimeId seatId : Id) (row : Option String) (st : Showtime)
    (hfind : findShowtime w showtimeId = some st)
    (hquiet : env.quiet) :
    ((∃ r ∈ st.bookedSeats, r.seatId = seatId ∧
        (r.status = .booked ∨ (r.status = .held ∧ ∃ e, r.holdExpiry = some e ∧ env.now < e))) →
      (hold w env userId showtimeId seatId row).1.status = 409 ∧
      (hold w env userId showtimeId seatId row).2.showtimes = w.showtimes) ∧
    ((∀ r ∈ st.bookedSeats, r.seatId = seatId →
        r.status = .held ∧ ∃ e, r.holdExpiry = some e ∧ e ≤ env.now) →
      (hold w env userId showtimeId seatId row).1.status = 200 ∧
      findShowtime (hold w env userId showtimeId seatId row).2 showtimeId =
        some { st with
          bookedSeats := st.bookedSeats.filter (fun seat => seat.seatId != seatId) ++
            [⟨seatId, userId, .held, some (env.now + 600000)⟩] }) := by
  obtain ⟨hf, hs, _, _, _, _, he⟩ := hquiet
  constructor
  · rintro ⟨r, hr, hseat, hact⟩
    have hav : isSeatAvailable st seatId env.now = false := by
      rw [isSeatAvailable_eq_false_iff]
      refine ⟨r, hr, hseat, ?_⟩
      unfold BookedSeat.active
      rcases hact with hb | ⟨hh, e, hexp, hlt⟩
      · rw [hb]
      · rw [hh]; simp [expiryAfter, hexp, hlt]
    have h := hold_of_unavailable w env userId showtimeId seatId row hf hfind hav
    exact ⟨by rw [h.1]; rfl, h.2.1⟩
  · intro hall
    have hav : isSeatAvailable st seatId env.now = true := by
      rw [isSeatAvailable_eq_true_iff]
      intro r hr hseat
      obtain ⟨hh, e, hexp, hle⟩ := hall r hr hseat
      unfold BookedSeat.active
      rw [hh]
      simp only [expiryAfter, hexp, decide_eq_false_iff_not, not_lt]
      exact hle
    have h := hold_of_available w env userId showtimeId seatId row hf hs he hfind hav
    exact ⟨by rw [h.1], h.2⟩

/-- C3 on the example showtime, where alice holds A1 until instant 1000: a hold by bob
at instant 500 is answered 409, a hold by bob at instant 1000 is answered 200 and
replaces the record of alice. -/
theorem hold_legal_exactly_from_available_witness :
    ((hold demoWorld (Env.calm 500 "b1") "bob" "S1" "A1" none).1.status = 409 ∧
      (hold demoWorld (Env.calm 500 "b1") "bob" "S1" "A1" none).2.showtimes
        = demoWorld.showtimes) ∧
    ((hold demoWorld (Env.calm 1000 "b1") "bob" "S1" "A1" none).1.status = 200 ∧
      findShowtime (hold demoWorld (Env.calm 1000 "b1") "bob" "S1" "A1" none).2 "S1" =
        some { demoShowtime with
          bookedSeats := [⟨"A2", "alice", .held, some 1000⟩,
            ⟨"A1", "bob", .held, some 601000⟩] }) :=
  ⟨(hold_legal_exactly_from_available demoWorld (Env.calm 500 "b1") "bob" "S1" "A1" none
      demoShowtime (by decide) (by simp [Env.quiet, Env.calm])).1
      ⟨⟨"A1", "alice", .held, some 1000⟩, by decide, rfl, Or.inr ⟨rfl, 1000, rfl, by decide⟩⟩,
    (hold_legal_exactly_from_available demoWorld (Env.calm 1000 "b1") "bob" "S1" "A1" none
      demoShowtime (by decide) (by simp [Env.quiet, Env.calm])).2
      (by decide)⟩

/-! ## C4: the record written by a successful hold -/

/-- C4: after a hold answered with success, the answer carries `holdExpiry = now + 600000`
and the saved showtime has exactly one record for the seat, held by the requesting user
until that instant; the records of the other seats are those of before, in their order. -/
theorem hold_success_record (w : World) (env : Env) (userId showtimeId seatId : Id)
    (row : Option String)
    (h200 : (hold w env userId showtimeId seatId row).1.status = 200) :
    (hold w env userId showtimeId seatId row).1.holdExpiry = some (env.now + 10 * 60 * 1000) ∧
    ∃ st st', findShowtime w showtimeId = some st ∧
      findShowtime (hold w env userId showtimeId seatId row).2 showtimeId = some st' ∧
      st'.bookedSeats.filter (fun r => r.seatId == seatId) =
        [⟨seatId, userId, .held, some (env.now + 600000)⟩] ∧
      st'.bookedSeats.filter (fun r => r.seatId != seatId) =
        st.bookedSeats.filter (fun r => r.seatId != seatId) := by
  rcases hold_cases w env userId showtimeId seatId row with h | ⟨st, hst, _, _, _, hsh, hres⟩
  · exact absurd h200 h.2.1
  · rcases hres with hres | hres
    · refine ⟨by rw [hres]; norm_num, st, { st with
          bookedSeats := st.bookedSeats.filter (fun seat => seat.seatId != seatId) ++
            [⟨seatId, userId, .held, some (env.now + 600000)⟩] }, hst, ?_, ?_, ?_⟩
      · rw [findShowtime_congr hsh, findShowtime_saveShowtime_same (s := { st with
          bookedSeats := st.bookedSeats.filter (fun seat => seat.seatId != seatId) ++
            [⟨seatId, userId, .held, some (env.now + 600000)⟩] }) hst rfl]
        simp only [if_true]
      · exact hold_records_count _ _ _ _
      · simp only [List.filter_append, List.filter_filter, Bool.and_self]
        simp
    · rw [hres] at h200
      simp [serverError, reply] at h200

/-- C4 on the example showtime: bob holds the free seat A3 at instant 500. -/
theorem hold_success_record_witness :
    (hold demoWorld (Env.calm 500 "b1") "bob" "S1" "A3" none).1.holdExpiry
      = some (500 + 10 * 60 * 1000) ∧
    ∃ st st', findShowtime demoWorld "S1" = some st ∧
      findShowtime (hold demoWorld (Env.calm 500 "b1") "bob" "S1" "A3" none).2 "S1"
        = some st' ∧
      st'.bookedSeats.filter (fun r => r.seatId == "A3") =
        [⟨"A3", "bob", .held, some (500 + 600000)⟩] ∧
      st'.bookedSeats.filter (fun r => r.seatId != "A3") =
        st.bookedSeats.filter (fun r => r.seatId != "A3") :=
  hold_success_record demoWorld (Env.calm 500 "b1") "bob" "S1" "A3" none (by decide)

/-! ## C5: a hold that meets an existing lock entry -/

/-- C5, evaluated on the code: the store has an entry under the lock key of seat A3 with
value alice, and bob asks to hold A3.  The `SET` overwrites the entry, the handler reads
and saves the showtime with bob's hold, publishes and emits the event, answers 200, and
its `del` removes the entry: the earlier entry is neither respected nor kept.  The entry
the `SET` writes has no TTL, with or without an earlier entry. -/
theorem hold_overrides_existing_lock :
    redisGet demoLockedWorld.locks (lockKey "S1" "A3") 500 = some "alice" ∧
    (hold demoLockedWorld (Env.calm 500 "b1") "bob" "S1" "A3" none).1.status = 200 ∧
    (⟨"A3", "bob", .held, some 600500⟩ : BookedSeat) ∈
      recordsOf (hold demoLockedWorld (Env.calm 500 "b1") "bob" "S1" "A3" none).2 "S1" ∧
    (hold demoLockedWorld (Env.calm 500 "b1") "bob" "S1" "A3" none).2.kafka =
      [⟨"seat-updates", some "S1", some "A3", [], none, "blocked", "bob", 500⟩] ∧
    (hold demoLockedWorld (Env.calm 500 "b1") "bob" "S1" "A3" none).2.emitted =
      [⟨"showtime-S1", "A3", "blocked", none⟩] ∧
    (hold demoLockedWorld (Env.calm 500 "b1") "bob" "S1" "A3" none).2.trace =
      [.redisSet (lockKey "S1" "A3") "bob" 30000, .showtimeFind "S1", .showtimeSave "S1",
        .redisDel (lockKey "S1" "A3")] ∧
    (hold demoLockedWorld (Env.calm 500 "b1") "bob" "S1" "A3" none).2.locks = [] ∧
    (redisSet demoLockedWorld.locks (lockKey "S1" "A3") "bob").1 = some "OK" ∧
    (redisSet demoLockedWorld.locks (lockKey "S1" "A3") "bob").2 =
      [⟨lockKey "S1" "A3", "bob", none⟩] ∧
    (redisSet demoWorld.locks (lockKey "S1" "A3") "bob").2 =
      [⟨lockKey "S1" "A3", "bob", none⟩] := by
  decide

/-! ## C6: the lock is deleted on every exit path -/

/-- C6: every hold acquires the lock (its `SET` is answered `OK` whatever the store
holds) and ends with no entry under the lock key in the store, whatever it answers (200,
404, 409 or 500) and whichever persistence or publish call rejects; its last access is the
`DEL` of the key. -/
theorem hold_releases_lock (w : World) (env : Env) (userId showtimeId seatId : Id)
    (row : Option String) :
    (∀ e ∈ (hold w env userId showtimeId seatId row).2.locks,
      e.key ≠ lockKey showtimeId seatId) ∧
    (∀ t, redisExists (hold w env userId showtimeId seatId row).2.locks
      (lockKey showtimeId seatId) t = false) ∧
    (hold w env userId showtimeId seatId row).2.trace.getLast? =
      some (.redisDel (lockKey showtimeId seatId)) := by
  have h := hold_locks_of_free w env userId showtimeId seatId row
  refine ⟨h, ?_, ?_⟩
  · intro t
    unfold redisExists
    rw [← Bool.not_eq_true, List.any_eq_true]
    rintro ⟨e, he, hk⟩
    simp only [Bool.and_eq_true, beq_iff_eq] at hk
    exact h e he hk.1
  · rw [hold_eq w env userId showtimeId seatId row]
    simp [World.setLocks, World.log]

/-- C6 on the example world when `showtime.save()` rejects: the answer is 500 and the
lock of A3 is gone. -/
theorem hold_releases_lock_witness :
    (∀ e ∈ (hold demoWorld { Env.calm 500 "b1" with showtimeSaveThrows := true }
        "bob" "S1" "A3" none).2.locks, e.key ≠ lockKey "S1" "A3") ∧
    (∀ t, redisExists (hold demoWorld { Env.calm 500 "b1" with showtimeSaveThrows := true }
        "bob" "S1" "A3" none).2.locks (lockKey "S1" "A3") t = false) ∧
    (hold demoWorld { Env.calm 500 "b1" with showtimeSaveThrows := true }
        "bob" "S1" "A3" none).2.trace.getLast? = some (.redisDel (lockKey "S1" "A3")) :=
  hold_releases_lock demoWorld { Env.calm 500 "b1" with showtimeSaveThrows := true }
    "bob" "S1" "A3" none

/-! ## C7: release removes the holds of the releasing user only -/

theorem recordsOf_congr {w w' : World} (h : w'.showtimes = w.showtimes) (id : Id) :
    recordsOf w' id = recordsOf w id := by
  unfold recordsOf; rw [findShowtime_congr h]

theorem recordsOf_of_find {w : World} {id : Id} {st : Showtime}
    (h : findShowtime w id = some st) : recordsOf w id = st.bookedSeats := by
  unfold recordsOf; rw [h]

theorem recordsOf_saved {w w' : World} {id : Id} {st s : Showtime}
    (h : findShowtime w id = some st) (hs : s._id = st._id)
    (hsh : w'.showtimes = (saveShowtime w s).showtimes) :
    recordsOf w' id = s.bookedSeats := by
  unfold recordsOf
  rw [findShowtime_congr hsh, findShowtime_saveShowtime_same h hs]
  simp

/-- C7: a release by user `userId` of seat `seatId` leaves the records of the showtime
as they were or removes exactly the records that are holds of that user on that seat,
all other records staying in their order, whichever call rejects; no record that is not
such a hold is ever removed.  When no call rejects, the answer is 404 exactly when no
such hold exists, a 404 writes no showtime and publishes no event, and when such a hold
exists the answer is 200 and the saved records are the old ones without those holds. -/
theorem release_removes_own_holds_only (w : World) (env : Env) (userId showtimeId seatId : Id)
    (row : Option String) :
    (recordsOf (release w env userId showtimeId seatId row).2 showtimeId =
        recordsOf w showtimeId ∨
      recordsOf (release w env userId showtimeId seatId row).2 showtimeId =
        (recordsOf w showtimeId).filter (fun x =>
          !(x.seatId == seatId && x.userId == userId && x.status == .held))) ∧
    (∀ x ∈ recordsOf w showtimeId,
      ¬ (x.seatId = seatId ∧ x.userId = userId ∧ x.status = .held) →
      x ∈ recordsOf (release w env userId showtimeId seatId row).2 showtimeId) ∧
    (env.quiet →
      ((release w env userId showtimeId seatId row).1.status = 404 ↔
        ¬ ∃ x ∈ recordsOf w showtimeId,
          x.seatId = seatId ∧ x.userId = userId ∧ x.status = .held) ∧
      ((release w env userId showtimeId seatId row).1.status = 404 →
        (release w env userId showtimeId seatId row).2.showtimes = w.showtimes ∧
        (release w env userId showtimeId seatId row).2.kafka = w.kafka ∧
        (release w env userId showtimeId seatId row).2.emitted = w.emitted) ∧
      ((∃ x ∈ recordsOf w showtimeId,
          x.seatId = seatId ∧ x.userId = userId ∧ x.status = .held) →
        (release w env userId showtimeId seatId row).1.status = 200 ∧
        recordsOf (release w env userId showtimeId seatId row).2 showtimeId =
          (recordsOf w showtimeId).filter (fun x =>
            !(x.seatId == seatId && x.userId == userId && x.status == .held)))) := by
  have hown : ∀ x : BookedSeat, ownHold userId seatId x = true ↔
      (x.seatId = seatId ∧ x.userId = userId ∧ x.status = .held) := by
    intro x; unfold ownHold; simp [and_assoc]
  have hfilter : ∀ l : List BookedSeat,
      l.filter (fun x => !(x.seatId == seatId && x.userId == userId && x.status == .held)) =
      l.filter (fun x => !ownHold userId seatId x) := fun l => rfl
  simp only [hfilter]
  rcases release_cases w env userId showtimeId seatId row with
    ⟨hsh, hk, he, hc⟩ | ⟨st, hst, hex, hf, hs, hsh, hres⟩
  · have hrec := recordsOf_congr hsh showtimeId
    refine ⟨Or.inl hrec, fun x hx _ => by rw [hrec]; exact hx, ?_⟩
    intro hq
    obtain ⟨qf, qs, _, _, _, _, qe⟩ := hq
    rcases hc with ⟨h1, _⟩ | ⟨_, hnone, hr⟩ | ⟨_, hr, st, hst, hno⟩ | ⟨_, h1, _⟩
    · rw [qf] at h1; exact absurd h1 (by simp)
    · have hempty : recordsOf w showtimeId = [] := by unfold recordsOf; rw [hnone]
      refine ⟨?_, fun _ => ⟨hsh, hk, he⟩, ?_⟩
      · rw [hr, hempty]; simp [reply]
      · rw [hempty]; simp
    · have hrw := recordsOf_of_find hst
      have hnone : ¬ ∃ x ∈ recordsOf w showtimeId,
          x.seatId = seatId ∧ x.userId = userId ∧ x.status = .held := by
        rintro ⟨x, hx, hxo⟩
        rw [hrw] at hx
        have := hno x hx
        rw [(hown x).mpr hxo] at this
        exact absurd this (by simp)
      refine ⟨?_, fun _ => ⟨hsh, hk, he⟩, fun hex => absurd hex hnone⟩
      rw [hr]; simp only [reply, true_iff]; exact hnone
    · rw [qs] at h1; exact absurd h1 (by simp)
  · have hrw := recordsOf_of_find hst
    have hrec : recordsOf (release w env userId showtimeId seatId row).2 showtimeId =
        (recordsOf w showtimeId).filter (fun x => !ownHold userId seatId x) := by
      rw [hrw]
      exact recordsOf_saved (s := { st with
        bookedSeats := st.bookedSeats.filter (fun x => !ownHold userId seatId x) }) hst rfl hsh
    have hsome : ∃ x ∈ recordsOf w showtimeId,
        x.seatId = seatId ∧ x.userId = userId ∧ x.status = .held := by
      obtain ⟨x, hx, hxo⟩ := hex
      exact ⟨x, by rw [hrw]; exact hx, (hown x).mp hxo⟩
    refine ⟨Or.inr hrec, ?_, ?_⟩
    · intro x hx hnot
      rw [hrec, List.mem_filter]
      refine ⟨hx, ?_⟩
      cases ho : ownHold userId seatId x with
      | false => rfl
      | true => exact absurd ((hown x).mp ho) hnot
    · intro hq
      obtain ⟨_, _, _, _, _, _, qe⟩ := hq
      rcases hres with ⟨_, hr⟩ | ⟨h1, _⟩
      · refine ⟨?_, ?_, fun _ => ⟨by rw [hr]; rfl, hrec⟩⟩
        · rw [hr]; simp only [reply]
          constructor
          · intro h; exact absurd h (by decide)
          · intro h; exact absurd hsome h
        · rw [hr]; intro h; exact absurd h (by simp [reply])
      · rw [qe] at h1; exact absurd h1 (by simp)

/-- C7 on the example showtime: alice releases her hold on A1 (200, the record of A2
stays), and bob, who holds nothing, is answered 404 for the same seat. -/
theorem release_removes_own_holds_only_witness :
    ((release demoWorld (Env.calm 500 "b1") "alice" "S1" "A1" none).1.status = 200 ∧
      recordsOf (release demoWorld (Env.calm 500 "b1") "alice" "S1" "A1" none).2 "S1" =
        (recordsOf demoWorld "S1").filter (fun x =>
          !(x.seatId == "A1" && x.userId == "alice" && x.status == .held))) ∧
    ((release demoWorld (Env.calm 500 "b1") "bob" "S1" "A1" none).1.status = 404 ∧
      (release demoWorld (Env.calm 500 "b1") "bob" "S1" "A1" none).2.showtimes
        = demoWorld.showtimes) :=
  ⟨((release_removes_own_holds_only demoWorld (Env.calm 500 "b1") "alice" "S1" "A1" none).2.2
      (by simp [Env.quiet, Env.calm])).2.2 (by decide),
    ⟨((release_removes_own_holds_only demoWorld (Env.calm 500 "b1") "bob" "S1" "A1" none).2.2
      (by simp [Env.quiet, Env.calm])).1.mpr (by decide),
     (((release_removes_own_holds_only demoWorld (Env.calm 500 "b1") "bob" "S1" "A1" none).2.2
      (by simp [Env.quiet, Env.calm])).2.1 (by decide)).1⟩⟩

/-! ## C8: the seat layout answer -/

theorem rowsOf_pushSeat {acc : List (String × List SeatView)} {done : List SeatView}
    (v : SeatView) (h : RowsOf acc done) : RowsOf (pushSeat acc v) (done ++ [v]) := by
  obtain ⟨hnd, hmem⟩ := h
  unfold pushSeat
  split
  · rename_i hany
    rw [List.any_eq_true] at hany
    obtain ⟨p0, hp0, hk0⟩ := hany
    have hk0' : p0.1 = v.row := by simpa using hk0
    have hp0' : (v.row, p0.2) ∈ acc := by rw [← hk0']; exact hp0
    have hl0 := (hmem v.row p0.2).mp hp0'
    constructor
    · have : (acc.map (fun p => if p.1 == v.row then (p.1, p.2 ++ [v]) else p)).map Prod.fst
          = acc.map Prod.fst := by
        rw [List.map_map]
        apply List.map_congr_left
        intro p _
        simp only [Function.comp]
        split <;> rfl
      rw [this]; exact hnd
    · intro row l
      simp only [List.mem_map, List.filter_append]
      by_cases hrow : v.row = row
      · subst hrow
        constructor
        · rintro ⟨p, hp, hpe⟩
          by_cases hpk : p.1 = v.row
          · simp only [hpk, beq_self_eq_true, if_true, Prod.mk.injEq, true_and] at hpe
            have hp' : (v.row, p.2) ∈ acc := by rw [← hpk]; exact hp
            have := (hmem v.row p.2).mp hp'
            subst hpe
            rw [this.1]
            simp
          · have hb : (p.1 == v.row) = false := by simpa using hpk
            simp only [hb] at hpe
            exact absurd (congrArg Prod.fst hpe) hpk
        · rintro ⟨hl, _⟩
          refine ⟨(v.row, p0.2), hp0', ?_⟩
          rw [hl, hl0.1]
          simp
      · have hb : (v.row == row) = false := by simpa using hrow
        constructor
        · rintro ⟨p, hp, hpe⟩
          by_cases hpk : p.1 = v.row
          · simp only [hpk, beq_self_eq_true, if_true, Prod.mk.injEq] at hpe
            exact absurd hpe.1 hrow
          · have hb2 : (p.1 == v.row) = false := by simpa using hpk
            simp only [hb2, Bool.false_eq_true, if_false] at hpe
            subst hpe
            have := (hmem row l).mp hp
            simpa [List.filter_cons, hb] using this
        · rintro ⟨hl, hne⟩
          simp only [List.filter_cons, hb, List.filter_nil, List.append_nil,
            Bool.false_eq_true, if_false] at hl
          have hin := (hmem row l).mpr ⟨hl, hne⟩
          refine ⟨(row, l), hin, ?_⟩
          have : ((row, l).1 == v.row) = false := by
            simp only [beq_eq_false_iff_ne, ne_eq]
            exact fun h => hrow h.symm
          simp [this]
  · rename_i hany
    have hnone : ∀ p ∈ acc, p.1 ≠ v.row := by
      intro p hp hk
      apply hany
      rw [List.any_eq_true]
      exact ⟨p, hp, by simpa using hk⟩
    have hempty : done.filter (fun x => x.row == v.row) = [] := by
      by_contra hne
      exact hnone _ ((hmem v.row _).mpr ⟨rfl, hne⟩) rfl
    constructor
    · rw [List.map_append, List.nodup_append]
      refine ⟨hnd, by simp, ?_⟩
      intro a ha hb
      simp only [List.map_cons, List.map_nil, List.mem_singleton] at hb
      simp only [List.mem_map] at ha
      obtain ⟨p, hp, rfl⟩ := ha
      exact hnone p hp hb
    · intro row l
      simp only [List.mem_append, List.mem_singleton, Prod.mk.injEq, List.filter_append]
      by_cases hrow : v.row = row
      · subst hrow
        constructor
        · rintro (hin | ⟨_, hl⟩)
          · exact absurd rfl (hnone _ hin)
          · subst hl; simp [hempty]
        · rintro ⟨hl, _⟩
          right
          simpa [hempty] using hl
      · have hb : (v.row == row) = false := by simpa using hrow
        simp only [List.filter_cons, hb, List.filter_nil, List.append_nil,
          Bool.false_eq_true, if_false]
        constructor
        · rintro (hin | ⟨hr, _⟩)
          · exact (hmem row l).mp hin
          · exact absurd hr.symm hrow
        · intro h
          exact Or.inl ((hmem row l).mpr h)

theorem rowsOf_foldl (vs : List SeatView) :
    ∀ (acc : List (String × List SeatView)) (done : List SeatView),
      RowsOf acc done → RowsOf (vs.foldl pushSeat acc) (done ++ vs) := by
  induction vs with
  | nil => intro acc done h; simpa using h
  | cons v vs ih =>
    intro acc done h
    have := ih (pushSeat acc v) (done ++ [v]) (rowsOf_pushSeat v h)
    simpa using this

/-- Once a step has thrown, the loop has no result. -/
theorem foldl_pushSeatOrThrow_none (st : Showtime) (now : Time) (layout : List Seat) :
    layout.foldl
      (fun acc seat => acc.bind (fun l => pushSeatOrThrow l (seatView st now seat))) none
      = none := by
  induction layout with
  | nil => rfl
  | cons seat rest ih => simpa using ih

/-- When no row is named as an inherited property, no step throws and the loop is the
loop over the own properties. -/
theorem foldl_pushSeatOrThrow_some (st : Showtime) (now : Time) (layout : List Seat)
    (h : ∀ seat ∈ layout, seat.row ∉ objectPrototypeKeys) :
    ∀ acc : List (String × List SeatView),
      layout.foldl
        (fun acc seat => acc.bind (fun l => pushSeatOrThrow l (seatView st now seat)))
        (some acc)
        = some (layout.foldl (fun acc seat => pushSeat acc (seatView st now seat)) acc) := by
  induction layout with
  | nil => intro acc; rfl
  | cons seat rest ih =>
    intro acc
    have hrow : objectPrototypeKeys.contains (seatView st now seat).row = false := by
      have := h seat (List.mem_cons_self _ _)
      simpa [seatView] using this
    simp only [List.foldl_cons, Option.bind_some, pushSeatOrThrow, hrow, Bool.false_eq_true,
      if_false]
    exact ih (fun s hs => h s (List.mem_cons_of_mem _ hs)) _

/-- When some row is named as an inherited property, the loop throws. -/
theorem buildSeatLayout_throws (st : Showtime) (now : Time) (layout : List Seat)
    (h : ∃ seat ∈ layout, seat.row ∈ objectPrototypeKeys) :
    buildSeatLayout st layout now = none := by
  unfold buildSeatLayout
  generalize (some [] : Option (List (String × List SeatView))) = acc
  induction layout generalizing acc with
  | nil => obtain ⟨seat, hs, _⟩ := h; cases hs
  | cons seat rest ih =>
    simp only [List.foldl_cons]
    by_cases hrow : seat.row ∈ objectPrototypeKeys
    · have hc : objectPrototypeKeys.contains (seatView st now seat).row = true := by
        simpa [seatView] using hrow
      have hnone : acc.bind (fun l => pushSeatOrThrow l (seatView st now seat)) = none := by
        cases acc with
        | none => rfl
        | some l => simp only [pushSeatOrThrow, hc, if_true, Option.bind_some]; rfl
      rw [hnone]
      exact foldl_pushSeatOrThrow_none st now rest
    · apply ih
      obtain ⟨s, hs, hk⟩ := h
      rcases List.mem_cons.mp hs with hs | hs
      · subst hs; exact absurd hk hrow
      · exact ⟨s, hs, hk⟩

theorem rowsOf_buildSeatLayout (st : Showtime) (layout : List Seat) (now : Time)
    (hrows : ∀ seat ∈ layout, seat.row ∉ objectPrototypeKeys) :
    ∃ L, buildSeatLayout st layout now = some L ∧
      RowsOf L (layout.map (seatView st now)) := by
  have h := rowsOf_foldl (layout.map (seatView st now)) [] []
    ⟨by simp, by intro row l; simp⟩
  rw [List.foldl_map] at h
  refine ⟨_, ?_, by simpa using h⟩
  unfold buildSeatLayout
  exact foldl_pushSeatOrThrow_some st now layout hrows []

/-- With at most one record per seat, `find` returns the record of the seat. -/
theorem find_of_unique {l : List BookedSeat} {r : BookedSeat} (hu : uniqueSeats l)
    (hr : r ∈ l) : l.find? (fun bs => bs.seatId == r.seatId) = some r := by
  induction l with
  | nil => cases hr
  | cons a t ih =>
    unfold uniqueSeats at hu ih
    simp only [List.map_cons, List.nodup_cons] at hu
    rw [List.find?_cons]
    by_cases ha : a.seatId = r.seatId
    · rcases List.mem_cons.mp hr with h | h
      · subst h; simp
      · exfalso
        apply hu.1
        rw [ha]
        exact List.mem_map.mpr ⟨r, h, rfl⟩
    · rcases List.mem_cons.mp hr with h | h
      · subst h; exact absurd rfl ha
      · have hb : (a.seatId == r.seatId) = false := by simpa using ha
        simp only [hb]
        exact ih hu.2 h

/-- The layout answer when no row of the screen is named as a property that `{}`
inherits.  For a showtime with at most one record per seat, the layout answer has every row
name as a key once, and the array under a row is the list of the seats of that row in the
screen layout, one entry per seat in layout order.  The entry of a seat carries its id,
row, number and type, the showtime price of its type, and the status `occupied` when its
record is booked, `blocked` when its record is held with `holdExpiry` after the current
time or has status blocked, and `available` when it has no record or a held record whose
`holdExpiry` is not after the current time. -/
theorem seat_layout_answer (w : World) (env : Env) (showtimeId : Id) (st : Showtime)
    (layout : List Seat)
    (hfind : findShowtime w showtimeId = some st) (hlay : st.layout = some layout)
    (hf : env.showtimeFindThrows = false) (huniq : uniqueSeats st.bookedSeats)
    (hrows : ∀ seat ∈ layout, seat.row ∉ objectPrototypeKeys) :
    ∃ L, getSeatLayout w env showtimeId = (200, some L) ∧
      (L.map Prod.fst).Nodup ∧
      (∀ (row : String) (l : List SeatView), (row, l) ∈ L ↔
        (l = (layout.filter (fun seat => seat.row == row)).map (seatView st env.now) ∧
          l ≠ [])) ∧
      (∀ seat ∈ layout,
        (seatView st env.now seat)._id = seat._id ∧
        (seatView st env.now seat).row = seat.row ∧
        (seatView st env.now seat).number = seat.number ∧
        (seatView st env.now seat).type = seat.type ∧
        (seatView st env.now seat).price = st.pricing.get seat.type ∧
        ((∀ r ∈ st.bookedSeats, r.seatId ≠ seat._id) →
          (seatView st env.now seat).status = .available) ∧
        (∀ r ∈ st.bookedSeats, r.seatId = seat._id →
          (r.status = .booked → (seatView st env.now seat).status = .occupied) ∧
          (r.status = .held → (∃ e, r.holdExpiry = some e ∧ env.now < e) →
            (seatView st env.now seat).status = .blocked) ∧
          (r.status = .blocked → (seatView st env.now seat).status = .blocked) ∧
          (r.status = .held → (∀ e, r.holdExpiry = some e → e ≤ env.now) →
            (seatView st env.now seat).status = .available))) := by
  obtain ⟨L, hL, hrowsOf⟩ := rowsOf_buildSeatLayout st layout env.now hrows
  refine ⟨L, ?_, ?_, ?_, ?_⟩
  · unfold getSeatLayout
    simp [hf, hfind, hlay, hL]
  · exact hrowsOf.1
  · intro row l
    rw [hrowsOf.2 row l, List.filter_map]
    rfl
  · intro seat _
    refine ⟨rfl, rfl, rfl, rfl, rfl, ?_, ?_⟩
    · intro hno
      have : st.bookedSeats.find? (fun bs => bs.seatId == seat._id) = none := by
        rw [List.find?_eq_none]
        intro r hr
        simpa using hno r hr
      simp [seatView, viewStatus, this]
    · intro r hr hseat
      have hfindr : st.bookedSeats.find? (fun bs => bs.seatId == seat._id) = some r := by
        rw [← hseat]; exact find_of_unique huniq hr
      refine ⟨?_, ?_, ?_, ?_⟩
      · intro hs
        simp [seatView, viewStatus, hfindr, hs]
      · rintro hs ⟨e, hexp, hlt⟩
        simp [seatView, viewStatus, hfindr, hs, expiryAfter, hexp, hlt]
      · intro hs
        simp [seatView, viewStatus, hfindr, hs]
      · intro hs hle
        have hnot : expiryAfter r.holdExpiry env.now = false := by
          unfold expiryAfter
          cases hexp : r.holdExpiry with
          | none => rfl
          | some e => simpa using hle e hexp
        simp [seatView, viewStatus, hfindr, hs, hnot]

/-- The example showtime at instant 1000, when the holds of alice have expired: the three
seats are listed once under row A and A1 is reported as the unrecorded A3 is. -/
theorem seat_layout_answer_witness :
    ∃ L, getSeatLayout demoWorld (Env.calm 1000 "b1") "S1" = (200, some L) ∧
      (L.map Prod.fst).Nodup ∧
      (∀ (row : String) (l : List SeatView), (row, l) ∈ L ↔
        (l = (demoLayout.filter (fun seat => seat.row == row)).map
            (seatView demoShowtime 1000) ∧ l ≠ [])) ∧
      (seatView demoShowtime 1000 ⟨"A1", "A", 1, .classic⟩).status = .available ∧
      (seatView demoShowtime 1000 ⟨"A3", "A", 3, .classic⟩).status = .available :=
  match seat_layout_answer demoWorld (Env.calm 1000 "b1") "S1" demoShowtime demoLayout
      (by decide) rfl rfl (by decide) (by decide) with
  | ⟨L, h1, h2, h3, h4⟩ =>
    ⟨L, h1, h2, h3,
      ((h4 ⟨"A1", "A", 1, .classic⟩ (by decide)).2.2.2.2.2.2
        ⟨"A1", "alice", .held, some 1000⟩ (by decide) rfl).2.2.2 rfl
        (fun e he => by cases he; decide),
      (h4 ⟨"A3", "A", 3, .classic⟩ (by decide)).2.2.2.2.2.1 (by decide)⟩

/-- A layout with a row named as an inherited property is answered 500. -/
theorem getSeatLayout_throws (w : World) (env : Env) (showtimeId : Id) (st : Showtime)
    (layout : List Seat)
    (hfind : findShowtime w showtimeId = some st) (hlay : st.layout = some layout)
    (hrow : ∃ seat ∈ layout, seat.row ∈ objectPrototypeKeys) :
    getSeatLayout w env showtimeId = (500, none) := by
  unfold getSeatLayout
  split_ifs
  · rfl
  · simp [hfind, hlay, buildSeatLayout_throws st env.now layout hrow]

/-- C8, evaluated on the code: the screen has seat A1 in row A and seat K1 in a row named
`constructor`, and the showtime has one record per seat.  For the row `constructor` the
value of `seatLayout[seat.row]` is the inherited `Object` function, the array is not
created and `push` is not a function: the handler answers 500 and no layout, where the
claim lists each seat once under its row. -/
theorem seat_layout_row_constructor :
    findShowtime demoConstructorWorld "S1" = some demoConstructorShowtime ∧
    uniqueSeats demoConstructorShowtime.bookedSeats ∧
    demoConstructorShowtime.layout =
      some [⟨"A1", "A", 1, .classic⟩, ⟨"K1", "constructor", 1, .classic⟩] ∧
    getSeatLayout demoConstructorWorld (Env.calm 500 "x") "S1" = (500, none) := by
  decide

/-! ## C9: the booking totals -/

theorem dropBits_spec (fuel : Nat) : ∀ n, n < 2 ^ (53 + fuel) →
    n < 2 ^ (53 + dropBits fuel n) ∧
      (dropBits fuel n = 0 ∨ 2 ^ (52 + dropBits fuel n) ≤ n) := by
  induction fuel with
  | zero => intro n h; simpa [dropBits] using h
  | succ f ih =>
    intro n h
    unfold dropBits
    split
    · rename_i hlt; exact ⟨by simpa using hlt, Or.inl rfl⟩
    · rename_i hge
      have hhalf : n / 2 < 2 ^ (53 + f) := by
        have : 2 ^ (53 + (f + 1)) = 2 * 2 ^ (53 + f) := by ring
        omega
      obtain ⟨h1, h2⟩ := ih (n / 2) hhalf
      constructor
      · have : 2 ^ (53 + (dropBits f (n / 2) + 1)) = 2 * 2 ^ (53 + dropBits f (n / 2)) := by ring
        omega
      · right
        rcases h2 with h2 | h2
        · rw [h2]; simpa using hge
        · have : 2 ^ (52 + (dropBits f (n / 2) + 1)) = 2 * 2 ^ (52 + dropBits f (n / 2)) := by
            ring
          omega

theorem dropBits_self (n : Nat) :
    n < 2 ^ 53 * 2 ^ dropBits n n ∧ (dropBits n n = 0 ∨ 2 ^ 52 * 2 ^ dropBits n n ≤ n) := by
  have hn : n < 2 ^ (53 + n) :=
    lt_of_lt_of_le (Nat.lt_two_pow n) (Nat.pow_le_pow_right (by norm_num) (by omega))
  have := dropBits_spec n n hn
  rw [pow_add, pow_add] at this
  exact this

theorem round53_spec (n : Nat) :
    ∃ q, round53 n = q * 2 ^ dropBits n n ∧
      2 * round53 n ≤ 2 * n + 2 ^ dropBits n n ∧ 2 * n ≤ 2 * round53 n + 2 ^ dropBits n n := by
  unfold round53
  simp only
  generalize hE : 2 ^ dropBits n n = E
  have hEpos : 0 < E := by rw [← hE]; positivity
  have hdm := Nat.div_add_mod n E
  have hmod := Nat.mod_lt n hEpos
  have hmul : E * (n / E) = n / E * E := Nat.mul_comm _ _
  have hsucc : (n / E + 1) * E = n / E * E + E := Nat.succ_mul _ _
  split
  · exact ⟨n / E, rfl, by omega, by omega⟩
  · split
    · exact ⟨n / E + 1, rfl, by omega, by omega⟩
    · split
      · exact ⟨n / E, rfl, by omega, by omega⟩
      · exact ⟨n / E + 1, rfl, by omega, by omega⟩

theorem round53_of_lt (n : Nat) (h : n < 2 ^ 53) : round53 n = n := by
  have he : dropBits n n = 0 := by
    cases n with
    | zero => rfl
    | succ k => unfold dropBits; rw [if_pos h]
  unfold round53
  simp [he, Nat.mod_one]

/-- The rounding step shared by the fee and the tax: the facts about a product `n`. -/
theorem round53_grid (n : Nat) (hn : n < 2 ^ 106) :
    ∃ E N, round53 n = N ∧ 0 < E ∧ n < 2 ^ 53 * E ∧ (E = 1 ∨ 2 ^ 52 * E ≤ n) ∧
      2 * N ≤ 2 * n + E ∧ 2 * n ≤ 2 * N + E ∧
      ∀ t : Nat, N < t * 2 ^ 54 → N + E ≤ t * 2 ^ 54 := by
  obtain ⟨h1, h2⟩ := dropBits_self n
  obtain ⟨q, hq, hup, hlo⟩ := round53_spec n
  generalize he : dropBits n n = e at *
  have hle : e ≤ 54 := by
    by_contra hc
    push_neg at hc
    have h3 : 2 ^ 55 ≤ 2 ^ e := Nat.pow_le_pow_right (by norm_num) hc
    rcases h2 with h2 | h2
    · omega
    · omega
  have hdvd : 2 ^ e ∣ 2 ^ 54 := pow_dvd_pow 2 hle
  refine ⟨2 ^ e, round53 n, rfl, by positivity, h1, ?_, hup, hlo, ?_⟩
  · rcases h2 with h2 | h2
    · left; rw [h2]; rfl
    · right; exact h2
  · intro t hlt
    have hd1 : 2 ^ e ∣ t * 2 ^ 54 := Dvd.dvd.mul_left hdvd t
    have hd2 : 2 ^ e ∣ round53 n := ⟨q, by rw [hq]; ring⟩
    have hd3 := Nat.dvd_sub' hd1 hd2
    have := Nat.le_of_dvd (by omega) hd3
    omega

theorem mathRoundMul_c015 (a : Nat) (h : a < 2 ^ 49) :
    mathRoundMul a c015 = (3 * a + 10) / 20 := by
  unfold mathRoundMul
  have hn : a * c015 < 2 ^ 106 := by unfold c015; omega
  obtain ⟨E, N, hN, hE, h1, h2, hup, hlo, hgrid⟩ := round53_grid (a * c015) hn
  have hg := hgrid (2 * ((3 * a + 10) / 20) - 1)
  rw [hN]
  unfold c015 at *
  omega

theorem mathRoundMul_c018 (a : Nat) (h : a < 2 ^ 49) :
    mathRoundMul a c018 = (9 * a + 25) / 50 := by
  unfold mathRoundMul
  have hn : a * c018 < 2 ^ 106 := by unfold c018; omega
  obtain ⟨E, N, hN, hE, h1, h2, hup, hlo, hgrid⟩ := round53_grid (a * c018) hn
  have hg := hgrid (2 * ((9 * a + 25) / 50) - 1)
  rw [hN]
  unfold c018 at *
  omega

/-- A booking that `createBooking` creates has the snapshots and the amounts the handler
computes from the showtime it found. -/
theorem createBooking_booking (w : World) (env : Env) (userId : Id) (req : BookingRequest)
    (b : Booking)
    (h : (createBooking w env userId req).1.booking = some b ∨
      (createBooking w env userId req).2.bookings = w.bookings ++ [b]) :
    ∃ st layout, findShowtime w req.showtimeId = some st ∧ st.layout = some layout ∧
      b.seats = (priceSeats st layout req.seats).2 ∧
      b.totalAmount = (priceSeats st layout req.seats).1 ∧
      b.status = .pending ∧
      b.convenienceFee = mathRoundMul b.totalAmount c015 ∧
      b.taxes = mathRoundMul (jsAdd b.totalAmount b.convenienceFee) c018 ∧
      b.finalAmount = jsAdd (jsAdd b.totalAmount b.convenienceFee) b.taxes := by
  have hne : ¬ w.bookings = w.bookings ++ [b] := by
    intro hc
    have := congrArg List.length hc
    simp at this
  unfold createBooking at h
  simp only [findShowtime_log] at h
  split at h
  · rcases h with h | h
    · simp [reply] at h
    · exact absurd h hne
  · split at h
    · rcases h with h | h
      · simp [serverError, reply] at h
      · exact absurd h hne
    · split at h
      · rcases h with h | h
        · simp [reply] at h
        · exact absurd h hne
      · rename_i st hst
        split at h
        · rcases h with h | h
          · simp [reply] at h
          · exact absurd h hne
        · split at h
          · rcases h with h | h
            · simp [serverError, reply] at h
            · exact absurd h hne
          · rename_i layout hlay
            split at h
            · rcases h with h | h
              · simp [serverError, reply] at h
              · exact absurd h hne
            · have hb : b = bookingDocument env userId req (priceSeats st layout req.seats).1
                  (priceSeats st layout req.seats).2 := by
                split at h
                · rcases h with h | h
                  · simp [serverError, reply] at h
                  · simpa [World.log] using h.symm
                · split at h
                  · rcases h with h | h
                    · simp [serverError, reply] at h
                    · simpa [World.log, saveShowtime] using h.symm
                  · rcases h with h | h
                    · simpa using h.symm
                    · have h' : w.bookings ++ [bookingDocument env userId req
                          (priceSeats st layout req.seats).1 (priceSeats st layout req.seats).2]
                          = w.bookings ++ [b] := by
                        rw [← h]
                        unfold publishToKafka
                        split <;> rfl
                      simpa using (List.append_cancel_left h').symm
              subst hb
              exact ⟨st, layout, hst, hlay, rfl, rfl, rfl, rfl, rfl, rfl⟩

/-- C9: every booking that `createBooking` creates (answered with 201, or persisted
before a later call rejects) has `convenienceFee = Math.round(totalAmount * 0.15)`,
`taxes = Math.round((totalAmount + convenienceFee) * 0.18)` and
`finalAmount = totalAmount + convenienceFee + taxes` in double arithmetic; for a subtotal
`S` below `2 ^ 48` these are the exact roundings to the nearest integer
`round(S * 15 / 100)`, `round((S + fee) * 18 / 100)` and the exact sum.  On the example
showtimes, two seats at 500 give 1000, 150, 207, 1357 and two seats at 280 give 560, 84,
116, 760. -/
theorem booking_totals :
    (∀ (w : World) (env : Env) (userId : Id) (req : BookingRequest) (b : Booking),
      ((createBooking w env userId req).1.booking = some b ∨
        (createBooking w env userId req).2.bookings = w.bookings ++ [b]) →
      b.convenienceFee = mathRoundMul b.totalAmount c015 ∧
      b.taxes = mathRoundMul (jsAdd b.totalAmount b.convenienceFee) c018 ∧
      b.finalAmount = jsAdd (jsAdd b.totalAmount b.convenienceFee) b.taxes ∧
      (b.totalAmount < 2 ^ 48 →
        b.convenienceFee = roundHalfUp (15 * b.totalAmount) 100 ∧
        b.taxes = roundHalfUp (18 * (b.totalAmount + b.convenienceFee)) 100 ∧
        b.finalAmount = b.totalAmount + b.convenienceFee + b.taxes)) ∧
    (∃ b, (createBooking demoWorld500 (Env.calm 500 "b1") "alice"
        ⟨"S1", ["A1", "A2"], true⟩).1.booking = some b ∧
      b.totalAmount = 1000 ∧ b.convenienceFee = 150 ∧ b.taxes = 207 ∧ b.finalAmount = 1357) ∧
    (∃ b, (createBooking demoWorld (Env.calm 500 "b1") "alice"
        ⟨"S1", ["A1", "A2"], true⟩).1.booking = some b ∧
      b.totalAmount = 560 ∧ b.convenienceFee = 84 ∧ b.taxes = 116 ∧ b.finalAmount = 760) := by
  refine ⟨?_, ⟨_, rfl, by decide, by decide, by decide, by decide⟩,
    ⟨_, rfl, by decide, by decide, by decide, by decide⟩⟩
  intro w env userId req b h
  obtain ⟨st, layout, _, _, _, _, _, hfee, htax, hfin⟩ :=
    createBooking_booking w env userId req b h
  refine ⟨hfee, htax, hfin, ?_⟩
  intro hS
  have h1 : b.convenienceFee = (3 * b.totalAmount + 10) / 20 := by
    rw [hfee]; exact mathRoundMul_c015 _ (by omega)
  have hsum : jsAdd b.totalAmount b.convenienceFee = b.totalAmount + b.convenienceFee := by
    unfold jsAdd; exact round53_of_lt _ (by omega)
  have h2 : b.taxes = (9 * (b.totalAmount + b.convenienceFee) + 25) / 50 := by
    rw [htax, hsum]; exact mathRoundMul_c018 _ (by omega)
  refine ⟨?_, ?_, ?_⟩
  · unfold roundHalfUp; omega
  · unfold roundHalfUp; omega
  · rw [hfin, hsum]
    unfold jsAdd
    exact round53_of_lt _ (by omega)

/-- C9 at a concrete request: alice books the two seats she holds at 280 each. -/
theorem booking_totals_witness :
    ∃ b, (createBooking demoWorld (Env.calm 500 "b1") "alice"
        ⟨"S1", ["A1", "A2"], true⟩).1.booking = some b ∧
      b.totalAmount < 2 ^ 48 ∧
      b.convenienceFee = roundHalfUp (15 * b.totalAmount) 100 ∧
      b.taxes = roundHalfUp (18 * (b.totalAmount + b.convenienceFee)) 100 ∧
      b.finalAmount = b.totalAmount + b.convenienceFee + b.taxes :=
  ⟨_, rfl, by decide,
    (booking_totals.1 demoWorld (Env.calm 500 "b1") "alice" ⟨"S1", ["A1", "A2"], true⟩ _
      (Or.inl rfl)).2.2.2 (by decide)⟩

/-! ## C10: what a successful `createBooking` leaves in the showtime -/

/-- C10, evaluated on the code: alice holds A1 and A2 and asks for A2 and A3.  The answer
is 201 with a pending booking, but A3 has no record at all in the saved showtime, so not
every requested seat has a booked record of alice. -/
theorem createBooking_success_without_booked_record :
    (createBooking demoWorld (Env.calm 500 "b1") "alice" ⟨"S1", ["A2", "A3"], true⟩).1.status
      = 201 ∧
    (∃ b ∈ (createBooking demoWorld (Env.calm 500 "b1") "alice"
        ⟨"S1", ["A2", "A3"], true⟩).2.bookings, b.status = .pending) ∧
    ¬ ∃ r ∈ recordsOf (createBooking demoWorld (Env.calm 500 "b1") "alice"
        ⟨"S1", ["A2", "A3"], true⟩).2 "S1", r.seatId = "A3" := by
  decide

/-! ## Facts about the stored bookings -/

@[simp] theorem findBooking_log (w : World) (op : Op) (id userId : Id) :
    findBooking (w.log op) id userId = findBooking w id userId := rfl

@[simp] theorem saveShowtime_bookings (w : World) (s : Showtime) :
    (saveShowtime w s).bookings = w.bookings := rfl

@[simp] theorem saveBooking_bookings (w : World) (b : Booking) :
    (saveBooking w b).bookings = w.bookings.map (fun c => if c._id == b._id then b else c) :=
  rfl

@[simp] theorem findShowtime_saveBooking (w : World) (b : Booking) (id : Id) :
    findShowtime (saveBooking w b) id = findShowtime w id := rfl

/-- A booking found by id and user has that id and that user. -/
theorem findBooking_some {w : World} {id userId : Id} {b : Booking}
    (h : findBooking w id userId = some b) : b ∈ w.bookings ∧ b._id = id ∧ b.user = userId := by
  unfold findBooking at h
  have h1 := List.find?_some h
  have h2 := List.mem_of_find?_eq_some h
  simp only [Bool.and_eq_true, beq_iff_eq] at h1
  exact ⟨h2, h1.1, h1.2⟩

/-- What `findOne` returns depends on the list of bookings only. -/
theorem findBooking_congr {w w' : World} (h : w'.bookings = w.bookings) (id userId : Id) :
    findBooking w' id userId = findBooking w id userId := by
  unfold findBooking; rw [h]

/-- After `booking.save()` of the found booking, modified but with its id and user kept,
the same query returns the saved document. -/
theorem findBooking_saveBooking {w : World} {id userId : Id} {b b' : Booking}
    (h : findBooking w id userId = some b) (hid : b'._id = b._id) (hu : b'.user = b.user) :
    findBooking (saveBooking w b') id userId = some b' := by
  obtain ⟨hmem, hbid, hbu⟩ := findBooking_some h
  unfold findBooking saveBooking
  simp only
  have hb'id : b'._id = id := hid.trans hbid
  have hb'u : b'.user = userId := hu.trans hbu
  clear h
  generalize w.bookings = l at hmem
  induction l with
  | nil => simp at hmem
  | cons c cs ih =>
    simp only [List.map_cons, List.find?_cons]
    by_cases hc : c._id = b'._id
    · simp [hc, hb'id, hb'u]
    · have hcb : (c._id == b'._id) = false := by simpa using hc
      have hcid : ¬ c._id = id := by rw [← hb'id]; exact hc
      simp only [hcb, Bool.false_eq_true, if_false]
      have hp : (c._id == id && c.user == userId) = false := by simp [hcid]
      simp only [hp]
      rcases List.mem_cons.mp hmem with hm | hm
      · exfalso; apply hc; rw [← hm, hid]
      · exact ih hm

/-! ## Facts about the cancel handler -/

/-- A booking that is not confirmed: 400, and only the trace grows. -/
theorem cancelBooking_of_not_confirmed (w : World) (env : Env) (userId id : Id)
    (reason : Option String) {b : Booking}
    (hf : env.bookingFindThrows = false) (hfind : findBooking w id userId = some b)
    (hs : b.status ≠ .confirmed) :
    cancelBooking w env userId id reason =
      (reply 400 "Only confirmed bookings can be cancelled", w.log (.bookingFind id)) := by
  unfold cancelBooking
  simp [hf, hfind, hs]

/-- A confirmed booking after the deadline: 400, and only the trace grows. -/
theorem cancelBooking_of_late (w : World) (env : Env) (userId id : Id)
    (reason : Option String) {b : Booking} {st : Showtime}
    (hf : env.bookingFindThrows = false) (hfind : findBooking w id userId = some b)
    (hs : b.status = .confirmed) (hst : findShowtime w b.showtime = some st)
    (hlate : st.showDateTime - 20 * 60 * 1000 < env.now) :
    cancelBooking w env userId id reason =
      (reply 400 "Cancellation not allowed. Too close to show time.",
        w.log (.bookingFind id)) := by
  unfold cancelBooking
  simp only [findBooking_log, findShowtime_log, hf, hfind, hs, hst, hlate]
  simp

/-- A cancel answered 200 went through the success path: the booking was found and
confirmed, the deadline had not passed, the booking is saved as cancelled with its refund
record and the showtime is saved with the filter applied and the counter increased. -/
theorem cancelBooking_status_200 (w : World) (env : Env) (userId id : Id)
    (reason : Option String) (h : (cancelBooking w env userId id reason).1.status = 200) :
    ∃ b st, findBooking w id userId = some b ∧ b.status = .confirmed ∧
      findShowtime w b.showtime = some st ∧ env.now ≤ st.showDateTime - 20 * 60 * 1000 ∧
      (cancelBooking w env userId id reason).1.booking = some { b with
        status := .cancelled,
        cancellationDetails := some ⟨env.now, reason.getD "User cancellation",
          b.finalAmount, "pending"⟩ } ∧
      (cancelBooking w env userId id reason).2.bookings =
        (saveBooking w { b with
          status := .cancelled,
          cancellationDetails := some ⟨env.now, reason.getD "User cancellation",
            b.finalAmount, "pending"⟩ }).bookings ∧
      (cancelBooking w env userId id reason).2.showtimes =
        (saveShowtime w { st with
          bookedSeats := releaseBooked st.bookedSeats b.seats,
          availableSeats := st.availableSeats + b.seats.length }).showtimes := by
  cases hf : env.bookingFindThrows with
  | true =>
    unfold cancelBooking at h
    simp [hf, serverError, reply] at h
  | false =>
  cases hb : findBooking w id userId with
  | none =>
    unfold cancelBooking at h
    simp [hf, hb, reply] at h
  | some b =>
  by_cases hconf : b.status = .confirmed
  swap
  · rw [cancelBooking_of_not_confirmed w env userId id reason hf hb hconf] at h
    simp [reply] at h
  cases hst : findShowtime w b.showtime with
  | none =>
    unfold cancelBooking at h
    simp [hf, hb, hconf, hst, serverError, reply] at h
  | some st =>
  by_cases hlate : st.showDateTime - 20 * 60 * 1000 < env.now
  · rw [cancelBooking_of_late w env userId id reason hf hb hconf hst hlate] at h
    simp [reply] at h
  cases h2 : env.bookingSaveThrows with
  | true =>
    unfold cancelBooking at h
    simp only [findBooking_log, findShowtime_log, hf, hb, hconf, hst, hlate, h2] at h
    simp [serverError, reply] at h
  | false =>
  cases h3 : env.showtimeFindThrows with
  | true =>
    unfold cancelBooking at h
    simp only [findBooking_log, findShowtime_log, hf, hb, hconf, hst, hlate, h2, h3] at h
    simp [serverError, reply] at h
  | false =>
  cases h4 : env.showtimeSaveThrows with
  | true =>
    unfold cancelBooking at h
    simp only [findBooking_log, findShowtime_log, hf, hb, hconf, hst, hlate, h2, h3, h4] at h
    simp [serverError, reply] at h
  | false =>
  refine ⟨b, st, rfl, hconf, hst, not_lt.mp hlate, ?_, ?_, ?_⟩
  · unfold cancelBooking
    simp only [findBooking_log, findShowtime_log, hf, hb, hconf, hst, hlate, h2, h3, h4]
    simp
  · unfold cancelBooking
    simp only [findBooking_log, findShowtime_log, hf, hb, hconf, hst, hlate, h2, h3, h4]
    simp [publishToKafka, saveShowtime, saveBooking]
    split <;> simp [World.log]
  · unfold cancelBooking
    simp only [findBooking_log, findShowtime_log, hf, hb, hconf, hst, hlate, h2, h3, h4]
    simp [publishToKafka, saveShowtime, saveBooking]
    split <;> simp [World.log]

/-- A confirmed booking not after the deadline, when no call rejects: the answer is 200. -/
theorem cancelBooking_of_ok (w : World) (env : Env) (userId id : Id)
    (reason : Option String) {b : Booking} {st : Showtime}
    (hq : env.quiet) (hfind : findBooking w id userId = some b)
    (hs : b.status = .confirmed) (hst : findShowtime w b.showtime = some st)
    (hnow : env.now ≤ st.showDateTime - 20 * 60 * 1000) :
    (cancelBooking w env userId id reason).1.status = 200 := by
  obtain ⟨h1, h2, h3, _, h5, _, _⟩ := hq
  have hnl : ¬ st.showDateTime - 20 * 60 * 1000 < env.now := not_lt.mpr hnow
  unfold cancelBooking
  simp only [findBooking_log, findShowtime_log, h3, hfind, hs, hst, hnl, h5, h1, h2]
  simp

/-! ## C12: when a cancellation is accepted -/

/-- C12: for a booking of the user, with no call rejecting: if its status is not
confirmed the cancel is answered 400 and writes neither the bookings nor the showtimes;
if it is confirmed and the current time is earlier than the show instant minus 20
minutes the cancel is answered 200 and the booking is stored as cancelled; if it is
confirmed and the current time is later than that deadline the cancel is answered 400
and writes neither the bookings nor the showtimes. -/
theorem cancelBooking_guard (w : World) (env : Env) (userId id : Id)
    (reason : Option String) (b : Booking)
    (hfind : findBooking w id userId = some b) (hq : env.quiet) :
    (b.status ≠ .confirmed →
      (cancelBooking w env userId id reason).1.status = 400 ∧
      (cancelBooking w env userId id reason).2.bookings = w.bookings ∧
      (cancelBooking w env userId id reason).2.showtimes = w.showtimes) ∧
    (∀ st, b.status = .confirmed → findShowtime w b.showtime = some st →
      (env.now < st.showDateTime - 20 * 60 * 1000 →
        (cancelBooking w env userId id reason).1.status = 200 ∧
        ∃ b', findBooking (cancelBooking w env userId id reason).2 id userId = some b' ∧
          b'.status = .cancelled) ∧
      (st.showDateTime - 20 * 60 * 1000 < env.now →
        (cancelBooking w env userId id reason).1.status = 400 ∧
        (cancelBooking w env userId id reason).2.bookings = w.bookings ∧
        (cancelBooking w env userId id reason).2.showtimes = w.showtimes)) := by
  have hf : env.bookingFindThrows = false := hq.2.2.1
  constructor
  · intro hs
    rw [cancelBooking_of_not_confirmed w env userId id reason hf hfind hs]
    exact ⟨rfl, rfl, rfl⟩
  · intro st hs hst
    constructor
    · intro hnow
      have h200 := cancelBooking_of_ok w env userId id reason hq hfind hs hst (le_of_lt hnow)
      refine ⟨h200, ?_⟩
      obtain ⟨b0, _, hb0, _, _, _, _, hbk, _⟩ :=
        cancelBooking_status_200 w env userId id reason h200
      rw [hfind] at hb0
      cases hb0
      refine ⟨{ b with
        status := .cancelled,
        cancellationDetails := some ⟨env.now, reason.getD "User cancellation",
          b.finalAmount, "pending"⟩ }, ?_, rfl⟩
      rw [findBooking_congr hbk]
      exact findBooking_saveBooking hfind rfl rfl
    · intro hlate
      rw [cancelBooking_of_late w env userId id reason hf hfind hs hst hlate]
      exact ⟨rfl, rfl, rfl⟩

/-- C12 on the example data, where the show is at instant 100000000: the pending booking
is refused; the confirmed booking is cancelled 21 minutes before the show and refused 19
minutes before it. -/
theorem cancelBooking_guard_witness :
    ((cancelBooking demoBookedWorld (Env.calm 98740000 "x") "alice" "b1" none).1.status = 400 ∧
      (cancelBooking demoBookedWorld (Env.calm 98740000 "x") "alice" "b1" none).2.bookings
        = demoBookedWorld.bookings ∧
      (cancelBooking demoBookedWorld (Env.calm 98740000 "x") "alice" "b1" none).2.showtimes
        = demoBookedWorld.showtimes) ∧
    ((cancelBooking demoConfirmedWorld (Env.calm (100000000 - 21 * 60 * 1000) "x")
        "alice" "b1" none).1.status = 200 ∧
      ∃ b', findBooking (cancelBooking demoConfirmedWorld
          (Env.calm (100000000 - 21 * 60 * 1000) "x") "alice" "b1" none).2 "b1" "alice"
          = some b' ∧ b'.status = .cancelled) ∧
    ((cancelBooking demoConfirmedWorld (Env.calm (100000000 - 19 * 60 * 1000) "x")
        "alice" "b1" none).1.status = 400 ∧
      (cancelBooking demoConfirmedWorld (Env.calm (100000000 - 19 * 60 * 1000) "x")
        "alice" "b1" none).2.bookings = demoConfirmedWorld.bookings ∧
      (cancelBooking demoConfirmedWorld (Env.calm (100000000 - 19 * 60 * 1000) "x")
        "alice" "b1" none).2.showtimes = demoConfirmedWorld.showtimes) :=
  ⟨(cancelBooking_guard demoBookedWorld (Env.calm 98740000 "x") "alice" "b1" none
      demoBooking (by decide) (by simp [Env.quiet, Env.calm])).1 (by decide),
    ((cancelBooking_guard demoConfirmedWorld (Env.calm (100000000 - 21 * 60 * 1000) "x")
      "alice" "b1" none demoConfirmedBooking (by decide) (by simp [Env.quiet, Env.calm])).2
      demoBookedShowtime (by decide) (by decide)).1 (by decide),
    ((cancelBooking_guard demoConfirmedWorld (Env.calm (100000000 - 19 * 60 * 1000) "x")
      "alice" "b1" none demoConfirmedBooking (by decide) (by simp [Env.quiet, Env.calm])).2
      demoBookedShowtime (by decide) (by decide)).2 (by decide)⟩

/-! ## C13: the cutoff instant -/

/-- C13 as stated fails on the code: the confirmed booking `b1` of the example, whose show
is at instant 100000000, is cancelled by a request made exactly 20 minutes before the
show (the handler refuses only when `now > deadline`). -/
theorem cancelBooking_at_cutoff_not_refused :
    (findBooking demoConfirmedWorld "b1" "alice").map (fun b => b.status) = some .confirmed ∧
    (findShowtime demoConfirmedWorld "S1").map (fun st => st.showDateTime - 20 * 60 * 1000)
      = some 98800000 ∧
    (cancelBooking demoConfirmedWorld (Env.calm 98800000 "x") "alice" "b1" none).1.status
      = 200 ∧
    (findBooking (cancelBooking demoConfirmedWorld (Env.calm 98800000 "x") "alice" "b1"
      none).2 "b1" "alice").map (fun b => b.status) = some .cancelled := by
  decide

/-- C13 as amended: for a confirmed booking of the user, with its showtime stored and no
call rejecting, the cancel is refused (400) exactly when the current time is later than
the show instant minus 20 minutes; at the cutoff instant itself it is answered 200 and
the booking is stored as cancelled. -/
theorem cancelBooking_cutoff_inclusive (w : World) (env : Env) (userId id : Id)
    (reason : Option String) (b : Booking) (st : Showtime)
    (hfind : findBooking w id userId = some b) (hs : b.status = .confirmed)
    (hst : findShowtime w b.showtime = some st) (hq : env.quiet) :
    ((cancelBooking w env userId id reason).1.status = 400 ↔
      st.showDateTime - 20 * 60 * 1000 < env.now) ∧
    (env.now = st.showDateTime - 20 * 60 * 1000 →
      (cancelBooking w env userId id reason).1.status = 200 ∧
      ∃ b', findBooking (cancelBooking w env userId id reason).2 id userId = some b' ∧
        b'.status = .cancelled) := by
  have hf : env.bookingFindThrows = false := hq.2.2.1
  have hok : env.now ≤ st.showDateTime - 20 * 60 * 1000 →
      (cancelBooking w env userId id reason).1.status = 200 ∧
      ∃ b', findBooking (cancelBooking w env userId id reason).2 id userId = some b' ∧
        b'.status = .cancelled := by
    intro hnow
    have h200 := cancelBooking_of_ok w env userId id reason hq hfind hs hst hnow
    refine ⟨h200, ?_⟩
    obtain ⟨b0, _, hb0, _, _, _, _, hbk, _⟩ :=
      cancelBooking_status_200 w env userId id reason h200
    rw [hfind] at hb0
    cases hb0
    refine ⟨{ b with
      status := .cancelled,
      cancellationDetails := some ⟨env.now, reason.getD "User cancellation",
        b.finalAmount, "pending"⟩ }, ?_, rfl⟩
    rw [findBooking_congr hbk]
    exact findBooking_saveBooking hfind rfl rfl
  constructor
  · constructor
    · intro h400
      by_contra hnl
      have := (hok (not_lt.mp hnl)).1
      rw [h400] at this
      exact absurd this (by decide)
    · intro hlate
      rw [cancelBooking_of_late w env userId id reason hf hfind hs hst hlate]
      rfl
  · intro heq
    exact hok (le_of_eq heq)

/-- C13 as amended, on the example data: at the cutoff instant the confirmed booking is
cancelled. -/
theorem cancelBooking_cutoff_inclusive_witness :
    (cancelBooking demoConfirmedWorld (Env.calm (100000000 - 20 * 60 * 1000) "x")
      "alice" "b1" (some "change of plans")).1.status = 200 ∧
    ∃ b', findBooking (cancelBooking demoConfirmedWorld
        (Env.calm (100000000 - 20 * 60 * 1000) "x") "alice" "b1"
        (some "change of plans")).2 "b1" "alice" = some b' ∧ b'.status = .cancelled :=
  (cancelBooking_cutoff_inclusive demoConfirmedWorld
    (Env.calm (100000000 - 20 * 60 * 1000) "x") "alice" "b1" (some "change of plans")
    demoConfirmedBooking demoBookedShowtime (by decide) (by decide) (by decide)
    (by simp [Env.quiet, Env.calm])).2 (by decide)

/-! ## C14: the seats of a cancelled booking -/

/-- C14, evaluated on the code: the confirmed booking `b1` has the two seats A1 and A2.
Its cancel is answered 200, yet the filter keeps every record for which some seat of the
booking has another id, that is all of them: the booked records of A1 and A2 are still
in the showtime. -/
theorem cancelBooking_keeps_booked_records :
    (cancelBooking demoConfirmedWorld (Env.calm 98740000 "x") "alice" "b1" none).1.status
      = 200 ∧
    (findBooking demoConfirmedWorld "b1" "alice").map (fun b => b.seats.map (fun x => x.seatId))
      = some ["A1", "A2"] ∧
    recordsOf (cancelBooking demoConfirmedWorld (Env.calm 98740000 "x") "alice" "b1" none).2
      "S1" = [⟨"A1", "alice", .booked, some 1000⟩, ⟨"A2", "alice", .booked, some 1000⟩] := by
  decide

/-! ## C15: what a successful cancel records -/

/-- C15: after a cancel answered 200, the stored booking has status cancelled and a
cancellation record with refund status `pending`, refund amount the `finalAmount` of the
booking and the supplied reason (`User cancellation` when none is supplied), and the
stored showtime of the booking has `availableSeats` increased by the number of seats of
the booking. -/
theorem cancelBooking_records (w : World) (env : Env) (userId id : Id)
    (reason : Option String)
    (h200 : (cancelBooking w env userId id reason).1.status = 200) :
    ∃ b st b' st' d, findBooking w id userId = some b ∧
      findShowtime w b.showtime = some st ∧
      findBooking (cancelBooking w env userId id reason).2 id userId = some b' ∧
      (cancelBooking w env userId id reason).1.booking = some b' ∧
      b'.status = .cancelled ∧
      b'.cancellationDetails = some d ∧
      d.refundStatus = "pending" ∧
      d.refundAmount = b.finalAmount ∧
      b'.finalAmount = b.finalAmount ∧
      (∀ r, reason = some r → d.reason = r) ∧
      (reason = none → d.reason = "User cancellation") ∧
      findShowtime (cancelBooking w env userId id reason).2 b.showtime = some st' ∧
      st'.availableSeats = st.availableSeats + b.seats.length := by
  obtain ⟨b, st, hb, _, hst, _, hresp, hbk, hsh⟩ :=
    cancelBooking_status_200 w env userId id reason h200
  refine ⟨b, st, { b with
      status := .cancelled,
      cancellationDetails := some ⟨env.now, reason.getD "User cancellation",
        b.finalAmount, "pending"⟩ },
    { st with
      bookedSeats := releaseBooked st.bookedSeats b.seats,
      availableSeats := st.availableSeats + b.seats.length },
    ⟨env.now, reason.getD "User cancellation", b.finalAmount, "pending"⟩,
    hb, hst, ?_, hresp, rfl, rfl, rfl, rfl, rfl, ?_, ?_, ?_, rfl⟩
  · rw [findBooking_congr hbk]
    exact findBooking_saveBooking hb rfl rfl
  · intro r hr; rw [hr]; rfl
  · intro hr; rw [hr]; rfl
  · rw [findShowtime_congr hsh, findShowtime_saveShowtime_same (s := { st with
      bookedSeats := releaseBooked st.bookedSeats b.seats,
      availableSeats := st.availableSeats + b.seats.length }) hst rfl]
    simp

/-- C15 on the example data: alice cancels booking `b1` (two seats, final amount 760)
with a reason, 21 minutes before the show. -/
theorem cancelBooking_records_witness :
    ∃ b st b' st' d, findBooking demoConfirmedWorld "b1" "alice" = some b ∧
      findShowtime demoConfirmedWorld b.showtime = some st ∧
      findBooking (cancelBooking demoConfirmedWorld (Env.calm 98740000 "x") "alice" "b1"
        (some "change of plans")).2 "b1" "alice" = some b' ∧
      (cancelBooking demoConfirmedWorld (Env.calm 98740000 "x") "alice" "b1"
        (some "change of plans")).1.booking = some b' ∧
      b'.status = .cancelled ∧
      b'.cancellationDetails = some d ∧
      d.refundStatus = "pending" ∧
      d.refundAmount = b.finalAmount ∧
      b'.finalAmount = b.finalAmount ∧
      (∀ r, some "change of plans" = some r → d.reason = r) ∧
      ((some "change of plans" : Option String) = none → d.reason = "User cancellation") ∧
      findShowtime (cancelBooking demoConfirmedWorld (Env.calm 98740000 "x") "alice" "b1"
        (some "change of plans")).2 b.showtime = some st' ∧
      st'.availableSeats = st.availableSeats + b.seats.length :=
  cancelBooking_records demoConfirmedWorld (Env.calm 98740000 "x") "alice" "b1"
    (some "change of plans") (by decide)

/-! ## C11: the seat snapshots and the subtotal -/

/-- The loop over the requested seats, from any accumulator: the total is folded over the
prices of the layout seats found, the snapshots of those seats are appended in order. -/
theorem priceSeats_foldl (st : Showtime) (layout : List Seat) (seats : List Id) :
    ∀ acc : Nat × List SeatDetail,
      seats.foldl (fun acc seatId =>
        match layout.find? (fun s => s._id == seatId) with
        | some seat =>
          (jsAdd acc.1 (st.pricing.get seat.type),
            acc.2 ++ [⟨seat._id, seat.row, seat.number, seat.type, st.pricing.get seat.type⟩])
        | none => acc) acc =
      ((((layoutSeats layout seats).map (snapshot st)).map (fun d => d.price)).foldl jsAdd acc.1,
        acc.2 ++ (layoutSeats layout seats).map (snapshot st)) := by
  induction seats with
  | nil => intro acc; simp [layoutSeats]
  | cons id rest ih =>
    intro acc
    rw [List.foldl_cons, ih]
    cases hf : layout.find? (fun s => s._id == id) with
    | none => simp [layoutSeats, hf]
    | some seat => simp [layoutSeats, hf, snapshot]

theorem priceSeats_eq (st : Showtime) (layout : List Seat) (seats : List Id) :
    priceSeats st layout seats =
      ((((layoutSeats layout seats).map (snapshot st)).map (fun d => d.price)).foldl jsAdd 0,
        (layoutSeats layout seats).map (snapshot st)) := by
  unfold priceSeats
  rw [priceSeats_foldl]
  simp

/-- Adding prices one by one is exact while the sum stays below `2 ^ 53`. -/
theorem foldl_jsAdd_exact (l : List Nat) : ∀ acc : Nat, acc + l.sum < 2 ^ 53 →
    l.foldl jsAdd acc = acc + l.sum := by
  induction l with
  | nil => intro acc _; simp
  | cons x xs ih =>
    intro acc h
    simp only [List.sum_cons] at h
    have hx : jsAdd acc x = acc + x := by
      unfold jsAdd; exact round53_of_lt _ (by omega)
    rw [List.foldl_cons, hx, ih (acc + x) (by omega), List.sum_cons]
    omega

/-- Every seat that the lookup returns is a seat of the layout with a requested id. -/
theorem mem_layoutSeats {layout : List Seat} {seats : List Id} {seat : Seat}
    (h : seat ∈ layoutSeats layout seats) : seat ∈ layout ∧ seat._id ∈ seats := by
  unfold layoutSeats at h
  rw [List.mem_filterMap] at h
  obtain ⟨id, hid, hf⟩ := h
  have h1 := List.find?_some hf
  have h2 := List.mem_of_find?_eq_some hf
  simp only [beq_iff_eq] at h1
  exact ⟨h2, by rw [h1]; exact hid⟩

/-- When every requested id is a seat of the layout, the seats found have exactly the
requested ids, in request order. -/
theorem layoutSeats_ids (layout : List Seat) (seats : List Id)
    (h : ∀ id ∈ seats, ∃ seat ∈ layout, seat._id = id) :
    (layoutSeats layout seats).map (fun seat => seat._id) = seats := by
  induction seats with
  | nil => rfl
  | cons id rest ih =>
    obtain ⟨seat, hs, hid⟩ := h id (List.mem_cons_self _ _)
    have hsome : (layout.find? (fun s => s._id == id)).isSome := by
      rw [List.find?_isSome]
      exact ⟨seat, hs, by simpa using hid⟩
    obtain ⟨found, hfound⟩ := Option.isSome_iff_exists.mp hsome
    have hfid : found._id = id := by simpa using List.find?_some hfound
    have ih' := ih (fun x hx => h x (List.mem_cons_of_mem _ hx))
    unfold layoutSeats at ih' ⊢
    rw [List.filterMap_cons, hfound]
    simp only [List.map_cons, hfid, ih']

/-- C11 as stated fails on the code: bob holds A3 and ZZ, where ZZ is not a seat of the
screen layout, and books both.  The answer is 201 and the booking has a single snapshot,
that of A3: the handler skips a requested id that the layout lookup does not find. -/
theorem createBooking_skips_unknown_seat :
    (∀ id ∈ ["A3", "ZZ"], ∃ x ∈ demoOddShowtime.bookedSeats,
      x.seatId = id ∧ x.userId = "bob" ∧ x.status = .held ∧
        expiryAfter x.holdExpiry 500 = true) ∧
    (createBooking demoOddWorld (Env.calm 500 "b2") "bob" ⟨"S1", ["A3", "ZZ"], true⟩).1.status
      = 201 ∧
    ((createBooking demoOddWorld (Env.calm 500 "b2") "bob"
      ⟨"S1", ["A3", "ZZ"], true⟩).1.booking.map
        (fun b => b.seats.map (fun d => d.seatId))) = some ["A3"] := by
  decide

/-- C11 as amended: a booking that `createBooking` creates has one snapshot for each
requested seat id that the screen layout contains, in request order (a requested id that
is not a seat of the layout is skipped); each snapshot carries the id, row, number and
type of that layout seat and the showtime price of its type; when every requested id is
a seat of the layout the snapshot ids are the requested list; `totalAmount` is the sum of
the snapshot prices in double arithmetic, the exact sum while it is below `2 ^ 53`. -/
theorem createBooking_snapshots (w : World) (env : Env) (userId : Id) (req : BookingRequest)
    (b : Booking)
    (h : (createBooking w env userId req).1.booking = some b ∨
      (createBooking w env userId req).2.bookings = w.bookings ++ [b]) :
    ∃ st layout, findShowtime w req.showtimeId = some st ∧ st.layout = some layout ∧
      b.seats = (layoutSeats layout req.seats).map
        (fun seat => ⟨seat._id, seat.row, seat.number, seat.type, st.pricing.get seat.type⟩) ∧
      (∀ seat ∈ layoutSeats layout req.seats, seat ∈ layout ∧ seat._id ∈ req.seats) ∧
      ((∀ id ∈ req.seats, ∃ seat ∈ layout, seat._id = id) →
        b.seats.map (fun d => d.seatId) = req.seats) ∧
      b.totalAmount = (b.seats.map (fun d => d.price)).foldl jsAdd 0 ∧
      ((b.seats.map (fun d => d.price)).sum < 2 ^ 53 →
        b.totalAmount = (b.seats.map (fun d => d.price)).sum) := by
  obtain ⟨st, layout, hst, hlay, hseats, htotal, _⟩ :=
    createBooking_booking w env userId req b h
  rw [priceSeats_eq] at hseats htotal
  simp only at hseats htotal
  have htot' : b.totalAmount = (b.seats.map (fun d => d.price)).foldl jsAdd 0 := by
    rw [htotal, hseats]
  refine ⟨st, layout, hst, hlay, hseats, fun seat hs => mem_layoutSeats hs, ?_, htot', ?_⟩
  · intro hall
    rw [hseats, List.map_map]
    exact layoutSeats_ids layout req.seats hall
  · intro hsum
    rw [htot', foldl_jsAdd_exact _ 0 (by omega)]
    omega

/-- C11 as amended, on the example data: alice books A1 and A2. -/
theorem createBooking_snapshots_witness :
    ∃ st layout, findShowtime demoWorld "S1" = some st ∧ st.layout = some layout ∧
      demoBooking.seats = (layoutSeats layout ["A1", "A2"]).map
        (fun seat => ⟨seat._id, seat.row, seat.number, seat.type, st.pricing.get seat.type⟩) ∧
      (∀ seat ∈ layoutSeats layout ["A1", "A2"], seat ∈ layout ∧ seat._id ∈ ["A1", "A2"]) ∧
      ((∀ id ∈ ["A1", "A2"], ∃ seat ∈ layout, seat._id = id) →
        demoBooking.seats.map (fun d => d.seatId) = ["A1", "A2"]) ∧
      demoBooking.totalAmount = (demoBooking.seats.map (fun d => d.price)).foldl jsAdd 0 ∧
      ((demoBooking.seats.map (fun d => d.price)).sum < 2 ^ 53 →
        demoBooking.totalAmount = (demoBooking.seats.map (fun d => d.price)).sum) :=
  createBooking_snapshots demoWorld (Env.calm 500 "b1") "alice" ⟨"S1", ["A1", "A2"], true⟩
    demoBooking (Or.inl (by decide))

/-! ## Facts about the payment handlers -/

/-- The verify handler writes no showtime. -/
theorem verifyPayment_showtimes (w : World) (env : Env) (userId : Id) (req : VerifyRequest) :
    (verifyPayment w env userId req).2.showtimes = w.showtimes := by
  unfold verifyPayment
  simp only [findBooking_log]
  split
  · rfl
  · split
    · rfl
    · split
      · rfl
      · split
        · rfl
        · split
          · rfl
          · simp [saveBooking]

/-- The failure handler writes no showtime. -/
theorem paymentFailure_showtimes (w : World) (env : Env) (userId bookingId : Id)
    (fieldsValid : Bool) :
    (paymentFailure w env userId bookingId fieldsValid).2.showtimes = w.showtimes := by
  unfold paymentFailure
  simp only [findBooking_log]
  split
  · rfl
  · split
    · rfl
    · split
      · rfl
      · split
        · rfl
        · simp [saveBooking]

/-- The create-order handler writes no showtime. -/
theorem createOrder_showtimes (w : World) (env : Env) (userId bookingId : Id)
    (fieldsValid : Bool) (order : Option String) :
    (createOrder w env userId bookingId fieldsValid order).2.2.showtimes = w.showtimes := by
  unfold createOrder
  simp only [findBooking_log]
  split
  · rfl
  · split
    · rfl
    · split
      · rfl
      · split
        · rfl
        · split
          · rfl
          · split
            · rfl
            · rfl

/-- A verification with valid fields and signature, of a booking of the user, when the
find and the save resolve: 200, and the booking is saved confirmed with the payment
fields of the request. -/
theorem verifyPayment_of_ok (w : World) (env : Env) (userId : Id) (req : VerifyRequest)
    {b : Booking}
    (hv : req.fieldsValid = true) (hs : req.signatureValid = true)
    (hf : env.bookingFindThrows = false) (hsv : env.bookingSaveThrows = false)
    (hfind : findBooking w req.bookingId userId = some b) :
    (verifyPayment w env userId req).1.status = 200 ∧
    findBooking (verifyPayment w env userId req).2 req.bookingId userId =
      some { b with
        paymentDetails := { b.paymentDetails with
          paymentId := some req.razorpay_payment_id,
          paymentMethod := some "razorpay",
          paymentStatus := some "completed",
          transactionId := some req.razorpay_order_id,
          paidAt := some env.now },
        status := .confirmed } := by
  have hbk : (verifyPayment w env userId req).2.bookings =
      (saveBooking w { b with
        paymentDetails := { b.paymentDetails with
          paymentId := some req.razorpay_payment_id,
          paymentMethod := some "razorpay",
          paymentStatus := some "completed",
          transactionId := some req.razorpay_order_id,
          paidAt := some env.now },
        status := .confirmed }).bookings := by
    unfold verifyPayment
    simp only [findBooking_log, hv, hs, hf, hsv, hfind]
    simp [publishToKafka, saveBooking]
    split <;> simp [World.log]
  constructor
  · unfold verifyPayment
    simp only [findBooking_log, hv, hs, hf, hsv, hfind]
    simp
  · rw [findBooking_congr hbk]
    exact findBooking_saveBooking hfind rfl rfl

/-! ## C16: verification is idempotent -/

/-- C16: no verification request ever writes a showtime; and for a booking of the user
and a request with valid fields and signature, when no call rejects, verifying once
stores the booking as confirmed (so a pending booking becomes confirmed), and verifying a
second time with the same request stores the same booking again, confirmed and with the
same payment id, method, status and transaction id, only `paidAt` being the time of the
second request. -/
theorem verify_idempotent :
    (∀ (w : World) (env : Env) (userId : Id) (req : VerifyRequest),
      (verifyPayment w env userId req).2.showtimes = w.showtimes) ∧
    (∀ (w : World) (env1 env2 : Env) (userId : Id) (req : VerifyRequest) (b : Booking),
      req.fieldsValid = true → req.signatureValid = true → env1.quiet → env2.quiet →
      findBooking w req.bookingId userId = some b →
      ∃ b1 b2,
        findBooking (verifyPayment w env1 userId req).2 req.bookingId userId = some b1 ∧
        findBooking (verifyPayment (verifyPayment w env1 userId req).2 env2 userId req).2
          req.bookingId userId = some b2 ∧
        (verifyPayment w env1 userId req).1.status = 200 ∧
        (verifyPayment (verifyPayment w env1 userId req).2 env2 userId req).1.status = 200 ∧
        b1.status = .confirmed ∧ b2.status = .confirmed ∧
        b2.paymentDetails.paymentId = b1.paymentDetails.paymentId ∧
        b2.paymentDetails.paymentMethod = b1.paymentDetails.paymentMethod ∧
        b2.paymentDetails.paymentStatus = b1.paymentDetails.paymentStatus ∧
        b2.paymentDetails.transactionId = b1.paymentDetails.transactionId ∧
        b2 = { b1 with paymentDetails := { b1.paymentDetails with paidAt := some env2.now } } ∧
        (verifyPayment (verifyPayment w env1 userId req).2 env2 userId req).2.showtimes
          = w.showtimes) := by
  refine ⟨verifyPayment_showtimes, ?_⟩
  intro w env1 env2 userId req b hv hs hq1 hq2 hfind
  have h1 := verifyPayment_of_ok w env1 userId req hv hs hq1.2.2.1 hq1.2.2.2.2.1 hfind
  have h2 := verifyPayment_of_ok (verifyPayment w env1 userId req).2 env2 userId req hv hs
    hq2.2.2.1 hq2.2.2.2.2.1 h1.2
  refine ⟨_, _, h1.2, h2.2, h1.1, h2.1, rfl, rfl, rfl, rfl, rfl, rfl, rfl, ?_⟩
  rw [verifyPayment_showtimes, verifyPayment_showtimes]

/-- C16 on the example data: the payment of the pending booking `b1` is verified at
instant 600 and again at instant 700. -/
theorem verify_idempotent_witness :
    ∃ b1 b2,
      findBooking (verifyPayment demoBookedWorld (Env.calm 600 "x") "alice" demoProof).2
        "b1" "alice" = some b1 ∧
      findBooking (verifyPayment (verifyPayment demoBookedWorld (Env.calm 600 "x") "alice"
        demoProof).2 (Env.calm 700 "x") "alice" demoProof).2 "b1" "alice" = some b2 ∧
      (verifyPayment demoBookedWorld (Env.calm 600 "x") "alice" demoProof).1.status = 200 ∧
      (verifyPayment (verifyPayment demoBookedWorld (Env.calm 600 "x") "alice"
        demoProof).2 (Env.calm 700 "x") "alice" demoProof).1.status = 200 ∧
      b1.status = .confirmed ∧ b2.status = .confirmed ∧
      b2.paymentDetails.paymentId = b1.paymentDetails.paymentId ∧
      b2.paymentDetails.paymentMethod = b1.paymentDetails.paymentMethod ∧
      b2.paymentDetails.paymentStatus = b1.paymentDetails.paymentStatus ∧
      b2.paymentDetails.transactionId = b1.paymentDetails.transactionId ∧
      b2 = { b1 with paymentDetails := { b1.paymentDetails with paidAt := some 700 } } ∧
      (verifyPayment (verifyPayment demoBookedWorld (Env.calm 600 "x") "alice"
        demoProof).2 (Env.calm 700 "x") "alice" demoProof).2.showtimes
        = demoBookedWorld.showtimes :=
  verify_idempotent.2 demoBookedWorld (Env.calm 600 "x") (Env.calm 700 "x") "alice" demoProof
    demoBooking rfl rfl (by simp [Env.quiet, Env.calm]) (by simp [Env.quiet, Env.calm])
    (by decide)

/-! ## C17: the lifecycle of a booking -/

/-- C17, evaluated on the code: booking `b1` is cancelled by a recorded payment failure;
a verification with a valid signature then stores it as confirmed, because the verify
handler sets the status without looking at the current one. -/
theorem verifyPayment_revives_cancelled_booking :
    (findBooking demoFailedWorld "b1" "alice").map (fun b => b.status) = some .cancelled ∧
    (verifyPayment demoFailedWorld (Env.calm 700 "x") "alice" demoProof).1.status = 200 ∧
    (findBooking (verifyPayment demoFailedWorld (Env.calm 700 "x") "alice" demoProof).2
      "b1" "alice").map (fun b => b.status) = some .confirmed := by
  decide

/-! ## C18: no cancellation after the cutoff -/

/-- C18, evaluated on the code: booking `b1` is confirmed and its show is at instant
100000000, so the cutoff is 98800000.  A payment failure posted at instant 99000000 is
answered 200 and stores the booking as cancelled: the failure handler looks neither at
the status nor at the time. -/
theorem paymentFailure_cancels_after_cutoff :
    (findBooking demoConfirmedWorld "b1" "alice").map (fun b => b.status) = some .confirmed ∧
    (findShowtime demoConfirmedWorld "S1").map (fun st => st.showDateTime - 20 * 60 * 1000)
      = some 98800000 ∧
    (paymentFailure demoConfirmedWorld (Env.calm 99000000 "x") "alice" "b1" true).1.status
      = 200 ∧
    (findBooking (paymentFailure demoConfirmedWorld (Env.calm 99000000 "x") "alice" "b1"
      true).2 "b1" "alice").map (fun b => b.status) = some .cancelled := by
  decide

/-! ## C19: the amounts of a booking are fixed at creation -/

/-- Saving a stored booking with its id, amounts and snapshots kept changes the amounts of
no booking, when booking ids are distinct. -/
theorem saveBooking_priced {w : World} {b b' : Booking} (hmem : b ∈ w.bookings)
    (hnd : (w.bookings.map (fun c => c._id)).Nodup) (hp : b'.priced = b.priced) :
    (saveBooking w b').bookings.map Booking.priced = w.bookings.map Booking.priced := by
  have hid : b'._id = b._id := congrArg Prod.fst hp
  rw [saveBooking_bookings, List.map_map]
  apply List.map_congr_left
  intro c hc
  simp only [Function.comp]
  by_cases hcb : c._id = b'._id
  · have hcb' : c = b := List.inj_on_of_nodup_map hnd hc hmem (hcb.trans hid)
    rw [hcb']
    simp [hid, hp]
  · have : (c._id == b'._id) = false := by simpa using hcb
    simp [this]

/-- The only write of the cancel handler to the bookings: the found booking, saved with
its status and cancellation record changed. -/
theorem cancelBooking_bookings (w : World) (env : Env) (userId id : Id)
    (reason : Option String) :
    (cancelBooking w env userId id reason).2.bookings = w.bookings ∨
    ∃ b b', findBooking w id userId = some b ∧ b'.priced = b.priced ∧
      (cancelBooking w env userId id reason).2.bookings = (saveBooking w b').bookings := by
  unfold cancelBooking
  simp only [findBooking_log, findShowtime_log]
  split
  · left; rfl
  · split
    · left; rfl
    · rename_i b hb
      split
      · left; rfl
      · split
        · left; rfl
        · split
          · left; rfl
          · split
            · left; rfl
            · right
              refine ⟨b, { b with
                status := .cancelled,
                cancellationDetails := some ⟨env.now, reason.getD "User cancellation",
                  b.finalAmount, "pending"⟩ }, hb, rfl, ?_⟩
              split
              · rfl
              · split
                · rfl
                · simp [publishToKafka, saveShowtime, saveBooking]
                  split <;> simp [World.log]

/-- The only write of the verify handler to the bookings. -/
theorem verifyPayment_bookings (w : World) (env : Env) (userId : Id) (req : VerifyRequest) :
    (verifyPayment w env userId req).2.bookings = w.bookings ∨
    ∃ b b', findBooking w req.bookingId userId = some b ∧ b'.priced = b.priced ∧
      (verifyPayment w env userId req).2.bookings = (saveBooking w b').bookings := by
  unfold verifyPayment
  simp only [findBooking_log]
  split
  · left; rfl
  · split
    · left; rfl
    · split
      · left; rfl
      · split
        · left; rfl
        · rename_i b hb
          split
          · left; rfl
          · right
            refine ⟨b, { b with
              paymentDetails := { b.paymentDetails with
                paymentId := some req.razorpay_payment_id,
                paymentMethod := some "razorpay",
                paymentStatus := some "completed",
                transactionId := some req.razorpay_order_id,
                paidAt := some env.now },
              status := .confirmed }, hb, rfl, ?_⟩
            simp [publishToKafka, saveBooking]
            split <;> simp [World.log]

/-- The only write of the failure handler to the bookings. -/
theorem paymentFailure_bookings (w : World) (env : Env) (userId bookingId : Id)
    (fieldsValid : Bool) :
    (paymentFailure w env userId bookingId fieldsValid).2.bookings = w.bookings ∨
    ∃ b b', findBooking w bookingId userId = some b ∧ b'.priced = b.priced ∧
      (paymentFailure w env userId bookingId fieldsValid).2.bookings =
        (saveBooking w b').bookings := by
  unfold paymentFailure
  simp only [findBooking_log]
  split
  · left; rfl
  · split
    · left; rfl
    · split
      · left; rfl
      · rename_i b hb
        split
        · left; rfl
        · right
          refine ⟨b, { b with
            paymentDetails := { b.paymentDetails with paymentStatus := some "failed" },
            status := .cancelled }, hb, rfl, ?_⟩
          simp [publishToKafka, saveBooking]
          split <;> simp [World.log]

/-- The only write of the create-order handler to the bookings, and the amount it hands to
Razorpay. -/
theorem createOrder_bookings (w : World) (env : Env) (userId bookingId : Id)
    (fieldsValid : Bool) (order : Option String) :
    ((createOrder w env userId bookingId fieldsValid order).2.2.bookings = w.bookings ∨
      ∃ b b', findBooking w bookingId userId = some b ∧ b'.priced = b.priced ∧
        (createOrder w env userId bookingId fieldsValid order).2.2.bookings =
          (saveBooking w b').bookings) ∧
    (∀ opts, (createOrder w env userId bookingId fieldsValid order).2.1 = some opts →
      ∃ b, findBooking w bookingId userId = some b ∧ b.status = .pending ∧
        opts.amount = round53 (b.finalAmount * 100)) := by
  unfold createOrder
  simp only [findBooking_log]
  split
  · exact ⟨Or.inl rfl, fun opts h => by simp at h⟩
  · split
    · exact ⟨Or.inl rfl, fun opts h => by simp at h⟩
    · split
      · exact ⟨Or.inl rfl, fun opts h => by simp at h⟩
      · rename_i b hb
        split
        · exact ⟨Or.inl rfl, fun opts h => by simp at h⟩
        · rename_i hpend
          have hp : b.status = .pending := by simpa using hpend
          split
          · refine ⟨Or.inl rfl, fun opts h => ⟨b, hb, hp, ?_⟩⟩
            simp only [Option.some.injEq] at h
            rw [← h]
          · rename_i orderId
            split
            · refine ⟨Or.inl rfl, fun opts h => ⟨b, hb, hp, ?_⟩⟩
              simp only [Option.some.injEq] at h
              rw [← h]
            · refine ⟨Or.inr ⟨b, { b with
                paymentDetails := { b.paymentDetails with paymentId := some orderId } },
                hb, rfl, rfl⟩, fun opts h => ⟨b, hb, hp, ?_⟩⟩
              simp only [Option.some.injEq] at h
              rw [← h]

/-- One later operation changes the id, amounts and snapshots of no stored booking. -/
theorem laterStep_priced (w : World) (env : Env) (op : LaterRequest)
    (hnd : (w.bookings.map (fun c => c._id)).Nodup) :
    (laterStep w env op).bookings.map Booking.priced = w.bookings.map Booking.priced := by
  have key : ∀ (w' : World) (id userId : Id),
      (w'.bookings = w.bookings ∨
        ∃ b b', findBooking w id userId = some b ∧ b'.priced = b.priced ∧
          w'.bookings = (saveBooking w b').bookings) →
      w'.bookings.map Booking.priced = w.bookings.map Booking.priced := by
    intro w' id userId h
    rcases h with h | ⟨b, b', hb, hp, h⟩
    · rw [h]
    · rw [h]
      exact saveBooking_priced (findBooking_some hb).1 hnd hp
  cases op with
  | createOrder userId bookingId fieldsValid order =>
    exact key _ bookingId userId (createOrder_bookings w env userId bookingId fieldsValid
      order).1
  | verify userId req =>
    exact key _ req.bookingId userId (verifyPayment_bookings w env userId req)
  | failure userId bookingId fieldsValid =>
    exact key _ bookingId userId (paymentFailure_bookings w env userId bookingId fieldsValid)
  | cancel userId id reason =>
    exact key _ id userId (cancelBooking_bookings w env userId id reason)

/-- The ids of the stored bookings, read off their fixed parts. -/
theorem priced_ids (l : List Booking) :
    (l.map Booking.priced).map Prod.fst = l.map (fun c => c._id) := by
  rw [List.map_map]; rfl

/-- A sequence of later operations changes the id, amounts and snapshots of no stored
booking. -/
theorem runLater_priced (ops : List (Env × LaterRequest)) :
    ∀ w : World, (w.bookings.map (fun c => c._id)).Nodup →
      (runLater w ops).bookings.map Booking.priced = w.bookings.map Booking.priced := by
  induction ops with
  | nil => intro w _; rfl
  | cons op rest ih =>
    intro w hnd
    have h1 := laterStep_priced w op.1 op.2 hnd
    have hnd' : ((laterStep w op.1 op.2).bookings.map (fun c => c._id)).Nodup := by
      rw [← priced_ids, h1, priced_ids]; exact hnd
    have h2 := ih (laterStep w op.1 op.2) hnd'
    unfold runLater at h2 ⊢
    rw [List.foldl_cons, h2, h1]

/-- The answer of `createBooking` carries a booking only when that booking has been
appended to the stored bookings. -/
theorem createBooking_stored_aux (w : World) (env : Env) (userId : Id)
    (req : BookingRequest) :
    (createBooking w env userId req).1.booking = none ∨
    ∃ b, (createBooking w env userId req).1.booking = some b ∧
      (createBooking w env userId req).2.bookings = w.bookings ++ [b] := by
  unfold createBooking
  simp only [findShowtime_log]
  split
  · left; rfl
  · split
    · left; rfl
    · split
      · left; rfl
      · split
        · left; rfl
        · split
          · left; rfl
          · split
            · left; rfl
            · split
              · left; rfl
              · split
                · left; rfl
                · right
                  refine ⟨_, rfl, ?_⟩
                  simp [publishToKafka, pushHistory, saveShowtime]
                  split <;> simp [World.log]

/-- A booking handed back by `createBooking` is the last stored booking. -/
theorem createBooking_stored (w : World) (env : Env) (userId : Id) (req : BookingRequest)
    (b : Booking) (h : (createBooking w env userId req).1.booking = some b) :
    (createBooking w env userId req).2.bookings = w.bookings ++ [b] := by
  rcases createBooking_stored_aux w env userId req with hn | ⟨b0, hb0, hbk⟩
  · rw [hn] at h; cases h
  · rw [hb0] at h
    cases h
    exact hbk

/-- C19: when booking ids are distinct, no sequence of later operations (create-order,
verify, failure, cancel; any clock readings, any rejected calls) changes the id,
`totalAmount`, `convenienceFee`, `taxes`, `finalAmount` or seat snapshots of any stored
booking.  The amount handed to Razorpay by create-order is `finalAmount * 100` in double
arithmetic, the exact product while it is below `2 ^ 53`.  A booking created by
`createBooking` and cancelled with success after any such sequence still has the amounts
and snapshots of its creation, and its recorded refund amount is the `finalAmount`
computed at creation. -/
theorem booking_amounts_immutable :
    (∀ (w : World) (ops : List (Env × LaterRequest)),
      (w.bookings.map (fun c => c._id)).Nodup →
      (runLater w ops).bookings.map Booking.priced = w.bookings.map Booking.priced) ∧
    (∀ (w : World) (env : Env) (userId bookingId : Id) (fieldsValid : Bool)
        (order : Option String) (opts : OrderOptions),
      (createOrder w env userId bookingId fieldsValid order).2.1 = some opts →
      ∃ b, findBooking w bookingId userId = some b ∧
        opts.amount = round53 (b.finalAmount * 100) ∧
        (b.finalAmount * 100 < 2 ^ 53 → opts.amount = b.finalAmount * 100)) ∧
    (∀ (w : World) (env : Env) (userId : Id) (req : BookingRequest) (b0 : Booking)
        (ops : List (Env × LaterRequest)) (env' : Env) (reason : Option String),
      (createBooking w env userId req).1.booking = some b0 →
      ((createBooking w env userId req).2.bookings.map (fun c => c._id)).Nodup →
      (cancelBooking (runLater (createBooking w env userId req).2 ops) env' userId b0._id
        reason).1.status = 200 →
      ∃ b' d, (cancelBooking (runLater (createBooking w env userId req).2 ops) env' userId
          b0._id reason).1.booking = some b' ∧
        b'.priced = b0.priced ∧ b'.cancellationDetails = some d ∧
        d.refundAmount = b0.finalAmount) := by
  refine ⟨fun w ops hnd => runLater_priced ops w hnd, ?_, ?_⟩
  · intro w env userId bookingId fieldsValid order opts h
    obtain ⟨b, hb, _, hamt⟩ :=
      (createOrder_bookings w env userId bookingId fieldsValid order).2 opts h
    exact ⟨b, hb, hamt, fun hlt => by rw [hamt]; exact round53_of_lt _ hlt⟩
  · intro w env userId req b0 ops env' reason hb0 hnd h200
    have hstored := createBooking_stored w env userId req b0 hb0
    have hmem0 : b0 ∈ (createBooking w env userId req).2.bookings := by
      rw [hstored]; simp
    have hpr := runLater_priced ops (createBooking w env userId req).2 hnd
    obtain ⟨b, st, hb, _, _, _, hresp, _, _⟩ := cancelBooking_status_200 _ env' userId b0._id
      reason h200
    obtain ⟨hbmem, hbid, _⟩ := findBooking_some hb
    have hin : b.priced ∈ (createBooking w env userId req).2.bookings.map Booking.priced := by
      rw [← hpr]; exact List.mem_map.mpr ⟨b, hbmem, rfl⟩
    obtain ⟨c, hc, hcp⟩ := List.mem_map.mp hin
    have hcid : c._id = b0._id := (congrArg Prod.fst hcp).trans hbid
    have hcb0 : c = b0 := List.inj_on_of_nodup_map hnd hc hmem0 hcid
    rw [hcb0] at hcp
    have hfin : b.finalAmount = b0.finalAmount := by
      have := congrArg (fun p => p.2.2.2.2.1) hcp
      simpa [Booking.priced] using this.symm
    refine ⟨_, ⟨env'.now, reason.getD "User cancellation", b.finalAmount, "pending"⟩,
      hresp, ?_, rfl, hfin⟩
    rw [hcp]
    rfl

/-- C19 on the example data: alice creates booking `b1`, a payment order is created, the
payment is verified twice, and the booking is cancelled 21 minutes before the show. -/
theorem booking_amounts_immutable_witness :
    (runLater demoBookedWorld
        [(Env.calm 550 "x", .createOrder "alice" "b1" true (some "order_1")),
          (Env.calm 600 "x", .verify "alice" demoProof),
          (Env.calm 700 "x", .verify "alice" demoProof),
          (Env.calm 98740000 "x", .cancel "alice" "b1" none)]).bookings.map Booking.priced
      = demoBookedWorld.bookings.map Booking.priced ∧
    ∃ b' d, (cancelBooking (runLater
          (createBooking demoWorld (Env.calm 500 "b1") "alice" ⟨"S1", ["A1", "A2"], true⟩).2
          [(Env.calm 550 "x", .createOrder "alice" "b1" true (some "order_1")),
            (Env.calm 600 "x", .verify "alice" demoProof)])
        (Env.calm 98740000 "x") "alice" demoBooking._id none).1.booking = some b' ∧
      b'.priced = demoBooking.priced ∧ b'.cancellationDetails = some d ∧
      d.refundAmount = demoBooking.finalAmount :=
  ⟨booking_amounts_immutable.1 demoBookedWorld _ (by decide),
    booking_amounts_immutable.2.2 demoWorld (Env.calm 500 "b1") "alice"
      ⟨"S1", ["A1", "A2"], true⟩ demoBooking _ (Env.calm 98740000 "x") none
      (by decide) (by decide) (by decide)⟩

/-! ## C20: holds do not touch the seat counter -/

/-- The showtime a request saves, compared with the one it found: the total and the
pricing are kept; the counter is kept by a hold and by a release, and it is decreased
by `createBooking` only. -/
theorem step_counter_aux (w : World) (env : Env) (req : Request) :
    (step w env req).2.showtimes = w.showtimes ∨
    ∃ sid st s, findShowtime w sid = some st ∧ s._id = st._id ∧
      s.totalSeats = st.totalSeats ∧ s.pricing = st.pricing ∧
      ((∃ userId r, req = .createBooking userId r) ∨ st.availableSeats ≤ s.availableSeats) ∧
      ((∃ userId id reason, req = .cancelBooking userId id reason) ∨
        (∃ userId r, req = .createBooking userId r) ∨ s.availableSeats = st.availableSeats) ∧
      (step w env req).2.showtimes = (saveShowtime w s).showtimes := by
  cases req with
  | hold userId showtimeId seatId row =>
    rcases hold_cases w env userId showtimeId seatId row with h | ⟨st, hst, _, _, _, hsh, _⟩
    · exact Or.inl h.1
    · exact Or.inr ⟨showtimeId, st, { st with
        bookedSeats := st.bookedSeats.filter (fun seat => seat.seatId != seatId) ++
          [⟨seatId, userId, .held, some (env.now + 600000)⟩] },
        hst, rfl, rfl, rfl, Or.inr (le_refl _), Or.inr (Or.inr rfl), hsh⟩
  | release userId showtimeId seatId row =>
    rcases release_cases w env userId showtimeId seatId row with h | ⟨st, hst, _, _, _, hsh, _⟩
    · exact Or.inl h.1
    · exact Or.inr ⟨showtimeId, st, { st with
        bookedSeats := st.bookedSeats.filter (fun x => !ownHold userId seatId x) },
        hst, rfl, rfl, rfl, Or.inr (le_refl _), Or.inr (Or.inr rfl), hsh⟩
  | createBooking userId r =>
    rcases createBooking_showtimes w env userId r with h | ⟨st, hst, hsh⟩
    · exact Or.inl h
    · exact Or.inr ⟨_, st, { st with
        bookedSeats := markBooked st.bookedSeats userId r.seats,
        availableSeats := st.availableSeats - r.seats.length },
        hst, rfl, rfl, rfl, Or.inl ⟨userId, r, rfl⟩, Or.inr (Or.inl ⟨userId, r, rfl⟩), hsh⟩
  | cancelBooking userId id reason =>
    rcases cancelBooking_showtimes w env userId id reason with h | ⟨b, st, _, hst, hsh⟩
    · exact Or.inl h
    · exact Or.inr ⟨_, st, { st with
        bookedSeats := releaseBooked st.bookedSeats b.seats,
        availableSeats := st.availableSeats + b.seats.length },
        hst, rfl, rfl, rfl, Or.inr (by simp), Or.inl ⟨userId, id, reason, rfl⟩, hsh⟩

/-- A `createBooking` answered 201 has saved the showtime it found, with the `map`
applied and the counter decreased. -/
theorem createBooking_saved (w : World) (env : Env) (userId : Id) (req : BookingRequest) :
    (createBooking w env userId req).1.status ≠ 201 ∨
    ∃ st, findShowtime w req.showtimeId = some st ∧
      (createBooking w env userId req).2.showtimes = (saveShowtime w { st with
        bookedSeats := markBooked st.bookedSeats userId req.seats,
        availableSeats := st.availableSeats - req.seats.length }).showtimes := by
  unfold createBooking
  simp only [findShowtime_log]
  split
  · left; simp [reply]
  · split
    · left; simp [serverError, reply]
    · split
      · left; simp [reply]
      · rename_i st hst
        split
        · left; simp [reply]
        · split
          · left; simp [serverError, reply]
          · split
            · left; simp [serverError, reply]
            · split
              · left; simp [serverError, reply]
              · split
                · left; simp [serverError, reply]
                · right
                  exact ⟨st, hst, by simp [saveShowtime]⟩

/-- C20: every hold and every release, whatever its answer and whichever call rejects,
leaves each stored showtime with the `availableSeats`, `totalSeats` and `pricing` it had.
Of the requests that write showtimes only `createBooking` lowers `availableSeats`, the
payment handlers write no showtime at all, and a `createBooking` answered 201 stores the
showtime with `availableSeats` lowered by the number of requested seats. -/
theorem holds_keep_counter (w : World) (env : Env) :
    (∀ (userId showtimeId seatId : Id) (row : Option String) (x : Id) (st : Showtime),
      findShowtime w x = some st →
      (∃ st', findShowtime (hold w env userId showtimeId seatId row).2 x = some st' ∧
        st'.availableSeats = st.availableSeats ∧ st'.totalSeats = st.totalSeats ∧
        st'.pricing = st.pricing) ∧
      (∃ st', findShowtime (release w env userId showtimeId seatId row).2 x = some st' ∧
        st'.availableSeats = st.availableSeats ∧ st'.totalSeats = st.totalSeats ∧
        st'.pricing = st.pricing)) ∧
    (∀ (req : Request) (x : Id) (st st' : Showtime),
      findShowtime w x = some st → findShowtime (step w env req).2 x = some st' →
      st'.availableSeats < st.availableSeats → ∃ userId r, req = .createBooking userId r) ∧
    (∀ (userId bookingId : Id) (fieldsValid : Bool) (order : Option String)
        (vreq : VerifyRequest),
      (createOrder w env userId bookingId fieldsValid order).2.2.showtimes = w.showtimes ∧
      (verifyPayment w env userId vreq).2.showtimes = w.showtimes ∧
      (paymentFailure w env userId bookingId fieldsValid).2.showtimes = w.showtimes) ∧
    (∀ (userId : Id) (r : BookingRequest),
      (createBooking w env userId r).1.status = 201 →
      ∃ st st', findShowtime w r.showtimeId = some st ∧
        findShowtime (createBooking w env userId r).2 r.showtimeId = some st' ∧
        st'.availableSeats = st.availableSeats - r.seats.length ∧ 0 < r.seats.length) := by
  have hkeep : ∀ (req : Request), (∀ userId r, req ≠ .createBooking userId r) →
      (∀ userId id reason, req ≠ .cancelBooking userId id reason) →
      ∀ (x : Id) (st : Showtime), findShowtime w x = some st →
      ∃ st', findShowtime (step w env req).2 x = some st' ∧
        st'.availableSeats = st.availableSeats ∧ st'.totalSeats = st.totalSeats ∧
        st'.pricing = st.pricing := by
    intro req hnc hnk x st hfind
    rcases step_counter_aux w env req with h | ⟨sid, st0, s, hst0, hid, ht, hp, _, hav, hsh⟩
    · exact ⟨st, by rw [findShowtime_congr h]; exact hfind, rfl, rfl, rfl⟩
    · rw [findShowtime_congr hsh, findShowtime_saveShowtime_same hst0 hid]
      by_cases hx : x = sid
      · subst hx
        rw [hfind] at hst0
        cases hst0
        rcases hav with ⟨u, i, r, hr⟩ | ⟨u, r, hr⟩ | hav
        · exact absurd hr (hnk u i r)
        · exact absurd hr (hnc u r)
        · exact ⟨s, by simp, hav, ht, hp⟩
      · exact ⟨st, by simp [hx, hfind], rfl, rfl, rfl⟩
  refine ⟨?_, ?_, ?_, ?_⟩
  · intro userId showtimeId seatId row x st hfind
    exact ⟨hkeep (.hold userId showtimeId seatId row) (by intro _ _ h; cases h)
        (by intro _ _ _ h; cases h) x st hfind,
      hkeep (.release userId showtimeId seatId row) (by intro _ _ h; cases h)
        (by intro _ _ _ h; cases h) x st hfind⟩
  · intro req x st st' hfind hfind' hlt
    rcases step_counter_aux w env req with h | ⟨sid, st0, s, hst0, hid, _, _, hdec, _, hsh⟩
    · rw [findShowtime_congr h, hfind] at hfind'
      cases hfind'
      exact absurd hlt (lt_irrefl _)
    · rw [findShowtime_congr hsh, findShowtime_saveShowtime_same hst0 hid] at hfind'
      by_cases hx : x = sid
      · subst hx
        rw [hfind] at hst0
        cases hst0
        simp only [if_true, Option.some.injEq] at hfind'
        subst hfind'
        rcases hdec with hc | hle
        · exact hc
        · exact absurd hlt (not_lt.mpr hle)
      · simp only [hx, if_false] at hfind'
        rw [hfind] at hfind'
        cases hfind'
        exact absurd hlt (lt_irrefl _)
  · intro userId bookingId fieldsValid order vreq
    exact ⟨createOrder_showtimes w env userId bookingId fieldsValid order,
      verifyPayment_showtimes w env userId vreq,
      paymentFailure_showtimes w env userId bookingId fieldsValid⟩
  · intro userId r h201
    have hne : 0 < r.seats.length := by
      by_contra hc
      have hnil : r.seats = [] := List.length_eq_zero.mp (by omega)
      unfold createBooking at h201
      simp [hnil, reply] at h201
    rcases createBooking_saved w env userId r with h | ⟨st, hst, hsh⟩
    · exact absurd h201 h
    · refine ⟨st, { st with
        bookedSeats := markBooked st.bookedSeats userId r.seats,
        availableSeats := st.availableSeats - r.seats.length }, hst, ?_, rfl, hne⟩
      rw [findShowtime_congr hsh, findShowtime_saveShowtime_same (s := { st with
        bookedSeats := markBooked st.bookedSeats userId r.seats,
        availableSeats := st.availableSeats - r.seats.length }) hst rfl]
      simp

/-- C20 on the example data: bob holds the free seat A3 and alice releases her hold on
A1; the counter of the showtime stays 200. -/
theorem holds_keep_counter_witness :
    (∃ st', findShowtime (hold demoWorld (Env.calm 500 "b1") "bob" "S1" "A3" none).2 "S1"
        = some st' ∧
      st'.availableSeats = demoShowtime.availableSeats ∧
      st'.totalSeats = demoShowtime.totalSeats ∧ st'.pricing = demoShowtime.pricing) ∧
    (∃ st', findShowtime (release demoWorld (Env.calm 500 "b1") "alice" "S1" "A1" none).2 "S1"
        = some st' ∧
      st'.availableSeats = demoShowtime.availableSeats ∧
      st'.totalSeats = demoShowtime.totalSeats ∧ st'.pricing = demoShowtime.pricing) ∧
    (∃ st st', findShowtime demoWorld "S1" = some st ∧
      findShowtime (createBooking demoWorld (Env.calm 500 "b1") "alice"
        ⟨"S1", ["A1", "A2"], true⟩).2 "S1" = some st' ∧
      st'.availableSeats = st.availableSeats - (2 : Nat) ∧ 0 < 2) :=
  ⟨((holds_keep_counter demoWorld (Env.calm 500 "b1")).1 "bob" "S1" "A3" none "S1"
      demoShowtime (by decide)).1,
    ((holds_keep_counter demoWorld (Env.calm 500 "b1")).1 "alice" "S1" "A1" none "S1"
      demoShowtime (by decide)).2,
    (holds_keep_counter demoWorld (Env.calm 500 "b1")).2.2.2 "alice"
      ⟨"S1", ["A1", "A2"], true⟩ (by decide)⟩

/-! ## C25: a refused `createBooking` writes nothing -/

/-- An answer 400 or 404 of `createBooking` is given before any write. -/
theorem createBooking_rejected_aux (w : World) (env : Env) (userId : Id)
    (req : BookingRequest) :
    ((createBooking w env userId req).1.status ≠ 400 ∧
      (createBooking w env userId req).1.status ≠ 404) ∨
    ((createBooking w env userId req).2.showtimes = w.showtimes ∧
      (createBooking w env userId req).2.bookings = w.bookings ∧
      (createBooking w env userId req).2.users = w.users ∧
      (createBooking w env userId req).2.kafka = w.kafka ∧
      (createBooking w env userId req).2.emitted = w.emitted) := by
  unfold createBooking
  simp only [findShowtime_log]
  split
  · right; exact ⟨rfl, rfl, rfl, rfl, rfl⟩
  · split
    · right; exact ⟨rfl, rfl, rfl, rfl, rfl⟩
    · split
      · right; exact ⟨rfl, rfl, rfl, rfl, rfl⟩
      · split
        · right; exact ⟨rfl, rfl, rfl, rfl, rfl⟩
        · split
          · right; exact ⟨rfl, rfl, rfl, rfl, rfl⟩
          · split
            · left; simp [serverError, reply]
            · split
              · left; simp [serverError, reply]
              · split
                · left; simp [serverError, reply]
                · left; simp

/-- C25: whenever `createBooking` answers 400 or 404, no showtime is written (so the seat
records and `availableSeats` of every showtime are as before), no booking is stored, no
booking history changes, and nothing is published to Kafka or emitted to a room. -/
theorem createBooking_rejected_frame (w : World) (env : Env) (userId : Id)
    (req : BookingRequest)
    (h : (createBooking w env userId req).1.status = 400 ∨
      (createBooking w env userId req).1.status = 404) :
    (createBooking w env userId req).2.showtimes = w.showtimes ∧
    (∀ x, recordsOf (createBooking w env userId req).2 x = recordsOf w x) ∧
    (∀ x, (findShowtime (createBooking w env userId req).2 x).map (fun st => st.availableSeats)
      = (findShowtime w x).map (fun st => st.availableSeats)) ∧
    (createBooking w env userId req).2.bookings = w.bookings ∧
    (createBooking w env userId req).2.users = w.users ∧
    (createBooking w env userId req).2.kafka = w.kafka ∧
    (createBooking w env userId req).2.emitted = w.emitted := by
  rcases createBooking_rejected_aux w env userId req with ⟨h1, h2⟩ | ⟨hs, hb, hu, hk, he⟩
  · rcases h with h | h
    · exact absurd h h1
    · exact absurd h h2
  · exact ⟨hs, fun x => recordsOf_congr hs x, fun x => by rw [findShowtime_congr hs],
      hb, hu, hk, he⟩

/-- C25 on the example data: alice, who holds two seats, asks for one seat (400), and asks
for seats of a showtime that does not exist (404). -/
theorem createBooking_rejected_frame_witness :
    ((createBooking demoWorld (Env.calm 500 "b1") "alice" ⟨"S1", ["A1"], true⟩).2.showtimes
        = demoWorld.showtimes ∧
      (createBooking demoWorld (Env.calm 500 "b1") "alice" ⟨"S1", ["A1"], true⟩).2.bookings
        = demoWorld.bookings ∧
      (createBooking demoWorld (Env.calm 500 "b1") "alice" ⟨"S1", ["A1"], true⟩).2.users
        = demoWorld.users ∧
      (createBooking demoWorld (Env.calm 500 "b1") "alice" ⟨"S1", ["A1"], true⟩).2.kafka
        = demoWorld.kafka) ∧
    (createBooking demoWorld (Env.calm 500 "b1") "alice" ⟨"S9", ["A1", "A2"], true⟩).2.bookings
      = demoWorld.bookings :=
  ⟨⟨(createBooking_rejected_frame demoWorld (Env.calm 500 "b1") "alice" ⟨"S1", ["A1"], true⟩
        (Or.inl (by decide))).1,
      (createBooking_rejected_frame demoWorld (Env.calm 500 "b1") "alice" ⟨"S1", ["A1"], true⟩
        (Or.inl (by decide))).2.2.2.1,
      (createBooking_rejected_frame demoWorld (Env.calm 500 "b1") "alice" ⟨"S1", ["A1"], true⟩
        (Or.inl (by decide))).2.2.2.2.1,
      (createBooking_rejected_frame demoWorld (Env.calm 500 "b1") "alice" ⟨"S1", ["A1"], true⟩
        (Or.inl (by decide))).2.2.2.2.2.1⟩,
    (createBooking_rejected_frame demoWorld (Env.calm 500 "b1") "alice"
      ⟨"S9", ["A1", "A2"], true⟩ (Or.inr (by decide))).2.2.2.1⟩

/-! ## C26: which records `createBooking` turns to booked -/

/-- C26, evaluated on the code: alice holds A1 until instant 400 and A2 and A3 until
instant 1000.  At instant 500 she asks for A1 and A2: her two live holds (A2, A3) match
the two requested seats in number, the answer is 201, and the record of A1, whose hold
ended at 400, is stored as booked. -/
theorem createBooking_books_expired_hold :
    (⟨"A1", "alice", .held, some 400⟩ : BookedSeat) ∈ recordsOf demoStaleWorld "S1" ∧
    expiryAfter (some 400) 500 = false ∧
    (createBooking demoStaleWorld (Env.calm 500 "b1") "alice"
      ⟨"S1", ["A1", "A2"], true⟩).1.status = 201 ∧
    (⟨"A1", "alice", .booked, some 400⟩ : BookedSeat) ∈
      recordsOf (createBooking demoStaleWorld (Env.calm 500 "b1") "alice"
        ⟨"S1", ["A1", "A2"], true⟩).2 "S1" := by
  decide

/-! ## C27: the counter and the booked records -/

/-- C27, evaluated on the code.  In the example showtime the counter agrees with the seat
map (200 available, no booked record, 200 seats).  After alice's booking of A1 and A3,
answered 201, the counter has dropped by two while one record became booked.  In the
showtime of the confirmed booking `b1` the counter agrees again (198 available, two
booked records); after the cancel of `b1`, answered 200, the counter is back to 200 while
both booked records are still there. -/
theorem counter_drifts_from_seat_map :
    (counterConsistent demoShowtime ∧
      (createBooking demoWorld (Env.calm 500 "b1") "alice"
        ⟨"S1", ["A1", "A3"], true⟩).1.status = 201 ∧
      (findShowtime (createBooking demoWorld (Env.calm 500 "b1") "alice"
        ⟨"S1", ["A1", "A3"], true⟩).2 "S1").map
          (fun st => (st.availableSeats, bookedCount st.bookedSeats, st.totalSeats))
        = some (198, 1, 200)) ∧
    ((findShowtime demoConfirmedWorld "S1").map
        (fun st => (st.availableSeats, bookedCount st.bookedSeats, st.totalSeats))
        = some (198, 2, 200) ∧
      (cancelBooking demoConfirmedWorld (Env.calm 98740000 "x") "alice" "b1" none).1.status
        = 200 ∧
      (findShowtime (cancelBooking demoConfirmedWorld (Env.calm 98740000 "x") "alice" "b1"
        none).2 "S1").map
          (fun st => (st.availableSeats, bookedCount st.bookedSeats, st.totalSeats))
        = some (200, 2, 200)) := by
  decide

/-! ## C28: a seat id listed twice -/

/-- C28 as stated fails on the code: alice holds A1 and A2 and asks for A1 twice.  Her
two live holds match the two requested entries in number, the answer is 201, the booking
has two snapshots of A1 and its subtotal counts the price of A1 twice. -/
theorem createBooking_prices_seat_twice :
    (createBooking demoWorld (Env.calm 500 "b1") "alice" ⟨"S1", ["A1", "A1"], true⟩).1.status
      = 201 ∧
    (createBooking demoWorld (Env.calm 500 "b1") "alice"
      ⟨"S1", ["A1", "A1"], true⟩).1.booking.map
        (fun b => (b.seats.map (fun d => d.seatId), b.totalAmount))
      = some (["A1", "A1"], 560) := by
  decide

/-- The ids of the layout seats found for a request are the requested ids that the layout
contains, in request order and with their repetitions. -/
theorem layoutSeats_ids_filter (layout : List Seat) (seats : List Id) :
    (layoutSeats layout seats).map (fun seat => seat._id) =
      seats.filter (fun id => layout.any (fun s => s._id == id)) := by
  induction seats with
  | nil => rfl
  | cons id rest ih =>
    unfold layoutSeats at ih ⊢
    rw [List.filterMap_cons, List.filter_cons]
    cases hfound : layout.find? (fun s => s._id == id) with
    | none =>
      have hany : layout.any (fun s => s._id == id) = false := by
        rw [List.any_eq_false]
        intro x hx
        simpa using List.find?_eq_none.mp hfound x hx
      simp only [hany, Bool.false_eq_true, if_false]
      exact ih
    | some found =>
      have hfid : found._id = id := by simpa using List.find?_some hfound
      have hany : layout.any (fun s => s._id == id) = true := by
        rw [List.any_eq_true]
        exact ⟨found, List.mem_of_find?_eq_some hfound, by simpa using hfid⟩
      simp only [hany, if_true, List.map_cons, hfid]
      rw [ih]

/-- C28 as amended: in a booking that `createBooking` creates, the snapshot ids are
exactly the requested seat ids that the layout contains, in request order and with their
repetitions, so an id of the layout occurs among them as often as in the request; they are
pairwise distinct when the requested ids are.  Each snapshot is the snapshot of the layout
seat found for its id, with the price of that seat's type, and `totalAmount` is the sum of
the snapshot prices, one term per snapshot, added as doubles (the exact sum while it is
below `2 ^ 53`): a seat id listed twice is snapshotted twice and priced twice. -/
theorem createBooking_snapshot_ids (w : World) (env : Env) (userId : Id)
    (req : BookingRequest) (b : Booking)
    (h : (createBooking w env userId req).1.booking = some b ∨
      (createBooking w env userId req).2.bookings = w.bookings ++ [b]) :
    ∃ st layout, findShowtime w req.showtimeId = some st ∧ st.layout = some layout ∧
      b.seats.map (fun d => d.seatId) =
        req.seats.filter (fun id => layout.any (fun s => s._id == id)) ∧
      (∀ id, (∃ seat ∈ layout, seat._id = id) →
        (b.seats.map (fun d => d.seatId)).count id = req.seats.count id) ∧
      (req.seats.Nodup → (b.seats.map (fun d => d.seatId)).Nodup) ∧
      (∀ d ∈ b.seats, ∃ seat, layout.find? (fun s => s._id == d.seatId) = some seat ∧
        d = ⟨seat._id, seat.row, seat.number, seat.type, st.pricing.get seat.type⟩) ∧
      b.totalAmount = (b.seats.map (fun d => d.price)).foldl jsAdd 0 ∧
      ((b.seats.map (fun d => d.price)).sum < 2 ^ 53 →
        b.totalAmount = (b.seats.map (fun d => d.price)).sum) := by
  obtain ⟨st, layout, hst, hlay, hseats, htotal, _⟩ :=
    createBooking_booking w env userId req b h
  rw [priceSeats_eq] at hseats htotal
  simp only at hseats htotal
  have hids : b.seats.map (fun d => d.seatId) =
      req.seats.filter (fun id => layout.any (fun s => s._id == id)) := by
    rw [← layoutSeats_ids_filter, hseats, List.map_map]; rfl
  have htot' : b.totalAmount = (b.seats.map (fun d => d.price)).foldl jsAdd 0 := by
    rw [htotal, hseats]
  refine ⟨st, layout, hst, hlay, hids, ?_, ?_, ?_, htot', ?_⟩
  · rintro id ⟨seat, hs, hid⟩
    rw [hids]
    apply List.count_filter
    rw [List.any_eq_true]
    exact ⟨seat, hs, by simpa using hid⟩
  · intro hnd
    rw [hids]
    exact hnd.filter _
  · intro d hd
    rw [hseats, List.mem_map] at hd
    obtain ⟨seat, hseat, rfl⟩ := hd
    unfold layoutSeats at hseat
    rw [List.mem_filterMap] at hseat
    obtain ⟨id, _, hfind⟩ := hseat
    have hfid : seat._id = id := by simpa using List.find?_some hfind
    refine ⟨seat, ?_, rfl⟩
    simp only [snapshot, hfid]
    exact hfind
  · intro hsum
    rw [htot', foldl_jsAdd_exact _ 0 (by omega)]
    omega

/-- C28 as amended, on the example data: alice books the distinct seats A1 and A2. -/
theorem createBooking_snapshot_ids_witness :
    ∃ st layout, findShowtime demoWorld "S1" = some st ∧ st.layout = some layout ∧
      demoBooking.seats.map (fun d => d.seatId) =
        ["A1", "A2"].filter (fun id => layout.any (fun s => s._id == id)) ∧
      (∀ id, (∃ seat ∈ layout, seat._id = id) →
        (demoBooking.seats.map (fun d => d.seatId)).count id = ["A1", "A2"].count id) ∧
      (["A1", "A2"].Nodup → (demoBooking.seats.map (fun d => d.seatId)).Nodup) ∧
      (∀ d ∈ demoBooking.seats, ∃ seat,
        layout.find? (fun s => s._id == d.seatId) = some seat ∧
        d = ⟨seat._id, seat.row, seat.number, seat.type, st.pricing.get seat.type⟩) ∧
      demoBooking.totalAmount = (demoBooking.seats.map (fun d => d.price)).foldl jsAdd 0 ∧
      ((demoBooking.seats.map (fun d => d.price)).sum < 2 ^ 53 →
        demoBooking.totalAmount = (demoBooking.seats.map (fun d => d.price)).sum) :=
  createBooking_snapshot_ids demoWorld (Env.calm 500 "b1") "alice" ⟨"S1", ["A1", "A2"], true⟩
    demoBooking (Or.inl (by decide))

/-! ## Facts about published events -/

@[simp] theorem findShowtime_withProducer (w : World) (p : Bool) (id : Id) :
    findShowtime (w.withProducer p) id = findShowtime w id := rfl

@[simp] theorem findBooking_withProducer (w : World) (p : Bool) (id userId : Id) :
    findBooking (w.withProducer p) id userId = findBooking w id userId := rfl

@[simp] theorem withProducer_locks (w : World) (p : Bool) :
    (w.withProducer p).locks = w.locks := rfl

@[simp] theorem withSend_now (env : Env) (b : Bool) : (env.withSend b).now = env.now := rfl

@[simp] theorem withSend_newId (env : Env) (b : Bool) : (env.withSend b).newId = env.newId :=
  rfl

@[simp] theorem withSend_showtimeFindThrows (env : Env) (b : Bool) :
    (env.withSend b).showtimeFindThrows = env.showtimeFindThrows := rfl

@[simp] theorem withSend_showtimeSaveThrows (env : Env) (b : Bool) :
    (env.withSend b).showtimeSaveThrows = env.showtimeSaveThrows := rfl

@[simp] theorem withSend_bookingFindThrows (env : Env) (b : Bool) :
    (env.withSend b).bookingFindThrows = env.bookingFindThrows := rfl

@[simp] theorem withSend_bookingCreateThrows (env : Env) (b : Bool) :
    (env.withSend b).bookingCreateThrows = env.bookingCreateThrows := rfl

@[simp] theorem withSend_bookingSaveThrows (env : Env) (b : Bool) :
    (env.withSend b).bookingSaveThrows = env.bookingSaveThrows := rfl

@[simp] theorem withSend_userUpdateThrows (env : Env) (b : Bool) :
    (env.withSend b).userUpdateThrows = env.userUpdateThrows := rfl

@[simp] theorem withSend_emitThrows (env : Env) (b : Bool) :
    (env.withSend b).emitThrows = env.emitThrows := rfl

/-- The answer and the stored showtimes of a release do not depend on the producer. -/
theorem release_publish_indep (w : World) (env : Env) (p b : Bool)
    (userId showtimeId seatId : Id) (row : Option String) :
    (release (w.withProducer p) (env.withSend b) userId showtimeId seatId row).1 =
      (release w env userId showtimeId seatId row).1 ∧
    (release (w.withProducer p) (env.withSend b) userId showtimeId seatId row).2.showtimes =
      (release w env userId showtimeId seatId row).2.showtimes := by
  unfold release
  simp only [findShowtime_log, findShowtime_withProducer, withSend_showtimeFindThrows,
    withSend_showtimeSaveThrows, withSend_emitThrows]
  cases hst : findShowtime w showtimeId with
  | none => split_ifs <;> exact ⟨rfl, rfl⟩
  | some st =>
    simp only
    split_ifs <;> first | exact ⟨rfl, rfl⟩ | simp [saveShowtime, World.log, World.withProducer]

/-- The outcome and the stored showtimes of the critical section of a hold do not depend
on the producer. -/
theorem holdCritical_publish_indep (w : World) (env : Env) (p b : Bool)
    (userId showtimeId seatId : Id) (row : Option String) :
    (holdCritical (w.withProducer p) (env.withSend b) userId showtimeId seatId row).1 =
      (holdCritical w env userId showtimeId seatId row).1 ∧
    (holdCritical (w.withProducer p) (env.withSend b) userId showtimeId seatId row).2.showtimes
      = (holdCritical w env userId showtimeId seatId row).2.showtimes := by
  unfold holdCritical
  simp only [findShowtime_log, findShowtime_withProducer, withSend_showtimeFindThrows,
    withSend_showtimeSaveThrows, withSend_emitThrows, withSend_now]
  cases hst : findShowtime w showtimeId with
  | none => split_ifs <;> exact ⟨rfl, rfl⟩
  | some st =>
    simp only
    split_ifs <;> first | exact ⟨rfl, rfl⟩ | simp [saveShowtime, World.log, World.withProducer]

/-- The answer and the stored showtimes of a hold do not depend on the producer. -/
theorem hold_publish_indep (w : World) (env : Env) (p b : Bool)
    (userId showtimeId seatId : Id) (row : Option String) :
    (hold (w.withProducer p) (env.withSend b) userId showtimeId seatId row).1 =
      (hold w env userId showtimeId seatId row).1 ∧
    (hold (w.withProducer p) (env.withSend b) userId showtimeId seatId row).2.showtimes =
      (hold w env userId showtimeId seatId row).2.showtimes := by
  unfold hold redisSet
  simp only [log_locks, withProducer_locks, withSend_now]
  generalize (⟨lockKey showtimeId seatId, userId, none⟩ ::
    w.locks.filter (fun e => e.key != lockKey showtimeId seatId) : List LockEntry) = locks
  have hw : ((w.withProducer p).log
      (.redisSet (lockKey showtimeId seatId) userId 30000)).setLocks locks =
      ((w.log (.redisSet (lockKey showtimeId seatId) userId 30000)).setLocks
        locks).withProducer p := rfl
  have h := holdCritical_publish_indep
    ((w.log (.redisSet (lockKey showtimeId seatId) userId 30000)).setLocks locks)
    env p b userId showtimeId seatId row
  simp only [hw, h.1]
  cases (holdCritical ((w.log (.redisSet (lockKey showtimeId seatId) userId 30000)).setLocks
    locks) env userId showtimeId seatId row).1 <;>
    exact ⟨rfl, by simpa [World.log, World.setLocks] using h.2⟩

/-- The answer and the stored showtimes and bookings of `createBooking` do not depend on
the producer. -/
theorem createBooking_publish_indep (w : World) (env : Env) (p b : Bool)
    (userId : Id) (req : BookingRequest) :
    (createBooking (w.withProducer p) (env.withSend b) userId req).1 =
      (createBooking w env userId req).1 ∧
    (createBooking (w.withProducer p) (env.withSend b) userId req).2.showtimes =
      (createBooking w env userId req).2.showtimes ∧
    (createBooking (w.withProducer p) (env.withSend b) userId req).2.bookings =
      (createBooking w env userId req).2.bookings := by
  unfold createBooking
  simp only [findShowtime_log, findShowtime_withProducer, withSend_showtimeFindThrows,
    withSend_showtimeSaveThrows, withSend_bookingCreateThrows, withSend_userUpdateThrows,
    withSend_now]
  cases hst : findShowtime w req.showtimeId with
  | none => split_ifs <;> exact ⟨rfl, rfl, rfl⟩
  | some st =>
    simp only
    cases hlay : st.layout with
    | none => split_ifs <;> exact ⟨rfl, rfl, rfl⟩
    | some layout =>
      simp only
      split_ifs <;>
        first
          | exact ⟨rfl, rfl, rfl⟩
          | simp [saveShowtime, pushHistory, World.log, World.withProducer, bookingDocument]

/-- The answer and the stored showtimes and bookings of a cancel do not depend on the
producer. -/
theorem cancelBooking_publish_indep (w : World) (env : Env) (p b : Bool)
    (userId id : Id) (reason : Option String) :
    (cancelBooking (w.withProducer p) (env.withSend b) userId id reason).1 =
      (cancelBooking w env userId id reason).1 ∧
    (cancelBooking (w.withProducer p) (env.withSend b) userId id reason).2.showtimes =
      (cancelBooking w env userId id reason).2.showtimes ∧
    (cancelBooking (w.withProducer p) (env.withSend b) userId id reason).2.bookings =
      (cancelBooking w env userId id reason).2.bookings := by
  unfold cancelBooking
  simp only [findBooking_log, findShowtime_log, findShowtime_withProducer,
    findBooking_withProducer, withSend_showtimeFindThrows, withSend_showtimeSaveThrows,
    withSend_bookingFindThrows, withSend_bookingSaveThrows, withSend_now]
  cases hb : findBooking w id userId with
  | none => split_ifs <;> exact ⟨rfl, rfl, rfl⟩
  | some bk =>
    simp only
    cases hst : findShowtime w bk.showtime with
    | none => split_ifs <;> exact ⟨rfl, rfl, rfl⟩
    | some st =>
      simp only
      split_ifs <;>
        first
          | exact ⟨rfl, rfl, rfl⟩
          | simp [saveShowtime, saveBooking, World.log, World.withProducer]

/-- The answer and the stored bookings of a verification do not depend on the producer. -/
theorem verifyPayment_publish_indep (w : World) (env : Env) (p b : Bool)
    (userId : Id) (req : VerifyRequest) :
    (verifyPayment (w.withProducer p) (env.withSend b) userId req).1 =
      (verifyPayment w env userId req).1 ∧
    (verifyPayment (w.withProducer p) (env.withSend b) userId req).2.bookings =
      (verifyPayment w env userId req).2.bookings := by
  unfold verifyPayment
  simp only [findBooking_log, findBooking_withProducer, withSend_bookingFindThrows,
    withSend_bookingSaveThrows, withSend_now]
  cases hb : findBooking w req.bookingId userId with
  | none => split_ifs <;> exact ⟨rfl, rfl⟩
  | some bk =>
    simp only
    split_ifs <;>
      first
        | exact ⟨rfl, rfl⟩
        | simp [saveBooking, World.log, World.withProducer]

/-- The answer and the stored bookings of a recorded failure do not depend on the
producer. -/
theorem paymentFailure_publish_indep (w : World) (env : Env) (p b : Bool)
    (userId bookingId : Id) (fieldsValid : Bool) :
    (paymentFailure (w.withProducer p) (env.withSend b) userId bookingId fieldsValid).1 =
      (paymentFailure w env userId bookingId fieldsValid).1 ∧
    (paymentFailure (w.withProducer p) (env.withSend b) userId bookingId fieldsValid).2.bookings
      = (paymentFailure w env userId bookingId fieldsValid).2.bookings := by
  unfold paymentFailure
  simp only [findBooking_log, findBooking_withProducer, withSend_bookingFindThrows,
    withSend_bookingSaveThrows, withSend_now]
  cases hb : findBooking w bookingId userId with
  | none => split_ifs <;> exact ⟨rfl, rfl⟩
  | some bk =>
    simp only
    split_ifs <;>
      first
        | exact ⟨rfl, rfl⟩
        | simp [saveBooking, World.log, World.withProducer]

/-- C22: `publishToKafka` never fails its caller.  It is a total function of the world;
when the producer is not initialised or `producer.send` rejects, it returns the world
unchanged (the error is only logged); and the answer of every handler that calls it
(hold, release, booking creation, cancellation, payment verification, payment failure),
together with the showtimes and bookings that handler stores, is the same whatever the
state of the producer and whether or not `send` rejects. -/
theorem publishToKafka_never_fails_caller (w : World) (env : Env) (p b : Bool) :
    (∀ r, (w.producer = false ∨ env.sendThrows = true) → publishToKafka w env r = w) ∧
    (∀ r, (publishToKafka w env r).showtimes = w.showtimes ∧
      (publishToKafka w env r).bookings = w.bookings ∧
      (publishToKafka w env r).locks = w.locks ∧
      (publishToKafka w env r).emitted = w.emitted) ∧
    (∀ userId showtimeId seatId row,
      (hold (w.withProducer p) (env.withSend b) userId showtimeId seatId row).1 =
        (hold w env userId showtimeId seatId row).1 ∧
      (hold (w.withProducer p) (env.withSend b) userId showtimeId seatId row).2.showtimes =
        (hold w env userId showtimeId seatId row).2.showtimes) ∧
    (∀ userId showtimeId seatId row,
      (release (w.withProducer p) (env.withSend b) userId showtimeId seatId row).1 =
        (release w env userId showtimeId seatId row).1 ∧
      (release (w.withProducer p) (env.withSend b) userId showtimeId seatId row).2.showtimes =
        (release w env userId showtimeId seatId row).2.showtimes) ∧
    (∀ userId req,
      (createBooking (w.withProducer p) (env.withSend b) userId req).1 =
        (createBooking w env userId req).1 ∧
      (createBooking (w.withProducer p) (env.withSend b) userId req).2.showtimes =
        (createBooking w env userId req).2.showtimes ∧
      (createBooking (w.withProducer p) (env.withSend b) userId req).2.bookings =
        (createBooking w env userId req).2.bookings) ∧
    (∀ userId id reason,
      (cancelBooking (w.withProducer p) (env.withSend b) userId id reason).1 =
        (cancelBooking w env userId id reason).1 ∧
      (cancelBooking (w.withProducer p) (env.withSend b) userId id reason).2.showtimes =
        (cancelBooking w env userId id reason).2.showtimes ∧
      (cancelBooking (w.withProducer p) (env.withSend b) userId id reason).2.bookings =
        (cancelBooking w env userId id reason).2.bookings) ∧
    (∀ userId req,
      (verifyPayment (w.withProducer p) (env.withSend b) userId req).1 =
        (verifyPayment w env userId req).1 ∧
      (verifyPayment (w.withProducer p) (env.withSend b) userId req).2.bookings =
        (verifyPayment w env userId req).2.bookings) ∧
    (∀ userId bookingId fieldsValid,
      (paymentFailure (w.withProducer p) (env.withSend b) userId bookingId fieldsValid).1 =
        (paymentFailure w env userId bookingId fieldsValid).1 ∧
      (paymentFailure (w.withProducer p) (env.withSend b) userId bookingId
        fieldsValid).2.bookings =
        (paymentFailure w env userId bookingId fieldsValid).2.bookings) := by
  refine ⟨?_, ?_, ?_, ?_, ?_, ?_, ?_, ?_⟩
  · intro r h
    unfold publishToKafka
    rcases h with h | h <;> simp [h]
  · intro r
    unfold publishToKafka
    split_ifs <;> exact ⟨rfl, rfl, rfl, rfl⟩
  · intro userId showtimeId seatId row
    exact hold_publish_indep w env p b userId showtimeId seatId row
  · intro userId showtimeId seatId row
    exact release_publish_indep w env p b userId showtimeId seatId row
  · intro userId req
    exact createBooking_publish_indep w env p b userId req
  · intro userId id reason
    exact cancelBooking_publish_indep w env p b userId id reason
  · intro userId req
    exact verifyPayment_publish_indep w env p b userId req
  · intro userId bookingId fieldsValid
    exact paymentFailure_publish_indep w env p b userId bookingId fieldsValid

/-- With no producer and a rejecting `send`, publishing the event of a hold leaves the
example world as it is, and bob's hold of A3 is answered 200 as it is with a working
producer. -/
theorem publishToKafka_never_fails_caller_witness :
    (demoWorld.withProducer false).producer = false ∧
    publishToKafka (demoWorld.withProducer false) ((Env.calm 500 "x").withSend true)
      ⟨"seat-updates", some "S1", some "A3", [], none, "blocked", "bob", 500⟩ =
      demoWorld.withProducer false ∧
    (hold ((demoWorld.withProducer false).withProducer true)
      (((Env.calm 500 "x").withSend true).withSend false) "bob" "S1" "A3" none).1 =
      (hold (demoWorld.withProducer false) ((Env.calm 500 "x").withSend true)
        "bob" "S1" "A3" none).1 ∧
    (hold (demoWorld.withProducer false) ((Env.calm 500 "x").withSend true)
      "bob" "S1" "A3" none).1.status = 200 :=
  ⟨rfl,
    (publishToKafka_never_fails_caller (demoWorld.withProducer false)
      ((Env.calm 500 "x").withSend true) true false).1 _ (Or.inl rfl),
    ((publishToKafka_never_fails_caller (demoWorld.withProducer false)
      ((Env.calm 500 "x").withSend true) true false).2.2.1 "bob" "S1" "A3" none).1,
    by decide⟩

/-! ## The events of the seat and booking handlers -/

/-- The log of events after `publishToKafka`. -/
theorem publishToKafka_kafka (w : World) (env : Env) (r : KafkaRecord) :
    (publishToKafka w env r).kafka =
      if w.producer && !env.sendThrows then w.kafka ++ [r] else w.kafka := by
  unfold publishToKafka; split_ifs <;> rfl

theorem publishToKafka_emitted (w : World) (env : Env) (r : KafkaRecord) :
    (publishToKafka w env r).emitted = w.emitted := by
  unfold publishToKafka; split_ifs <;> rfl

theorem publishToKafka_producer (w : World) (env : Env) (r : KafkaRecord) :
    (publishToKafka w env r).producer = w.producer := by
  unfold publishToKafka; split_ifs <;> rfl

theorem emit_kafka (w : World) (e : SocketEvent) : (emit w e).kafka = w.kafka := rfl

theorem emit_emitted (w : World) (e : SocketEvent) :
    (emit w e).emitted = w.emitted ++ [e] := rfl

theorem saveShowtime_kafka (w : World) (s : Showtime) :
    (saveShowtime w s).kafka = w.kafka := rfl

theorem saveShowtime_emitted (w : World) (s : Showtime) :
    (saveShowtime w s).emitted = w.emitted := rfl

theorem saveShowtime_producer (w : World) (s : Showtime) :
    (saveShowtime w s).producer = w.producer := rfl

theorem saveBooking_kafka (w : World) (b : Booking) : (saveBooking w b).kafka = w.kafka := rfl

theorem saveBooking_emitted (w : World) (b : Booking) :
    (saveBooking w b).emitted = w.emitted := rfl

theorem saveBooking_producer (w : World) (b : Booking) :
    (saveBooking w b).producer = w.producer := rfl

theorem pushHistory_kafka (w : World) (u b : Id) : (pushHistory w u b).kafka = w.kafka := rfl

theorem pushHistory_emitted (w : World) (u b : Id) :
    (pushHistory w u b).emitted = w.emitted := rfl

theorem pushHistory_producer (w : World) (u b : Id) :
    (pushHistory w u b).producer = w.producer := rfl

theorem log_producer (w : World) (op : Op) : (w.log op).producer = w.producer := rfl

theorem setLocks_producer (w : World) (l : List LockEntry) :
    (w.setLocks l).producer = w.producer := rfl

/-- The events of a release: one `seat-updates` record (when the producer delivers) and
one socket event, both with status available, when the answer is 200; nothing when the
answer is a refusal. -/
theorem release_events (w : World) (env : Env) (userId showtimeId seatId : Id)
    (row : Option String) :
    ((release w env userId showtimeId seatId row).1.status = 200 →
      (release w env userId showtimeId seatId row).2.kafka =
        (if w.producer && !env.sendThrows then
          w.kafka ++ [⟨"seat-updates", some showtimeId, some seatId, [], none, "available",
            userId, env.now⟩]
        else w.kafka) ∧
      (release w env userId showtimeId seatId row).2.emitted =
        w.emitted ++ [⟨"showtime-" ++ showtimeId, seatId, "available", row⟩]) ∧
    ((release w env userId showtimeId seatId row).1.status ≠ 200 →
      (release w env userId showtimeId seatId row).1.status ≠ 500 →
      (release w env userId showtimeId seatId row).2.kafka = w.kafka ∧
      (release w env userId showtimeId seatId row).2.emitted = w.emitted) := by
  unfold release
  simp only [findShowtime_log]
  cases hst : findShowtime w showtimeId with
  | none => split_ifs <;> simp [reply, serverError]
  | some st =>
    simp only
    split_ifs <;>
      simp_all [reply, serverError, publishToKafka_kafka, publishToKafka_emitted, emit_kafka,
        emit_emitted, saveShowtime_kafka, saveShowtime_emitted, saveShowtime_producer,
        log_producer]

/-- The events of the critical section of a hold. -/
theorem holdCritical_events (w : World) (env : Env) (userId showtimeId seatId : Id)
    (row : Option String) (resp : Response)
    (h : (holdCritical w env userId showtimeId seatId row).1 = some resp) :
    (resp.status = 200 →
      (holdCritical w env userId showtimeId seatId row).2.kafka =
        (if w.producer && !env.sendThrows then
          w.kafka ++ [⟨"seat-updates", some showtimeId, some seatId, [], none, "blocked",
            userId, env.now⟩]
        else w.kafka) ∧
      (holdCritical w env userId showtimeId seatId row).2.emitted =
        w.emitted ++ [⟨"showtime-" ++ showtimeId, seatId, "blocked", row⟩]) ∧
    (resp.status ≠ 200 →
      (holdCritical w env userId showtimeId seatId row).2.kafka = w.kafka ∧
      (holdCritical w env userId showtimeId seatId row).2.emitted = w.emitted) := by
  revert h
  unfold holdCritical
  simp only [findShowtime_log]
  cases hst : findShowtime w showtimeId with
  | none =>
    split_ifs <;> intro h <;> simp at h <;> subst h <;> simp [reply]
  | some st =>
    simp only
    split_ifs <;> intro h <;> simp at h <;> subst h <;>
      simp_all [reply, publishToKafka_kafka, publishToKafka_emitted, emit_kafka,
        emit_emitted, saveShowtime_kafka, saveShowtime_emitted, saveShowtime_producer,
        log_producer]

/-- The events of a hold: one `seat-updates` record (when the producer delivers) and one
socket event, both with status blocked, when the answer is 200; nothing when the answer is
a refusal. -/
theorem hold_events (w : World) (env : Env) (userId showtimeId seatId : Id)
    (row : Option String) :
    ((hold w env userId showtimeId seatId row).1.status = 200 →
      (hold w env userId showtimeId seatId row).2.kafka =
        (if w.producer && !env.sendThrows then
          w.kafka ++ [⟨"seat-updates", some showtimeId, some seatId, [], none, "blocked",
            userId, env.now⟩]
        else w.kafka) ∧
      (hold w env userId showtimeId seatId row).2.emitted =
        w.emitted ++ [⟨"showtime-" ++ showtimeId, seatId, "blocked", row⟩]) ∧
    ((hold w env userId showtimeId seatId row).1.status ≠ 200 →
      (hold w env userId showtimeId seatId row).1.status ≠ 500 →
      (hold w env userId showtimeId seatId row).2.kafka = w.kafka ∧
      (hold w env userId showtimeId seatId row).2.emitted = w.emitted) := by
  unfold hold redisSet
  simp only [log_locks]
  generalize (⟨lockKey showtimeId seatId, userId, none⟩ ::
    w.locks.filter (fun e => e.key != lockKey showtimeId seatId) : List LockEntry) = locks
  cases hr : (holdCritical ((w.log (.redisSet (lockKey showtimeId seatId) userId
      30000)).setLocks locks) env userId showtimeId seatId row).1 with
  | none => simp [serverError, reply]
  | some resp =>
    have h := holdCritical_events _ env userId showtimeId seatId row resp hr
    simp only [setLocks_kafka, setLocks_emitted, log_kafka, log_emitted, setLocks_producer,
      log_producer] at h ⊢
    exact ⟨h.1, fun h1 _ => h.2 h1⟩

/-- The events of a booking: one `booking-updates` record with status created that lists
the requested seat ids (when the producer delivers) and no socket event when the answer
is 201; nothing when the answer is a refusal. -/
theorem createBooking_events (w : World) (env : Env) (userId : Id) (req : BookingRequest) :
    ((createBooking w env userId req).1.status = 201 →
      (createBooking w env userId req).2.kafka =
        (if w.producer && !env.sendThrows then
          w.kafka ++ [⟨"booking-updates", some req.showtimeId, none, req.seats,
            some env.newId, "created", userId, env.now⟩]
        else w.kafka) ∧
      (createBooking w env userId req).2.emitted = w.emitted) ∧
    ((createBooking w env userId req).1.status ≠ 201 →
      (createBooking w env userId req).2.kafka = w.kafka ∧
      (createBooking w env userId req).2.emitted = w.emitted) := by
  unfold createBooking
  simp only [findShowtime_log]
  cases hst : findShowtime w req.showtimeId with
  | none => split_ifs <;> simp [reply, serverError]
  | some st =>
    simp only
    cases hlay : st.layout with
    | none => split_ifs <;> simp [reply, serverError]
    | some layout =>
      simp only
      split_ifs <;>
        simp_all [reply, serverError, publishToKafka_kafka, publishToKafka_emitted,
          saveShowtime_kafka, saveShowtime_emitted, saveShowtime_producer, log_producer,
          pushHistory_kafka, pushHistory_emitted, pushHistory_producer, bookingDocument]

/-- The events of a cancellation: one `booking-updates` record with status cancelled
(when the producer delivers) and no socket event when the answer is 200; nothing
otherwise. -/
theorem cancelBooking_events (w : World) (env : Env) (userId id : Id)
    (reason : Option String) :
    ((cancelBooking w env userId id reason).1.status = 200 →
      (cancelBooking w env userId id reason).2.emitted = w.emitted ∧
      ∃ bk, findBooking w id userId = some bk ∧
        (cancelBooking w env userId id reason).2.kafka =
          (if w.producer && !env.sendThrows then
            w.kafka ++ [⟨"booking-updates", some bk.showtime, none, [], some bk._id,
              "cancelled", userId, env.now⟩]
          else w.kafka)) ∧
    ((cancelBooking w env userId id reason).1.status ≠ 200 →
      (cancelBooking w env userId id reason).2.kafka = w.kafka ∧
      (cancelBooking w env userId id reason).2.emitted = w.emitted) := by
  unfold cancelBooking
  simp only [findBooking_log, findShowtime_log]
  cases hb : findBooking w id userId with
  | none => split_ifs <;> simp [reply, serverError]
  | some bk =>
    simp only
    cases hst : findShowtime w bk.showtime with
    | none => split_ifs <;> simp [reply, serverError]
    | some st =>
      have hid := findShowtime_id hst
      simp only
      split_ifs <;>
        simp_all [reply, serverError, publishToKafka_kafka, publishToKafka_emitted,
          saveShowtime_kafka, saveShowtime_emitted, saveShowtime_producer, log_producer,
          saveBooking_kafka, saveBooking_emitted, saveBooking_producer]

/-! ## Release and expired holds -/

/-- C21, counterexample: at instant 5000 the only record of alice for seat A1 is a hold
that expired at instant 1000, and her release is answered 200, not 404: the record is
removed from the stored showtime, and the event of the release is published and
emitted. -/
theorem release_accepts_expired_hold :
    (∀ x ∈ recordsOf demoWorld "S1", x.seatId = "A1" → x.userId = "alice" →
      x.status = .held ∧ expiryAfter x.holdExpiry 5000 = false) ∧
    (release demoWorld (Env.calm 5000 "x") "alice" "S1" "A1" none).1.status = 200 ∧
    recordsOf (release demoWorld (Env.calm 5000 "x") "alice" "S1" "A1" none).2 "S1" =
      [⟨"A2", "alice", .held, some 1000⟩] ∧
    (release demoWorld (Env.calm 5000 "x") "alice" "S1" "A1" none).2.kafka =
      [⟨"seat-updates", some "S1", some "A1", [], none, "available", "alice", 5000⟩] ∧
    (release demoWorld (Env.calm 5000 "x") "alice" "S1" "A1" none).2.emitted =
      [⟨"showtime-S1", "A1", "available", none⟩] := by
  decide

/-- C21, amended: the release handler never looks at `holdExpiry`.  When no call rejects
and the showtime has a record of the user for the seat with status held, whatever its
expiry, the answer is 200, the stored records are the old ones without the held records
of the user for the seat, one event with status available is emitted to the room of the
showtime, and one `seat-updates` record with status available is published when the
producer is initialised and `send` resolves (no record otherwise).  The answer is 404 with
no showtime written, no record published and no event emitted when the user has no held
record for the seat. -/
theorem release_ignores_expiry (w : World) (env : Env) (userId showtimeId seatId : Id)
    (row : Option String) (hq : env.quiet) :
    (∀ x ∈ recordsOf w showtimeId, x.seatId = seatId → x.userId = userId → x.status = .held →
      (release w env userId showtimeId seatId row).1 = reply 200 "Seat released successfully" ∧
      recordsOf (release w env userId showtimeId seatId row).2 showtimeId =
        (recordsOf w showtimeId).filter (fun r => !ownHold userId seatId r) ∧
      x ∉ recordsOf (release w env userId showtimeId seatId row).2 showtimeId ∧
      (release w env userId showtimeId seatId row).2.kafka =
        (if w.producer && !env.sendThrows then
          w.kafka ++ [⟨"seat-updates", some showtimeId, some seatId, [], none, "available",
            userId, env.now⟩]
        else w.kafka) ∧
      (release w env userId showtimeId seatId row).2.emitted =
        w.emitted ++ [⟨"showtime-" ++ showtimeId, seatId, "available", row⟩]) ∧
    ((∀ x ∈ recordsOf w showtimeId, ownHold userId seatId x = false) →
      (release w env userId showtimeId seatId row).1.status = 404 ∧
      (release w env userId showtimeId seatId row).2.showtimes = w.showtimes ∧
      (release w env userId showtimeId seatId row).2.kafka = w.kafka ∧
      (release w env userId showtimeId seatId row).2.emitted = w.emitted) := by
  obtain ⟨hf, hsv, _, _, _, _, hem⟩ := hq
  constructor
  · intro x hx hs hu hh
    cases hst : findShowtime w showtimeId with
    | none => simp [recordsOf, hst] at hx
    | some st =>
      simp only [recordsOf, hst] at hx
      have hown : ownHold userId seatId x = true := by simp [ownHold, hs, hu, hh]
      rcases release_cases w env userId showtimeId seatId row with
        ⟨_, _, _, h⟩ | ⟨st', hst', _, _, _, hsh, hres⟩
      · exfalso
        rcases h with ⟨h, _⟩ | ⟨_, h, _⟩ | ⟨_, _, st', hst', hall⟩ | ⟨_, h, _⟩
        · simp [hf] at h
        · simp [hst] at h
        · rw [hst] at hst'
          cases hst'
          simp [hall x hx] at hown
        · simp [hsv] at h
      · rw [hst] at hst'
        cases hst'
        have hres' : (release w env userId showtimeId seatId row).1 =
            reply 200 "Seat released successfully" := by
          rcases hres with ⟨_, h⟩ | ⟨h, _⟩
          · exact h
          · simp [hem] at h
        have hrec : recordsOf (release w env userId showtimeId seatId row).2 showtimeId =
            st.bookedSeats.filter (fun r => !ownHold userId seatId r) := by
          unfold recordsOf
          rw [findShowtime_congr hsh, findShowtime_saveShowtime_same hst
            (s := { st with
              bookedSeats := st.bookedSeats.filter (fun r => !ownHold userId seatId r) }) rfl]
          simp
        have hev := (release_events w env userId showtimeId seatId row).1
          (by rw [hres']; rfl)
        refine ⟨hres', by simpa [recordsOf, hst] using hrec, ?_, hev.1, hev.2⟩
        rw [hrec]
        simp [List.mem_filter, hown]
  · intro hall
    rcases release_cases w env userId showtimeId seatId row with
      ⟨h1, h2, h3, h⟩ | ⟨st, hst, ⟨x, hx, hown⟩, _⟩
    · refine ⟨?_, h1, h2, h3⟩
      rcases h with ⟨h, _⟩ | ⟨_, _, h⟩ | ⟨_, h, _⟩ | ⟨_, h, _⟩
      · simp [hf] at h
      · simp [h, reply]
      · simp [h, reply]
      · simp [hsv] at h
    · exfalso
      have := hall x (by simpa [recordsOf, hst] using hx)
      simp [this] at hown

/-- At instant 5000 alice releases seat A1, which she held until instant 1000: 200, and
the record is gone; bob, who has no record for the seat, is answered 404. -/
theorem release_ignores_expiry_witness :
    (Env.calm 5000 "x").quiet ∧
    (⟨"A1", "alice", .held, some 1000⟩ : BookedSeat) ∈ recordsOf demoWorld "S1" ∧
    ((release demoWorld (Env.calm 5000 "x") "alice" "S1" "A1" none).1 =
        reply 200 "Seat released successfully" ∧
      recordsOf (release demoWorld (Env.calm 5000 "x") "alice" "S1" "A1" none).2 "S1" =
        (recordsOf demoWorld "S1").filter (fun r => !ownHold "alice" "A1" r) ∧
      (⟨"A1", "alice", .held, some 1000⟩ : BookedSeat) ∉
        recordsOf (release demoWorld (Env.calm 5000 "x") "alice" "S1" "A1" none).2 "S1" ∧
      (release demoWorld (Env.calm 5000 "x") "alice" "S1" "A1" none).2.kafka =
        (if demoWorld.producer && !(Env.calm 5000 "x").sendThrows then
          demoWorld.kafka ++ [⟨"seat-updates", some "S1", some "A1", [], none, "available",
            "alice", (Env.calm 5000 "x").now⟩]
        else demoWorld.kafka) ∧
      (release demoWorld (Env.calm 5000 "x") "alice" "S1" "A1" none).2.emitted =
        demoWorld.emitted ++ [⟨"showtime-" ++ "S1", "A1", "available", none⟩]) ∧
    ((release demoWorld (Env.calm 5000 "x") "bob" "S1" "A1" none).1.status = 404 ∧
      (release demoWorld (Env.calm 5000 "x") "bob" "S1" "A1" none).2.showtimes =
        demoWorld.showtimes ∧
      (release demoWorld (Env.calm 5000 "x") "bob" "S1" "A1" none).2.kafka =
        demoWorld.kafka ∧
      (release demoWorld (Env.calm 5000 "x") "bob" "S1" "A1" none).2.emitted =
        demoWorld.emitted) :=
  ⟨by simp [Env.quiet, Env.calm], by decide,
    (release_ignores_expiry demoWorld (Env.calm 5000 "x") "alice" "S1" "A1" none
      (by simp [Env.quiet, Env.calm])).1 ⟨"A1", "alice", .held, some 1000⟩ (by decide)
      rfl rfl rfl,
    (release_ignores_expiry demoWorld (Env.calm 5000 "x") "bob" "S1" "A1" none
      (by simp [Env.quiet, Env.calm])).2 (by decide)⟩

/-! ## The events of committed transitions -/

/-- C23, counterexample: alice books the two seats she holds and is answered 201; the
only event is one `booking-updates` record that lists both seat ids with status created.
No record goes to the `seat-updates` topic and nothing is emitted to the room of the
showtime.  Likewise her cancellation of the confirmed booking is answered 200 and adds
one `booking-updates` record and no socket event. -/
theorem booking_emits_no_seat_event :
    (createBooking demoWorld (Env.calm 500 "b1") "alice" ⟨"S1", ["A1", "A2"], true⟩).1.status
      = 201 ∧
    (createBooking demoWorld (Env.calm 500 "b1") "alice" ⟨"S1", ["A1", "A2"], true⟩).2.kafka =
      [⟨"booking-updates", some "S1", none, ["A1", "A2"], some "b1", "created", "alice",
        500⟩] ∧
    (createBooking demoWorld (Env.calm 500 "b1") "alice" ⟨"S1", ["A1", "A2"], true⟩).2.emitted
      = [] ∧
    (cancelBooking demoConfirmedWorld (Env.calm 700 "x") "alice" "b1" none).1.status = 200 ∧
    (cancelBooking demoConfirmedWorld (Env.calm 700 "x") "alice" "b1" none).2.kafka =
      demoConfirmedWorld.kafka ++
        [⟨"booking-updates", some "S1", none, [], some "b1", "cancelled", "alice", 700⟩] ∧
    (cancelBooking demoConfirmedWorld (Env.calm 700 "x") "alice" "b1" none).2.emitted = [] := by
  decide

/-- C23, amended: the events of the four handlers.  A hold answered 200 appends one record
to the `seat-updates` topic, with the showtime, the seat, status blocked, the user and the
time of the request, when the producer is initialised and `send` resolves (no record
otherwise), and emits one event with the seat id, status blocked and the row to the room
`showtime-{showtimeId}`; a release answered 200 does the same with status available.  A
booking answered 201 and a cancellation answered 200 append one `booking-updates` record
for the whole booking (status created with the requested seat ids, or status cancelled),
under the same condition, and emit nothing to the room.  A request answered with a status
from 400 to 499 leaves both sinks as they were. -/
theorem committed_transition_events (w : World) (env : Env) :
    (∀ userId showtimeId seatId row,
      (hold w env userId showtimeId seatId row).1.status = 200 →
      (hold w env userId showtimeId seatId row).2.kafka =
        (if w.producer && !env.sendThrows then
          w.kafka ++ [⟨"seat-updates", some showtimeId, some seatId, [], none, "blocked",
            userId, env.now⟩]
        else w.kafka) ∧
      (hold w env userId showtimeId seatId row).2.emitted =
        w.emitted ++ [⟨"showtime-" ++ showtimeId, seatId, "blocked", row⟩]) ∧
    (∀ userId showtimeId seatId row,
      (release w env userId showtimeId seatId row).1.status = 200 →
      (release w env userId showtimeId seatId row).2.kafka =
        (if w.producer && !env.sendThrows then
          w.kafka ++ [⟨"seat-updates", some showtimeId, some seatId, [], none, "available",
            userId, env.now⟩]
        else w.kafka) ∧
      (release w env userId showtimeId seatId row).2.emitted =
        w.emitted ++ [⟨"showtime-" ++ showtimeId, seatId, "available", row⟩]) ∧
    (∀ userId req,
      (createBooking w env userId req).1.status = 201 →
      (createBooking w env userId req).2.kafka =
        (if w.producer && !env.sendThrows then
          w.kafka ++ [⟨"booking-updates", some req.showtimeId, none, req.seats,
            some env.newId, "created", userId, env.now⟩]
        else w.kafka) ∧
      (createBooking w env userId req).2.emitted = w.emitted) ∧
    (∀ userId id reason,
      (cancelBooking w env userId id reason).1.status = 200 →
      (cancelBooking w env userId id reason).2.emitted = w.emitted ∧
      ∃ bk, findBooking w id userId = some bk ∧
        (cancelBooking w env userId id reason).2.kafka =
          (if w.producer && !env.sendThrows then
            w.kafka ++ [⟨"booking-updates", some bk.showtime, none, [], some bk._id,
              "cancelled", userId, env.now⟩]
          else w.kafka)) ∧
    (∀ rq, 400 ≤ (step w env rq).1.status → (step w env rq).1.status < 500 →
      (step w env rq).2.kafka = w.kafka ∧ (step w env rq).2.emitted = w.emitted) := by
  refine ⟨?_, ?_, ?_, ?_, ?_⟩
  · intro userId showtimeId seatId row
    exact (hold_events w env userId showtimeId seatId row).1
  · intro userId showtimeId seatId row
    exact (release_events w env userId showtimeId seatId row).1
  · intro userId req
    exact (createBooking_events w env userId req).1
  · intro userId id reason
    exact (cancelBooking_events w env userId id reason).1
  · intro rq h1 h2
    cases rq with
    | hold userId showtimeId seatId row =>
      exact (hold_events w env userId showtimeId seatId row).2
        (fun h => by simp only [step] at h1; omega) (fun h => by simp only [step] at h2; omega)
    | release userId showtimeId seatId row =>
      exact (release_events w env userId showtimeId seatId row).2
        (fun h => by simp only [step] at h1; omega) (fun h => by simp only [step] at h2; omega)
    | createBooking userId req =>
      exact (createBooking_events w env userId req).2
        (fun h => by simp only [step] at h1; omega)
    | cancelBooking userId id reason =>
      exact (cancelBooking_events w env userId id reason).2
        (fun h => by simp only [step] at h1; omega)

/-- In the example world bob's hold of the free seat A3 is answered 200 and produces the
record and the socket event with status blocked, while his hold of seat A1, which alice
holds, is answered 409 and produces nothing. -/
theorem committed_transition_events_witness :
    ((hold demoWorld (Env.calm 500 "x") "bob" "S1" "A3" (some "A")).2.kafka =
        (if demoWorld.producer && !(Env.calm 500 "x").sendThrows then
          demoWorld.kafka ++ [⟨"seat-updates", some "S1", some "A3", [], none, "blocked",
            "bob", (Env.calm 500 "x").now⟩]
        else demoWorld.kafka) ∧
      (hold demoWorld (Env.calm 500 "x") "bob" "S1" "A3" (some "A")).2.emitted =
        demoWorld.emitted ++ [⟨"showtime-" ++ "S1", "A3", "blocked", some "A"⟩]) ∧
    (step demoWorld (Env.calm 500 "x") (.hold "bob" "S1" "A1" none)).1.status = 409 ∧
    ((step demoWorld (Env.calm 500 "x") (.hold "bob" "S1" "A1" none)).2.kafka =
        demoWorld.kafka ∧
      (step demoWorld (Env.calm 500 "x") (.hold "bob" "S1" "A1" none)).2.emitted =
        demoWorld.emitted) :=
  ⟨(committed_transition_events demoWorld (Env.calm 500 "x")).1 "bob" "S1" "A3" (some "A")
      (by decide),
    by decide,
    (committed_transition_events demoWorld (Env.calm 500 "x")).2.2.2.2
      (.hold "bob" "S1" "A1" none) (by decide) (by decide)⟩

/-! ## Concurrent hold requests -/

/-- A step of the only request of a system. -/
theorem step_single (showtimeId seatId : Id) (w : World) (p : HoldProc) (env : Env) :
    HoldSystem.step showtimeId seatId ⟨w, [p]⟩ 0 env =
      ⟨(holdStep showtimeId seatId env w p).1, [(holdStep showtimeId seatId env w p).2]⟩ := rfl

/-- A request that runs alone with one clock reading is the sequential handler. -/
theorem runHolds_alone (w : World) (env : Env) (userId showtimeId seatId : Id)
    (row : Option String) :
    runHolds showtimeId seatId ⟨w, [⟨userId, row, .start⟩]⟩
        [(0, env), (0, env), (0, env), (0, env), (0, env)] =
      ⟨(hold w env userId showtimeId seatId row).2,
        [⟨userId, row, .done (hold w env userId showtimeId seatId row).1⟩]⟩ := by
  simp only [runHolds, step_single]
  have h1 : holdStep showtimeId seatId env w ⟨userId, row, .start⟩ =
      ((w.log (.redisSet (lockKey showtimeId seatId) userId 30000)).setLocks
        (⟨lockKey showtimeId seatId, userId, none⟩ ::
          w.locks.filter (fun e => e.key != lockKey showtimeId seatId)),
        ⟨userId, row, .locked⟩) := by
    simp [holdStep, redisSet]
  rw [h1, hold_eq]
  simp only
  generalize (w.log (.redisSet (lockKey showtimeId seatId) userId 30000)).setLocks
    (⟨lockKey showtimeId seatId, userId, none⟩ ::
      w.locks.filter (fun e => e.key != lockKey showtimeId seatId)) = w1
  unfold holdCritical
  simp only [findShowtime_log]
  cases hf : env.showtimeFindThrows
  case true => simp [holdStep, hf, serverError]
  cases hst : findShowtime w1 showtimeId with
  | none => simp [holdStep, hf, hst, findShowtime_log]
  | some st =>
    cases hav : isSeatAvailable st seatId env.now
    case false => simp [holdStep, hf, hst, hav, findShowtime_log]
    cases hs : env.showtimeSaveThrows
    case true => simp [holdStep, hf, hst, hav, hs, findShowtime_log, serverError]
    cases he : env.emitThrows
    case true => simp [holdStep, hf, hst, hav, hs, he, findShowtime_log, serverError]
    simp [holdStep, hf, hst, hav, hs, he, findShowtime_log]

/-- When bob finishes before carol starts, carol reads bob's hold and is answered 409:
the test of the seat records is what refuses her. -/
theorem holds_in_sequence :
    (runHolds "S1" "A3" ⟨demoWorld, demoRequests⟩ demoLateSchedule).procs.map
      (fun p => p.phase.answer.map (fun r => (r.status, r.message))) =
      [some (200, "Seat held successfully"), some (409, "Seat is not available")] := by
  decide

/-- C24, evaluated on the code: bob and carol ask to hold the free seat A3 and their
steps alternate, ten milliseconds apart.  Both `SET`s are answered `OK` (the second
overwrites the entry of the first), both requests read the seat as available before
either saves, both save their hold, and both are answered 200: two requests succeed and
none is answered 409.  The stored showtime is left with the hold of carol only. -/
theorem concurrent_holds_both_succeed :
    isSeatAvailable demoShowtime "A3" 500 = true ∧
    demoSchedule.map (fun e => (e.1, e.2.now)) =
      [(0, 500), (1, 510), (0, 520), (1, 530), (0, 540), (1, 550), (0, 560), (1, 570),
        (0, 580), (1, 590)] ∧
    (runHolds "S1" "A3" ⟨demoWorld, demoRequests⟩ demoSchedule).procs.map
      (fun p => (p.userId, p.phase.answer.map (fun r => (r.status, r.message)))) =
      [("bob", some (200, "Seat held successfully")),
        ("carol", some (200, "Seat held successfully"))] ∧
    answered 200 (runHolds "S1" "A3" ⟨demoWorld, demoRequests⟩ demoSchedule).procs = 2 ∧
    answered 409 (runHolds "S1" "A3" ⟨demoWorld, demoRequests⟩ demoSchedule).procs = 0 ∧
    (recordsOf (runHolds "S1" "A3" ⟨demoWorld, demoRequests⟩ demoSchedule).world "S1").filter
      (fun r => r.seatId == "A3") = [⟨"A3", "carol", .held, some 600530⟩] := by
  decide

end SeatBooking
